import Mathlib

/-!
# Spartan RHI: command list life cycle and descriptor resolution

A shallow embedding of `Runtime/RHI/RHI_Pipeline.cpp`,
`Runtime/RHI/Vulkan/Vulkan_CommandList.cpp`, the record `RHI_Command` of
`Runtime/RHI/RHI_CommandList.h` and four passes of
`Runtime/Rendering/Renderer_Passes.cpp`.

Conventions of the embedding.

* `uint32_t` values are natural numbers; arithmetic that can wrap is reduced
  modulo `UINT32`.
* A `void*` handle is a natural number and `0` is `nullptr`.
* A pointer to an object of the engine is an `Option`; `none` is `nullptr`.
  An operation that reads an object through a null `m_pipeline` has no
  result (`none`).
* The marker vector `m_passes_active` is subscripted unchecked, as in the source.
  In the methods themselves a read outside the vector finds the value supplied
  as `EndInput.stray` and a write outside the vector is not recorded; whether a
  subscript is inside the vector is asked of `End.in_range` and
  `Begin_pass_name.in_range`. Sequences of calls (`step`) treat a subscript
  outside the vector as undefined behaviour: the call has no result.
* The calls a function makes to the native API and to its collaborators are
  appended, in order, to the log `calls` of the command list.
* Results of native calls and of collaborators whose code is not part of the
  embedded files are inputs of the operation that makes the call.
* A render pass is embedded as the list of calls it makes on the command list
  it is given (`PassCall`), together with the renderer members it assigns.
-/

namespace Spartan

/-- Number of values of a `uint32_t`. -/
def UINT32 : Nat := 4294967296

/-- The value an `int32_t` parameter receives when the argument is a `uint32_t`: from
2147483648 up the value arrives as the negative number of the same bit pattern. -/
def int32_of_uint32 (value : Nat) : Int :=
  if value % UINT32 < 2147483648 then ((value % UINT32 : Nat) : Int)
  else ((value % UINT32 : Nat) : Int) - ((UINT32 : Nat) : Int)

/-! ## Descriptors and resources -/

/-- Kinds of descriptor tested by `RHI_Pipeline.cpp`. -/
inductive RHI_Descriptor_Type where
  | RHI_Descriptor_Sampler
  | RHI_Descriptor_Texture
  | RHI_Descriptor_ConstantBuffer
  deriving DecidableEq, Repr

/-- The record `RHI_Descriptor`, with the fields the embedded files read and write. -/
structure RHI_Descriptor where
  slot : Nat
  stage : Nat
  id : Nat
  size : Nat
  type : RHI_Descriptor_Type
  layout : Nat
  resource : Nat
  user_data : Nat
  deriving DecidableEq, Repr

/-- What `RHI_Pipeline::SetConstantBuffer` reads from an `RHI_ConstantBuffer`. -/
structure RHI_ConstantBuffer where
  GetId : Nat
  GetResource : Nat
  GetSize : Nat
  deriving DecidableEq, Repr

/-- What `RHI_Pipeline::SetSampler` reads from an `RHI_Sampler`. -/
structure RHI_Sampler where
  GetId : Nat
  GetResource : Nat
  deriving DecidableEq, Repr

/-- What the embedded files read from an `RHI_Texture`; `address` is the value of a
pointer to the object, as stored in `user_data`. -/
structure RHI_Texture where
  address : Nat
  GetId : Nat
  GetResource_View : Nat
  GetLayout : Nat
  IsSampled : Bool
  deriving DecidableEq, Repr

/-- The fields of `RHI_Context` read by the embedded files. -/
structure RHI_Context where
  shader_shift_buffer : Nat
  shader_shift_sampler : Nat
  shader_shift_texture : Nat
  debug : Bool
  deriving DecidableEq, Repr

/-- The device, reduced to the context it hands out. -/
structure RHI_Device where
  GetContextRhi : RHI_Context
  deriving DecidableEq, Repr

/-- A four component vector; the components stand for the `float` values, which are
only ever compared with a sentinel. -/
structure Vector4 where
  x : Int
  y : Int
  z : Int
  w : Int
  deriving DecidableEq, Repr

/-- What `RHI_Pipeline::ReflectShaders` reads from an `RHI_Shader`: whether
`GetCompilationState()` is `Shader_Compilation_Compiling`, and the descriptor list. -/
structure RHI_Shader where
  compiling : Bool
  GetDescriptors : List RHI_Descriptor
  deriving DecidableEq, Repr

/-- The fields of `RHI_PipelineState` read by `Begin`, `Submit` and `ReflectShaders`.
`render_target_color_clear` is the array of `state_max_render_target_count` clear
colours; `render_target_swapchain` is the swapchain pointer, represented by the
acquired-image semaphore it hands out; `shader_vertex` and `shader_pixel` are the shader
pointers. -/
structure RHI_PipelineState where
  render_target_color_clear : List Vector4
  render_target_depth_clear : Int
  render_target_swapchain : Option Nat
  GetRenderPass : Nat
  GetFrameBuffer : Nat
  GetWidth : Nat
  GetHeight : Nat
  shader_vertex : Option RHI_Shader := none
  shader_pixel : Option RHI_Shader := none
  deriving DecidableEq, Repr

/-- Constants of `RHI_Definition.h` used by `Begin`; the header is not among the embedded
files, so they are parameters. -/
structure RHI_Definition where
  state_max_render_target_count : Nat
  state_dont_clear_color : Vector4
  state_dont_clear_depth : Int
  deriving DecidableEq, Repr

/-- The helper `Utility::Hash::hash_combine` (seed, value, new seed) and the numeric value of
a descriptor kind under `static_cast<uint32_t>`; both live in headers that are not among
the embedded files, so they are parameters. -/
structure Utility_Hash where
  hash_combine : Nat → Nat → Nat
  type_code : RHI_Descriptor_Type → Nat

/-! ## Pipeline -/

/-- The object `RHI_Pipeline`: descriptor blueprint, dirty flag, descriptor-set cache
(`std::map<size_t, void*>`, held as an association list with unique keys), the compiled
pipeline handle and its layout, and the pipeline state it was built from. -/
structure RHI_Pipeline where
  m_rhi_device : RHI_Device
  m_state : RHI_PipelineState
  m_descriptors : List RHI_Descriptor
  m_descriptor_dirty : Bool
  m_descriptor_resources : List (Nat × Nat)
  m_pipeline : Nat
  m_pipeline_layout : Nat
  deriving DecidableEq, Repr

namespace RHI_Pipeline

/-- The descriptor a binding call addresses: the first one, in blueprint order, of the given
kind at the given (shifted) slot. -/
def first_of_kind (type : RHI_Descriptor_Type) (slot : Nat) (descriptors : List RHI_Descriptor) :
    Option RHI_Descriptor :=
  descriptors.find? (fun descriptor => decide (descriptor.type = type ∧ descriptor.slot = slot))

/-- Loop of `SetConstantBuffer` over the blueprint: the first descriptor of kind constant
buffer at `slot` is updated, the flag is raised when the id changes, and the loop stops. -/
def SetConstantBuffer.loop (slot : Nat) (constant_buffer : RHI_ConstantBuffer) :
    List RHI_Descriptor → Bool → List RHI_Descriptor × Bool
  | [], dirty => ([], dirty)
  | descriptor :: rest, dirty =>
    if descriptor.type = RHI_Descriptor_Type.RHI_Descriptor_ConstantBuffer ∧ descriptor.slot = slot then
      ({ descriptor with
          id := constant_buffer.GetId,
          resource := constant_buffer.GetResource,
          size := constant_buffer.GetSize } :: rest,
        if descriptor.id ≠ constant_buffer.GetId then true else dirty)
    else
      let r := SetConstantBuffer.loop slot constant_buffer rest dirty
      (descriptor :: r.1, r.2)

/-- The method `RHI_Pipeline::SetConstantBuffer`. -/
def SetConstantBuffer (p : RHI_Pipeline) (slot : Nat) (constant_buffer : RHI_ConstantBuffer) :
    RHI_Pipeline :=
  let r := SetConstantBuffer.loop
    ((slot + p.m_rhi_device.GetContextRhi.shader_shift_buffer) % UINT32)
    constant_buffer p.m_descriptors p.m_descriptor_dirty
  { p with m_descriptors := r.1, m_descriptor_dirty := r.2 }

/-- Loop of `SetSampler` over the blueprint. -/
def SetSampler.loop (slot : Nat) (sampler : RHI_Sampler) :
    List RHI_Descriptor → Bool → List RHI_Descriptor × Bool
  | [], dirty => ([], dirty)
  | descriptor :: rest, dirty =>
    if descriptor.type = RHI_Descriptor_Type.RHI_Descriptor_Sampler ∧ descriptor.slot = slot then
      ({ descriptor with
          id := sampler.GetId,
          resource := sampler.GetResource } :: rest,
        if descriptor.id ≠ sampler.GetId then true else dirty)
    else
      let r := SetSampler.loop slot sampler rest dirty
      (descriptor :: r.1, r.2)

/-- The method `RHI_Pipeline::SetSampler`. -/
def SetSampler (p : RHI_Pipeline) (slot : Nat) (sampler : RHI_Sampler) : RHI_Pipeline :=
  let r := SetSampler.loop
    ((slot + p.m_rhi_device.GetContextRhi.shader_shift_sampler) % UINT32)
    sampler p.m_descriptors p.m_descriptor_dirty
  { p with m_descriptors := r.1, m_descriptor_dirty := r.2 }

/-- Loop of `SetTexture` over the blueprint: at the first descriptor of kind texture at
`slot`, a texture that is not sampled ends the method with nothing applied; otherwise the
descriptor is updated, the flag is raised when the id changes, and the loop stops. -/
def SetTexture.loop (slot : Nat) (texture : RHI_Texture) :
    List RHI_Descriptor → Bool → List RHI_Descriptor × Bool
  | [], dirty => ([], dirty)
  | descriptor :: rest, dirty =>
    if descriptor.type = RHI_Descriptor_Type.RHI_Descriptor_Texture ∧ descriptor.slot = slot then
      if !texture.IsSampled then
        (descriptor :: rest, dirty)
      else
        ({ descriptor with
            id := texture.GetId,
            resource := texture.GetResource_View,
            layout := texture.GetLayout,
            user_data := texture.address } :: rest,
          if descriptor.id ≠ texture.GetId then true else dirty)
    else
      let r := SetTexture.loop slot texture rest dirty
      (descriptor :: r.1, r.2)

/-- The method `RHI_Pipeline::SetTexture`. -/
def SetTexture (p : RHI_Pipeline) (slot : Nat) (texture : RHI_Texture) : RHI_Pipeline :=
  let r := SetTexture.loop
    ((slot + p.m_rhi_device.GetContextRhi.shader_shift_texture) % UINT32)
    texture p.m_descriptors p.m_descriptor_dirty
  { p with m_descriptors := r.1, m_descriptor_dirty := r.2 }

/-- The method `RHI_Pipeline::GetDescriptorBlueprintHash`. As in the source, the argument
`descriptor_blueprint` is not read: the loop runs over `m_descriptors`. -/
def GetDescriptorBlueprintHash (H : Utility_Hash) (p : RHI_Pipeline)
    (_descriptor_blueprint : List RHI_Descriptor) : Nat :=
  p.m_descriptors.foldl
    (fun hash descriptor =>
      let h1 := H.hash_combine hash descriptor.slot
      let h2 := H.hash_combine h1 descriptor.stage
      let h3 := H.hash_combine h2 descriptor.id
      let h4 := H.hash_combine h3 descriptor.size
      let h5 := H.hash_combine h4 (H.type_code descriptor.type)
      H.hash_combine h5 descriptor.layout)
    0

/-- Assignment `m[key] = value` of a `std::map`: an existing key gets the new value, a new
key is added. -/
def map_assign (m : List (Nat × Nat)) (key value : Nat) : List (Nat × Nat) :=
  match m with
  | [] => [(key, value)]
  | (k, v) :: rest => if k = key then (k, value) :: rest else (k, v) :: map_assign rest key value

/-- Modelled from the spec: `RHI_Pipeline::CreateDescriptorSet`, whose definition
(`Vulkan_Pipeline.cpp`) is not among the embedded files. The spec: "creates a new
descriptor-set object reflecting the current blueprint, caches it under the hash, and
returns it", and, of the draw that creates a set, "resolves and binds a new descriptor set
and clears dirty". `GetDescriptorSet` does not write the flag on this path, so clearing it
is the callee's part. `descriptor_set` is the handle of the object the native API
creates. -/
def CreateDescriptorSet (p : RHI_Pipeline) (hash : Nat) (descriptor_set : Nat) :
    Nat × RHI_Pipeline :=
  (descriptor_set,
    { p with
      m_descriptor_resources := map_assign p.m_descriptor_resources hash descriptor_set
      m_descriptor_dirty := false })

/-- The method `RHI_Pipeline::GetDescriptorSet`: returned handle and pipeline afterwards.
`descriptor_set` is the handle a creation would produce. -/
def GetDescriptorSet (H : Utility_Hash) (p : RHI_Pipeline) (descriptor_set : Nat) :
    Nat × RHI_Pipeline :=
  let hash := GetDescriptorBlueprintHash H p p.m_descriptors
  match p.m_descriptor_resources.lookup hash with
  | some cached =>
    if p.m_descriptor_dirty then
      (cached, { p with m_descriptor_dirty := false })
    else
      (0, p)
  | none => CreateDescriptorSet p hash descriptor_set

/-- The method `RHI_Pipeline::RevertTextureLayouts`: its body is commented out in the source. -/
def RevertTextureLayouts (p : RHI_Pipeline) : RHI_Pipeline := p

/-- Inner loop of `ReflectShaders` for one reflected pixel-shader descriptor: the first
descriptor of the blueprint with the same type and slot gets the reflected stage OR-ed into
its stage and the loop stops. The flag is the local `updated_existing`. -/
def ReflectShaders.update (descriptor_reflected : RHI_Descriptor) :
    List RHI_Descriptor → List RHI_Descriptor × Bool
  | [] => ([], false)
  | descriptor :: rest =>
    if descriptor.type = descriptor_reflected.type ∧ descriptor.slot = descriptor_reflected.slot then
      ({ descriptor with stage := descriptor.stage ||| descriptor_reflected.stage } :: rest, true)
    else
      let r := ReflectShaders.update descriptor_reflected rest
      (descriptor :: r.1, r.2)

/-- Body of the loop of `ReflectShaders` over the pixel shader's descriptors: the inner loop,
then the reflected descriptor is added when no updating took place. -/
def ReflectShaders.merge (descriptors : List RHI_Descriptor)
    (descriptor_reflected : RHI_Descriptor) : List RHI_Descriptor :=
  let r := ReflectShaders.update descriptor_reflected descriptors
  if r.2 = false then r.1 ++ [descriptor_reflected] else r.1

/-- The method `RHI_Pipeline::ReflectShaders`. The two `while` loops wait for a shader that
is compiling; the shader is a value here, so a shader that is compiling keeps the loop from
ever ending and the method has no result (`none`). -/
def ReflectShaders (p : RHI_Pipeline) : Option RHI_Pipeline :=
  match p.m_state.shader_vertex with
  | none => some { p with m_descriptors := [] }
  | some shader_vertex =>
    if shader_vertex.compiling then none
    else
      match p.m_state.shader_pixel with
      | none => some { p with m_descriptors := shader_vertex.GetDescriptors }
      | some shader_pixel =>
        if shader_pixel.compiling then none
        else
          some { p with
            m_descriptors :=
              shader_pixel.GetDescriptors.foldl ReflectShaders.merge shader_vertex.GetDescriptors }

/-- The pair (slot, kind) that identifies a descriptor within a blueprint. -/
def slot_kind (descriptor : RHI_Descriptor) : Nat × RHI_Descriptor_Type :=
  (descriptor.slot, descriptor.type)

/-- The tuple of a descriptor that `GetDescriptorBlueprintHash` feeds to the hash. -/
def hash_tuple (descriptor : RHI_Descriptor) :
    Nat × Nat × Nat × Nat × RHI_Descriptor_Type × Nat :=
  (descriptor.slot, descriptor.stage, descriptor.id, descriptor.size, descriptor.type,
    descriptor.layout)

/-- The merge rule in the words of the specification, for one descriptor of the later-merged
stage: if a descriptor with matching (kind, slot) already exists, the first such descriptor
has its stage mask OR-ed with the new stage and nothing is added; otherwise the descriptor
is appended. -/
def merge_rule (blueprint : List RHI_Descriptor) (reflected : RHI_Descriptor) :
    List RHI_Descriptor :=
  if blueprint.any (fun d => decide (d.type = reflected.type ∧ d.slot = reflected.slot)) then
    blueprint.modify (fun d => { d with stage := d.stage ||| reflected.stage })
      (blueprint.findIdx (fun d => decide (d.type = reflected.type ∧ d.slot = reflected.slot)))
  else
    blueprint ++ [reflected]

/-- The descriptor list of an optional shader: empty for a null pointer. -/
def descriptors_of (shader : Option RHI_Shader) : List RHI_Descriptor :=
  match shader with
  | none => []
  | some s => s.GetDescriptors

/-- Whether an optional shader is present and still compiling. -/
def is_compiling (shader : Option RHI_Shader) : Bool :=
  match shader with
  | none => false
  | some s => s.compiling

end RHI_Pipeline

/-! ## Command list -/

/-- The enumeration `RHI_Cmd_List_State`. -/
inductive RHI_Cmd_List_State where
  | RHI_Cmd_List_Idle
  | RHI_Cmd_List_Idle_Sync_Cpu_To_Gpu
  | RHI_Cmd_List_Recording
  | RHI_Cmd_List_Ended
  deriving DecidableEq, Repr

/-- The record `RHI_Viewport`; the fields stand for the `float` values. -/
structure RHI_Viewport where
  x : Int
  y : Int
  width : Int
  height : Int
  depth_min : Int
  depth_max : Int
  deriving DecidableEq, Repr

/-- The record `Math::Rectangle`; the fields stand for the `float` values. -/
structure Rectangle where
  x : Int
  y : Int
  width : Int
  height : Int
  deriving DecidableEq, Repr

/-- What `SetBufferVertex` reads from an `RHI_VertexBuffer`. -/
structure RHI_VertexBuffer where
  GetResource : Nat
  deriving DecidableEq, Repr

/-- What `SetBufferIndex` reads from an `RHI_IndexBuffer`. -/
structure RHI_IndexBuffer where
  GetResource : Nat
  Is16Bit : Bool
  deriving DecidableEq, Repr

/-- An entry of the `VkClearValue` array filled by `Begin`. -/
inductive VkClearValue where
  | color (c : Vector4)
  | depthStencil (depth : Int) (stencil : Nat)
  deriving DecidableEq, Repr

/-- The calls the command list makes to the native API, to the debug-marker and fence
helpers of `vulkan_common`, to the profiler and to the pipeline cache, with the arguments
the source passes. In `vkCmdBeginRenderPass`, `pClearValues` lists the entries of the array
that were written, in order; the array itself has `clearValueCount` slots in the source only
when the two agree. In `vkQueueSubmit`, `result` tells whether `check_result` accepted the
returned code. -/
inductive Call where
  | command_buffer_create
  | fence_create
  | TimeBlockStart (pass_name : String)
  | TimeBlockEnd
  | debug_begin (pass_name : String)
  | debug_end
  | fence_wait_reset
  | OnCommandListConsumed
  | vkBeginCommandBuffer
  | GetPipeline
  | AcquireNextImage
  | vkCmdBeginRenderPass (renderPass framebuffer width height clearValueCount : Nat)
      (pClearValues : List VkClearValue)
  | vkCmdBindPipeline (pipeline : Nat)
  | vkCmdEndRenderPass
  | vkEndCommandBuffer
  | vkCmdBindDescriptorSets (layout firstSet descriptorSetCount descriptor_set
      dynamicOffsetCount : Nat)
  | vkCmdDraw (vertexCount instanceCount firstVertex firstInstance : Nat)
  | vkCmdDrawIndexed (indexCount instanceCount firstIndex : Nat) (vertexOffset : Int)
      (firstInstance : Nat)
  | vkCmdSetViewport (firstViewport viewportCount : Nat) (viewport : RHI_Viewport)
  | vkCmdSetScissor (firstScissor scissorCount : Nat) (scissor : Rectangle)
  | vkCmdBindVertexBuffers (firstBinding bindingCount buffer offset : Nat)
  | vkCmdBindIndexBuffer (buffer offset : Nat) (is16Bit : Bool)
  | vkQueueSubmit (waitSemaphoreCount : Nat) (waitSemaphore : Nat) (result : Bool)
  deriving DecidableEq, Repr

/-- The members of `Renderer` the command list reaches: the resources bound by
`SetGlobalSamplersAndConstantBuffers`, the two buffer-scope flags it passes, and the black
texture. -/
structure Renderer where
  m_buffer_frame_gpu : RHI_ConstantBuffer
  m_buffer_uber_gpu : RHI_ConstantBuffer
  m_buffer_light_gpu : RHI_ConstantBuffer
  m_sampler_compare_depth : RHI_Sampler
  m_sampler_point_clamp : RHI_Sampler
  m_sampler_bilinear_clamp : RHI_Sampler
  m_sampler_bilinear_wrap : RHI_Sampler
  m_sampler_trilinear_clamp : RHI_Sampler
  m_sampler_anisotropic_wrap : RHI_Sampler
  RHI_Buffer_VertexShader : Nat
  RHI_Buffer_PixelShader : Nat
  GetBlackTexture : RHI_Texture
  deriving DecidableEq, Repr

/-- The object `RHI_CommandList` of `Vulkan_CommandList.cpp`. `m_profiler` tells whether the
profiler pointer is non-null. `m_passes_active` is the vector of marker flags and
`m_pass_index` the `uint32_t` marker depth. `calls` is the log of calls made so far, oldest
first. -/
structure RHI_CommandList where
  m_renderer : Renderer
  m_profiler : Bool
  m_rhi_device : RHI_Device
  m_passes_active : List Bool
  m_pass_index : Nat
  m_pipeline : Option RHI_Pipeline
  m_cmd_state : RHI_Cmd_List_State
  calls : List Call
  deriving DecidableEq, Repr

/-- Outcomes of the calls `End` makes: whether `vkEndCommandBuffer` and `TimeBlockEnd`
succeed, and `stray`, the value the unchecked subscript `m_passes_active[m_pass_index - 1]`
finds when the index lies outside the vector. -/
structure EndInput where
  vkEndCommandBuffer : Bool
  TimeBlockEnd : Bool
  stray : Bool
  deriving DecidableEq, Repr

/-- Outcomes of the calls `Begin(RHI_PipelineState&)` makes: whether `vkBeginCommandBuffer`
succeeds, what the pipeline cache returns, whether `AcquireNextImage` succeeds, what
`OnCommandListConsumed` (defined outside the embedded files) does to the pipeline, and the
outcomes for the `End` that a failed `Begin` calls. -/
structure BeginInput where
  vkBeginCommandBuffer : Bool
  GetPipeline : RHI_PipelineState → Option RHI_Pipeline
  AcquireNextImage : Bool
  OnCommandListConsumed : RHI_Pipeline → RHI_Pipeline
  end_input : EndInput

namespace RHI_CommandList

open RHI_Cmd_List_State

/-- The constructor: a vector of 100 cleared marker flags, a command buffer and a fence.
The remaining members have their default initialisers. -/
def new (renderer : Renderer) (profiler : Bool) (rhi_device : RHI_Device) : RHI_CommandList :=
  { m_renderer := renderer
    m_profiler := profiler
    m_rhi_device := rhi_device
    m_passes_active := List.replicate 100 false
    m_pass_index := 0
    m_pipeline := none
    m_cmd_state := RHI_Cmd_List_Idle
    calls := [Call.command_buffer_create, Call.fence_create] }

/-- The overload `Begin(const std::string& pass_name)`. The flag at `m_pass_index` is set
(nothing is recorded when the index is outside the vector) and the index is incremented. -/
def Begin_pass_name (cl : RHI_CommandList) (pass_name : String) : Bool × RHI_CommandList :=
  (true,
    { cl with
      calls := cl.calls
        ++ (if cl.m_profiler then [Call.TimeBlockStart pass_name] else [])
        ++ (if cl.m_rhi_device.GetContextRhi.debug then [Call.debug_begin pass_name] else [])
      m_passes_active := cl.m_passes_active.set cl.m_pass_index true
      m_pass_index := (cl.m_pass_index + 1) % UINT32 })

/-- Index `m_pass_index - 1` in `uint32_t` arithmetic, the subscript `End` reads. -/
def End.subscript (cl : RHI_CommandList) : Nat :=
  (cl.m_pass_index + UINT32 - 1) % UINT32

/-- First block of `End`, "End pass": in state `Recording` the render pass and the command
buffer are ended and the state becomes `Ended`. The flag is the local `result`.
`RevertTextureLayouts` is called through `m_pipeline` whether or not it is null; its body is
empty, so nothing is read through the pointer. -/
def End.pass (cl : RHI_CommandList) (inp : EndInput) : Bool × RHI_CommandList :=
  if cl.m_cmd_state = RHI_Cmd_List_Recording then
    (inp.vkEndCommandBuffer,
      { cl with
        calls := cl.calls ++ [Call.vkCmdEndRenderPass, Call.vkEndCommandBuffer]
        m_pipeline := cl.m_pipeline.map RHI_Pipeline.RevertTextureLayouts
        m_cmd_state := RHI_Cmd_List_Ended })
  else
    (true, cl)

/-- Second block of `End`, "End marker/profiler", applied to the local `result` and the
command list left by the first block: when the flag under the subscript is set, the marker
is popped and the marker and profiler scopes are ended. -/
def End.marker (r : Bool × RHI_CommandList) (inp : EndInput) : Bool × RHI_CommandList :=
  if r.2.m_passes_active.getD (End.subscript r.2) inp.stray then
    ((if r.2.m_profiler ∧ inp.TimeBlockEnd = false then false else r.1),
      { r.2 with
        m_passes_active := r.2.m_passes_active.set (End.subscript r.2) false
        m_pass_index := End.subscript r.2
        calls := r.2.calls
          ++ (if r.2.m_rhi_device.GetContextRhi.debug then [Call.debug_end] else [])
          ++ (if r.2.m_profiler then [Call.TimeBlockEnd] else []) })
  else
    r

/-- The method `End`: returned flag and command list afterwards. -/
def End (cl : RHI_CommandList) (inp : EndInput) : Bool × RHI_CommandList :=
  End.marker (End.pass cl inp) inp

/-- The method `Flush`. -/
def Flush (cl : RHI_CommandList) : RHI_CommandList :=
  { cl with calls := cl.calls ++ [Call.fence_wait_reset] }

/-- The method `SetConstantBuffer` of the command list. -/
def SetConstantBuffer (cl : RHI_CommandList) (slot : Nat) (_scope : Nat)
    (constant_buffer : RHI_ConstantBuffer) : Option RHI_CommandList :=
  if cl.m_cmd_state ≠ RHI_Cmd_List_Recording then some cl
  else match cl.m_pipeline with
    | none => none
    | some p => some { cl with m_pipeline := some (p.SetConstantBuffer slot constant_buffer) }

/-- The method `SetSampler` of the command list. -/
def SetSampler (cl : RHI_CommandList) (slot : Nat) (sampler : RHI_Sampler) :
    Option RHI_CommandList :=
  if cl.m_cmd_state ≠ RHI_Cmd_List_Recording then some cl
  else match cl.m_pipeline with
    | none => none
    | some p => some { cl with m_pipeline := some (p.SetSampler slot sampler) }

/-- The method `SetTexture` of the command list; `texture` is the pointer passed. -/
def SetTexture (cl : RHI_CommandList) (slot : Nat) (texture : Option RHI_Texture) :
    Option RHI_CommandList :=
  if cl.m_cmd_state ≠ RHI_Cmd_List_Recording then some cl
  else
    let texture1 : RHI_Texture :=
      match texture with
      | none => cl.m_renderer.GetBlackTexture
      | some t => if t.GetResource_View = 0 then cl.m_renderer.GetBlackTexture else t
    match cl.m_pipeline with
    | none => none
    | some p => some { cl with m_pipeline := some (p.SetTexture slot texture1) }

/-- The method `SetViewport`. -/
def SetViewport (cl : RHI_CommandList) (viewport : RHI_Viewport) : RHI_CommandList :=
  if cl.m_cmd_state ≠ RHI_Cmd_List_Recording then cl
  else { cl with calls := cl.calls ++ [Call.vkCmdSetViewport 0 1 viewport] }

/-- The method `SetScissorRectangle`. -/
def SetScissorRectangle (cl : RHI_CommandList) (scissor_rectangle : Rectangle) :
    RHI_CommandList :=
  if cl.m_cmd_state ≠ RHI_Cmd_List_Recording then cl
  else { cl with calls := cl.calls ++ [Call.vkCmdSetScissor 0 1 scissor_rectangle] }

/-- The method `SetBufferVertex`. -/
def SetBufferVertex (cl : RHI_CommandList) (buffer : RHI_VertexBuffer) : RHI_CommandList :=
  if cl.m_cmd_state ≠ RHI_Cmd_List_Recording then cl
  else { cl with calls := cl.calls ++ [Call.vkCmdBindVertexBuffers 0 1 buffer.GetResource 0] }

/-- The method `SetBufferIndex`. -/
def SetBufferIndex (cl : RHI_CommandList) (buffer : RHI_IndexBuffer) : RHI_CommandList :=
  if cl.m_cmd_state ≠ RHI_Cmd_List_Recording then cl
  else { cl with calls := cl.calls ++ [Call.vkCmdBindIndexBuffer buffer.GetResource 0 buffer.Is16Bit] }

/-- The calls `Draw` and `DrawIndexed` make before the draw itself: a descriptor-set bind
when `GetDescriptorSet` returned a non-null handle. -/
def bind_descriptor_set (p : RHI_Pipeline) (descriptor : Nat) : List Call :=
  if descriptor ≠ 0 then [Call.vkCmdBindDescriptorSets p.m_pipeline_layout 0 1 descriptor 0]
  else []

/-- The method `Draw`; `descriptor_set` is the handle a descriptor-set creation would
produce. -/
def Draw (H : Utility_Hash) (cl : RHI_CommandList) (vertex_count : Nat) (descriptor_set : Nat) :
    Option RHI_CommandList :=
  if cl.m_cmd_state ≠ RHI_Cmd_List_Recording then some cl
  else match cl.m_pipeline with
    | none => none
    | some p =>
      let r := p.GetDescriptorSet H descriptor_set
      some { cl with
        m_pipeline := some r.2
        calls := cl.calls ++ bind_descriptor_set r.2 r.1 ++ [Call.vkCmdDraw vertex_count 1 0 0] }

/-- The method `DrawIndexed`; `descriptor_set` is the handle a descriptor-set creation would
produce. The `uint32_t` argument `vertex_offset` is passed for the `int32_t` parameter
`vertexOffset` of `vkCmdDrawIndexed`. -/
def DrawIndexed (H : Utility_Hash) (cl : RHI_CommandList)
    (index_count index_offset vertex_offset : Nat) (descriptor_set : Nat) :
    Option RHI_CommandList :=
  if cl.m_cmd_state ≠ RHI_Cmd_List_Recording then some cl
  else match cl.m_pipeline with
    | none => none
    | some p =>
      let r := p.GetDescriptorSet H descriptor_set
      some { cl with
        m_pipeline := some r.2
        calls := cl.calls ++ bind_descriptor_set r.2 r.1
          ++ [Call.vkCmdDrawIndexed index_count 1 index_offset (int32_of_uint32 vertex_offset)
                0] }

/-- The method `Renderer::SetGlobalSamplersAndConstantBuffers` (`Renderer_Passes.cpp`). -/
def SetGlobalSamplersAndConstantBuffers (cl : RHI_CommandList) : Option RHI_CommandList :=
  let R := cl.m_renderer
  (cl.SetConstantBuffer 0 (Nat.lor R.RHI_Buffer_VertexShader R.RHI_Buffer_PixelShader)
      R.m_buffer_frame_gpu).bind fun c1 =>
  (c1.SetConstantBuffer 1 (Nat.lor R.RHI_Buffer_VertexShader R.RHI_Buffer_PixelShader)
      R.m_buffer_uber_gpu).bind fun c2 =>
  (c2.SetConstantBuffer 2 R.RHI_Buffer_PixelShader R.m_buffer_light_gpu).bind fun c3 =>
  (c3.SetSampler 0 R.m_sampler_compare_depth).bind fun c4 =>
  (c4.SetSampler 1 R.m_sampler_point_clamp).bind fun c5 =>
  (c5.SetSampler 2 R.m_sampler_bilinear_clamp).bind fun c6 =>
  (c6.SetSampler 3 R.m_sampler_bilinear_wrap).bind fun c7 =>
  (c7.SetSampler 4 R.m_sampler_trilinear_clamp).bind fun c8 =>
  c8.SetSampler 5 R.m_sampler_anisotropic_wrap

/-- The entries `Begin` writes into its `clear_values` array, in order: one per colour
target whose clear colour is not the sentinel, then one for depth when the depth clear
value is not its sentinel. -/
def Begin.clear_values (D : RHI_Definition) (state : RHI_PipelineState) : List VkClearValue :=
  (((state.render_target_color_clear.take D.state_max_render_target_count).filter
      (fun color => color ≠ D.state_dont_clear_color)).map VkClearValue.color)
    ++ (if state.render_target_depth_clear ≠ D.state_dont_clear_depth
        then [VkClearValue.depthStencil state.render_target_depth_clear 0] else [])

/-- The first block of `Begin(RHI_PipelineState&)`: in state `Idle_Sync_Cpu_To_Gpu` the fence
is waited on, the pipeline is told the list was consumed and the state becomes `Idle`. -/
def Begin.sync (cl : RHI_CommandList) (inp : BeginInput) : Option RHI_CommandList :=
  if cl.m_cmd_state = RHI_Cmd_List_Idle_Sync_Cpu_To_Gpu then
    match cl.m_pipeline with
    | none => none
    | some p =>
      some { cl.Flush with
        calls := cl.Flush.calls ++ [Call.OnCommandListConsumed]
        m_pipeline := some (inp.OnCommandListConsumed p)
        m_cmd_state := RHI_Cmd_List_Idle }
  else some cl

/-- The rest of `Begin(RHI_PipelineState&)`, after the synchronisation block. -/
def Begin.record (D : RHI_Definition) (cl : RHI_CommandList) (pipeline_state : RHI_PipelineState)
    (inp : BeginInput) : Option (Bool × RHI_CommandList) :=
  if cl.m_cmd_state ≠ RHI_Cmd_List_Idle then some (false, cl)
  else
    let cl1 := { cl with calls := cl.calls ++ [Call.vkBeginCommandBuffer] }
    if inp.vkBeginCommandBuffer = false then some (false, cl1)
    else
      let cl2 := { cl1 with
        m_cmd_state := RHI_Cmd_List_Recording
        m_pipeline := inp.GetPipeline pipeline_state
        calls := cl1.calls ++ [Call.GetPipeline] }
      match cl2.m_pipeline with
      | none => some (false, (cl2.End inp.end_input).2)
      | some p =>
        let cl3 := { cl2 with calls := cl2.calls ++ [Call.AcquireNextImage] }
        if inp.AcquireNextImage = false then some (false, (cl3.End inp.end_input).2)
        else
          let state := p.m_state
          let cl4 := { cl3 with
            calls := cl3.calls ++ [Call.vkCmdBeginRenderPass state.GetRenderPass
              state.GetFrameBuffer state.GetWidth state.GetHeight
              (D.state_max_render_target_count + 1) (Begin.clear_values D state)] }
          if p.m_pipeline ≠ 0 then
            (SetGlobalSamplersAndConstantBuffers
              { cl4 with calls := cl4.calls ++ [Call.vkCmdBindPipeline p.m_pipeline] }).map
              fun cl5 => (true, cl5)
          else some (false, cl4)

/-- The overload `Begin(RHI_PipelineState& pipeline_state)`: returned flag and command list
afterwards. -/
def Begin (D : RHI_Definition) (cl : RHI_CommandList) (pipeline_state : RHI_PipelineState)
    (inp : BeginInput) : Option (Bool × RHI_CommandList) :=
  (Begin.sync cl inp).bind fun cl0 => Begin.record D cl0 pipeline_state inp

/-- The method `Submit`; `vkQueueSubmit` tells whether the queue submission succeeds. -/
def Submit (cl : RHI_CommandList) (vkQueueSubmit : Bool) : Option (Bool × RHI_CommandList) :=
  if cl.m_cmd_state ≠ RHI_Cmd_List_Ended then some (false, cl)
  else match cl.m_pipeline with
    | none => none
    | some p =>
      let state := p.m_state
      let cl1 := { cl with
        calls := cl.calls ++ [Call.vkQueueSubmit
          (if state.render_target_swapchain.isSome then 1 else 0)
          (state.render_target_swapchain.getD 0) vkQueueSubmit] }
      if vkQueueSubmit = false then some (false, cl1)
      else some (true, { cl1 with m_cmd_state := RHI_Cmd_List_Idle_Sync_Cpu_To_Gpu })

/-- Whether the subscript `End` reads, `m_pass_index - 1`, is inside `m_passes_active`. -/
def End.in_range (cl : RHI_CommandList) : Bool :=
  decide (End.subscript cl < cl.m_passes_active.length)

/-- Whether the subscript `Begin(pass_name)` writes, `m_pass_index`, is inside
`m_passes_active`. -/
def Begin_pass_name.in_range (cl : RHI_CommandList) : Bool :=
  decide (cl.m_pass_index < cl.m_passes_active.length)

/-- Whether `Begin(RHI_PipelineState&)` reaches one of its two calls of `End()`: it is
entered in `Idle` or `Idle_Sync_Cpu_To_Gpu`, the command buffer begins, and then the cache
yields no pipeline or the next image is not acquired. -/
def Begin.calls_End (cl : RHI_CommandList) (pipeline_state : RHI_PipelineState)
    (inp : BeginInput) : Bool :=
  decide (cl.m_cmd_state = RHI_Cmd_List_Idle ∨ cl.m_cmd_state = RHI_Cmd_List_Idle_Sync_Cpu_To_Gpu)
    && inp.vkBeginCommandBuffer
    && (match inp.GetPipeline pipeline_state with
        | none => true
        | some _ => !inp.AcquireNextImage)

end RHI_CommandList

/-! ## Sequences of calls -/

/-- A call made by a client, with the outcomes of the native calls it triggers. -/
inductive Op where
  | Begin_pass_name (pass_name : String)
  | Begin (pipeline_state : RHI_PipelineState) (inp : BeginInput)
  | End (inp : EndInput)
  | Submit (vkQueueSubmit : Bool)
  | Flush

/-- One client call: the command list afterwards, or `none` when the behaviour of the call
is undefined: it reads through a null pipeline pointer, or it subscripts `m_passes_active`
outside the vector (in `Begin(pass_name)`, in `End`, or in the `End()` that
`Begin(pipeline_state)` calls on two of its failure paths). A call with a result never
consults `EndInput.stray`. -/
def step (D : RHI_Definition) (cl : RHI_CommandList) : Op → Option RHI_CommandList
  | Op.Begin_pass_name pass_name =>
    if RHI_CommandList.Begin_pass_name.in_range cl then some (cl.Begin_pass_name pass_name).2
    else none
  | Op.Begin pipeline_state inp =>
    if RHI_CommandList.Begin.calls_End cl pipeline_state inp
        && !RHI_CommandList.End.in_range cl then none
    else (cl.Begin D pipeline_state inp).map Prod.snd
  | Op.End inp => if RHI_CommandList.End.in_range cl then some (cl.End inp).2 else none
  | Op.Submit vkQueueSubmit => (cl.Submit vkQueueSubmit).map Prod.snd
  | Op.Flush => some cl.Flush

/-- A sequence of client calls, executed until its end or until a call has no result. -/
def run (D : RHI_Definition) (cl : RHI_CommandList) : List Op → RHI_CommandList
  | [] => cl
  | op :: ops =>
    match step D cl op with
    | none => cl
    | some cl1 => run D cl1 ops

/-- Whether every call of a sequence has a result. -/
def run_defined (D : RHI_Definition) (cl : RHI_CommandList) : List Op → Bool
  | [] => true
  | op :: ops =>
    match step D cl op with
    | none => false
    | some cl1 => run_defined D cl1 ops

/-- Whether the fence is armed after the calls of a log, given whether it was armed before:
a successful `vkQueueSubmit` arms it, a wait-and-reset disarms it. -/
def fence_armed : Bool → List Call → Bool
  | armed, [] => armed
  | armed, Call.vkQueueSubmit _ _ result :: rest => fence_armed (if result then true else armed) rest
  | _, Call.fence_wait_reset :: rest => fence_armed false rest
  | armed, _ :: rest => fence_armed armed rest

/-- Whether a log never begins the command buffer while the fence is armed, given whether
the fence was armed before the log. -/
def fence_respected : Bool → List Call → Bool
  | _, [] => true
  | armed, Call.vkQueueSubmit _ _ result :: rest =>
    fence_respected (if result then true else armed) rest
  | _, Call.fence_wait_reset :: rest => fence_respected false rest
  | armed, Call.vkBeginCommandBuffer :: rest => !armed && fence_respected armed rest
  | armed, _ :: rest => fence_respected armed rest

/-- What the life cycle maintains about the fence: the log never begins the command buffer
while the fence is armed, and while the fence is armed the command list is in state
`Idle_Sync_Cpu_To_Gpu`. -/
def fence_invariant (cl : RHI_CommandList) : Prop :=
  fence_respected false cl.calls = true ∧
    (fence_armed false cl.calls = true →
      cl.m_cmd_state = RHI_Cmd_List_State.RHI_Cmd_List_Idle_Sync_Cpu_To_Gpu)

/-- Two command lists that differ at most in the pipeline object, which the second one
has. -/
def RHI_CommandList.pipeline_only (cl cl1 : RHI_CommandList) : Prop :=
  ∃ p1, cl1 = { cl with m_pipeline := some p1 }

/-! ## Recorded commands (`RHI_CommandList.h`) -/

/-- The enumeration `RHI_Cmd_Type`. -/
inductive RHI_Cmd_Type where
  | RHI_Cmd_Begin
  | RHI_Cmd_End
  | RHI_Cmd_Draw
  | RHI_Cmd_DrawIndexed
  | RHI_Cmd_SetViewport
  | RHI_Cmd_SetScissorRectangle
  | RHI_Cmd_SetPrimitiveTopology
  | RHI_Cmd_SetInputLayout
  | RHI_Cmd_SetDepthStencilState
  | RHI_Cmd_SetRasterizerState
  | RHI_Cmd_SetBlendState
  | RHI_Cmd_SetVertexBuffer
  | RHI_Cmd_SetIndexBuffer
  | RHI_Cmd_SetVertexShader
  | RHI_Cmd_SetPixelShader
  | RHI_Cmd_SetComputeShader
  | RHI_Cmd_SetConstantBuffers
  | RHI_Cmd_SetSamplers
  | RHI_Cmd_SetTextures
  | RHI_Cmd_SetRenderTargets
  | RHI_Cmd_ClearRenderTarget
  | RHI_Cmd_ClearDepthStencil
  | RHI_Cmd_Unknown
  deriving DecidableEq, Repr

/-- The enumeration `RHI_PrimitiveTopology_Mode` of `RHI_Definition.h`: the value named in
`RHI_CommandList.h`, and the others by their code. -/
inductive RHI_PrimitiveTopology_Mode where
  | PrimitiveTopology_Unknown
  | PrimitiveTopology_Other (code : Nat)
  deriving DecidableEq, Repr

/-- The enumeration `RHI_Buffer_Scope` of `RHI_Definition.h`: the value named in
`RHI_CommandList.h`, and the others by their code. -/
inductive RHI_Buffer_Scope where
  | Buffer_Unknown
  | Buffer_Other (code : Nat)
  deriving DecidableEq, Repr

/-- The record `RHI_Command`, member by member. Pointers are handles (`0` is `nullptr`) and
`depth_clear` stands for the `float` value. -/
structure RHI_Command where
  type : RHI_Cmd_Type
  is_array : Bool
  pass_name : String
  primitive_topology : RHI_PrimitiveTopology_Mode
  input_layout : Nat
  rasterizer_state : Nat
  blend_state : Nat
  render_target_count : Nat
  render_targets : Nat
  render_target_clear : Nat
  render_target_clear_color : Vector4
  texture_start_slot : Nat
  texture_count : Nat
  textures : Nat
  sampler_start_slot : Nat
  sampler_count : Nat
  samplers : Nat
  constant_buffer_start_slot : Nat
  constant_buffer_count : Nat
  constant_buffer_scope : RHI_Buffer_Scope
  constant_buffers : Nat
  depth_stencil_state : Nat
  depth_stencil : Nat
  depth_clear : Int
  depth_clear_stencil : Nat
  depth_clear_flags : Nat
  vertex_count : Nat
  vertex_offset : Nat
  index_count : Nat
  index_offset : Nat
  buffer_index : Nat
  buffer_vertex : Nat
  shader_vertex : Nat
  shader_pixel : Nat
  shader_compute : Nat
  viewport : RHI_Viewport
  scissor_rectangle : Rectangle
  deriving DecidableEq, Repr

namespace RHI_Command

/-- A default-constructed `RHI_Command`: every member has its default member initialiser;
the three members without one are default-constructed, and the values their constructors
give (`Math::Vector4`, `RHI_Viewport`, `Math::Rectangle`, declared outside the embedded
files) are parameters. -/
def new (color : Vector4) (viewport : RHI_Viewport) (rectangle : Rectangle) : RHI_Command :=
  { type := RHI_Cmd_Type.RHI_Cmd_Unknown
    is_array := true
    pass_name := "N/A"
    primitive_topology := RHI_PrimitiveTopology_Mode.PrimitiveTopology_Unknown
    input_layout := 0
    rasterizer_state := 0
    blend_state := 0
    render_target_count := 0
    render_targets := 0
    render_target_clear := 0
    render_target_clear_color := color
    texture_start_slot := 0
    texture_count := 0
    textures := 0
    sampler_start_slot := 0
    sampler_count := 0
    samplers := 0
    constant_buffer_start_slot := 0
    constant_buffer_count := 0
    constant_buffer_scope := RHI_Buffer_Scope.Buffer_Unknown
    constant_buffers := 0
    depth_stencil_state := 0
    depth_stencil := 0
    depth_clear := 0
    depth_clear_stencil := 0
    depth_clear_flags := 0
    vertex_count := 0
    vertex_offset := 0
    index_count := 0
    index_offset := 0
    buffer_index := 0
    buffer_vertex := 0
    shader_vertex := 0
    shader_pixel := 0
    shader_compute := 0
    viewport := viewport
    scissor_rectangle := rectangle }

/-- The method `RHI_Command::Clear`, assignment by assignment. -/
def Clear (c : RHI_Command) : RHI_Command :=
  { c with
    type := RHI_Cmd_Type.RHI_Cmd_Unknown
    pass_name := "N/A"
    input_layout := 0
    rasterizer_state := 0
    blend_state := 0
    primitive_topology := RHI_PrimitiveTopology_Mode.PrimitiveTopology_Unknown
    is_array := true
    render_target_count := 0
    render_targets := 0
    texture_start_slot := 0
    texture_count := 0
    textures := 0
    sampler_start_slot := 0
    sampler_count := 0
    samplers := 0
    constant_buffer_start_slot := 0
    constant_buffer_count := 0
    constant_buffer_scope := RHI_Buffer_Scope.Buffer_Unknown
    constant_buffers := 0
    depth_stencil_state := 0
    depth_stencil := 0
    depth_clear := 0
    depth_clear_stencil := 0
    depth_clear_flags := 0
    vertex_count := 0
    vertex_offset := 0
    index_count := 0
    index_offset := 0
    buffer_index := 0
    buffer_vertex := 0
    shader_vertex := 0
    shader_pixel := 0
    shader_compute := 0 }

end RHI_Command

/-! ## Render passes (`Renderer_Passes.cpp`) -/

/-- The entries of `Renderer_Shader_Type` the embedded passes name. -/
inductive Renderer_Shader_Type where
  | Shader_Quad_V
  | Shader_BloomDownsampleLuminance_P
  | Shader_BloomBlend_P
  | Shader_BloomDownsample_P
  | Shader_Upsample_P
  | Shader_BrdfSpecularLut
  deriving DecidableEq, Repr

/-- A call a pass makes on the command list it is given, in the vocabulary of
`Renderer_Passes.cpp`. Textures, states and buffers are handles; `SetViewport` carries the
texture whose viewport is passed; `marker` tells whether `RHI_Cmd_Marker` was passed to
`Begin`. -/
inductive PassCall where
  | Begin (pass_name : String) (marker : Bool)
  | End
  | Submit
  | GetPipelineState
  | SetDepthStencilState (depth_stencil_state : Nat)
  | SetBlendState (blend_state : Nat)
  | SetRenderTarget (texture : Nat)
  | SetViewport (texture : Nat)
  | SetShaderVertex (shader : Renderer_Shader_Type)
  | SetShaderPixel (shader : Renderer_Shader_Type)
  | SetTexture (slot : Nat) (texture : Nat)
  | SetBufferVertex (buffer : Nat)
  | SetBufferIndex (buffer : Nat)
  | DrawIndexed (index_count index_offset vertex_offset : Nat)
  | UnsetTextures
  deriving DecidableEq, Repr

/-- The members of `Renderer` the embedded passes read, and what the command list answers:
`IsCompiled` is `m_shaders[type]->IsCompiled()`, `Begin` is the value `cmd_list->Begin`
returns for a pass name, and `Rectangle_GetIndexCount` is `Rectangle::GetIndexCount()`. -/
structure Renderer_Passes where
  m_rhi_device : Bool
  IsCompiled : Renderer_Shader_Type → Bool
  Begin : String → Bool
  m_render_tex_bloom : List Nat
  m_brdf_specular_lut_rendered : Bool
  m_depth_stencil_disabled : Nat
  m_blend_disabled : Nat
  m_blend_bloom : Nat
  m_quad_vertex_buffer : Nat
  m_quad_index_buffer : Nat
  m_quad_index_count : Nat
  Rectangle_GetIndexCount : Nat

namespace Renderer_Passes

open Renderer_Shader_Type

/-- The method `Renderer::Pass_Downsample`: the calls it makes on the command list, in
order. `UpdateUberBuffer` is a call on the renderer, not on the command list. -/
def Pass_Downsample (R : Renderer_Passes) (tex_in tex_out : Nat)
    (pixel_shader : Renderer_Shader_Type) : List PassCall :=
  if !R.IsCompiled Shader_Quad_V || !R.IsCompiled pixel_shader then []
  else
    [ PassCall.Begin "Pass_Downsample" false,
      PassCall.SetBufferVertex R.m_quad_vertex_buffer,
      PassCall.SetBufferIndex R.m_quad_index_buffer,
      PassCall.SetDepthStencilState R.m_depth_stencil_disabled,
      PassCall.SetRenderTarget tex_out,
      PassCall.SetViewport tex_out,
      PassCall.SetShaderVertex Shader_Quad_V,
      PassCall.SetShaderPixel pixel_shader,
      PassCall.SetTexture 0 tex_in,
      PassCall.DrawIndexed R.m_quad_index_count 0 0,
      PassCall.End,
      PassCall.Submit ]

/-- The lambda `upsample` of `Renderer::Pass_Bloom`. -/
def Pass_Bloom.upsample (R : Renderer_Passes) (tex_in tex_out : Nat) : List PassCall :=
  [ PassCall.Begin "Upsample" false,
    PassCall.SetBlendState R.m_blend_bloom,
    PassCall.SetRenderTarget tex_out,
    PassCall.SetViewport tex_out,
    PassCall.SetShaderPixel Shader_Upsample_P,
    PassCall.SetTexture 0 tex_in,
    PassCall.DrawIndexed R.Rectangle_GetIndexCount 0 0,
    PassCall.End,
    PassCall.Submit ]

/-- The method `Renderer::Pass_Bloom`: the calls it makes on the command list, in order.
The guard is the one of the source, operand by operand. The first loop runs over
`i = 0 .. size - 2`, the second over `i = size - 1` down to `1` (written with `j = i - 1`);
the subscript of `m_render_tex_bloom` is unchecked in the source and a missing entry reads
as the null handle. -/
def Pass_Bloom (R : Renderer_Passes) (tex_in tex_out : Nat) : List PassCall :=
  if !R.IsCompiled Shader_BloomDownsample_P || !R.IsCompiled Shader_BloomDownsampleLuminance_P
      || !R.IsCompiled Shader_Upsample_P || !R.IsCompiled Shader_BloomDownsample_P then []
  else
    let bloom : Nat → Nat := fun i => R.m_render_tex_bloom.getD i 0
    [ PassCall.Begin "Pass_Bloom" false,
      PassCall.SetDepthStencilState R.m_depth_stencil_disabled,
      PassCall.SetBlendState R.m_blend_disabled,
      PassCall.Begin "Downsample_And_Luminance" false,
      PassCall.SetRenderTarget (bloom 0),
      PassCall.SetViewport (bloom 0),
      PassCall.SetShaderPixel Shader_BloomDownsampleLuminance_P,
      PassCall.SetTexture 0 tex_in,
      PassCall.DrawIndexed R.Rectangle_GetIndexCount 0 0,
      PassCall.End ]
    ++ (List.range (R.m_render_tex_bloom.length - 1)).foldl
        (fun calls i =>
          calls ++ Pass_Downsample R (bloom i) (bloom (i + 1)) Shader_BloomDownsample_P) []
    ++ [PassCall.UnsetTextures]
    ++ (List.range (R.m_render_tex_bloom.length - 1)).reverse.foldl
        (fun calls j => calls ++ Pass_Bloom.upsample R (bloom (j + 1)) (bloom j)) []
    ++ [ PassCall.Begin "Additive_Blending" false,
         PassCall.SetRenderTarget tex_out,
         PassCall.SetTexture 0 tex_in,
         PassCall.SetTexture 1 (bloom 0),
         PassCall.SetBlendState R.m_blend_disabled,
         PassCall.SetViewport tex_out,
         PassCall.SetShaderPixel Shader_BloomBlend_P,
         PassCall.DrawIndexed R.Rectangle_GetIndexCount 0 0,
         PassCall.End,
         PassCall.End,
         PassCall.Submit ]

/-- The method `Renderer::Pass_BrdfSpecularLut`: the calls it makes on the command list,
in order. -/
def Pass_BrdfSpecularLut (R : Renderer_Passes) : List PassCall :=
  if !R.IsCompiled Shader_Quad_V || !R.IsCompiled Shader_BrdfSpecularLut then []
  else
    [PassCall.GetPipelineState, PassCall.Begin "Pass_BrdfSpecularLut" false]
    ++ (if R.Begin "Pass_BrdfSpecularLut" then
          [ PassCall.SetBufferVertex R.m_quad_vertex_buffer,
            PassCall.SetBufferIndex R.m_quad_index_buffer,
            PassCall.DrawIndexed R.Rectangle_GetIndexCount 0 0,
            PassCall.End,
            PassCall.Submit ]
        else [])

/-- The block of `Renderer::Pass_Main` around the flag: renderer afterwards and the calls
made on the command list. -/
def Pass_Main.lut (R : Renderer_Passes) : Renderer_Passes × List PassCall :=
  if !R.m_brdf_specular_lut_rendered then
    ({ R with m_brdf_specular_lut_rendered := true }, Pass_BrdfSpecularLut R)
  else (R, [])

/-- The method `Renderer::Pass_Main` as compiled for Vulkan (the block under
`API_GRAPHICS_D3D11` is left out): renderer afterwards and the calls made on the command
list. `later` is what `Pass_Lines`, `Pass_Gizmos`, `Pass_DebugBuffer` and
`Pass_PerformanceMetrics` call; none of them names the flag. -/
def Pass_Main (R : Renderer_Passes) (later : List PassCall) : Renderer_Passes × List PassCall :=
  if !R.m_rhi_device then (R, [])
  else if R.Begin "Pass_Main" then
    let r := Pass_Main.lut R
    (r.1,
      [PassCall.Begin "Pass_Main" true, PassCall.Begin "UpdateFrameBuffer" true]
      ++ (if R.Begin "UpdateFrameBuffer" then [PassCall.End] else [])
      ++ r.2 ++ later ++ [PassCall.End])
  else (R, [PassCall.Begin "Pass_Main" true])

end Renderer_Passes

/-! ## Sequences of binding calls on a pipeline -/

/-- A call on a pipeline made while recording: one of the three binding setters, or
`GetDescriptorSet` with the handle a creation would produce. -/
inductive BindOp where
  | SetTexture (slot : Nat) (texture : RHI_Texture)
  | SetSampler (slot : Nat) (sampler : RHI_Sampler)
  | SetConstantBuffer (slot : Nat) (constant_buffer : RHI_ConstantBuffer)
  | GetDescriptorSet (descriptor_set : Nat)

/-- One binding call on a pipeline. The second component is what the call returned when it
is a `GetDescriptorSet`. -/
def bind_step (H : Utility_Hash) (p : RHI_Pipeline) : BindOp → RHI_Pipeline × Option Nat
  | BindOp.SetTexture slot texture => (p.SetTexture slot texture, none)
  | BindOp.SetSampler slot sampler => (p.SetSampler slot sampler, none)
  | BindOp.SetConstantBuffer slot constant_buffer =>
    (p.SetConstantBuffer slot constant_buffer, none)
  | BindOp.GetDescriptorSet descriptor_set =>
    ((p.GetDescriptorSet H descriptor_set).2, some (p.GetDescriptorSet H descriptor_set).1)

/-- A sequence of binding calls: the pipeline afterwards and the handles `GetDescriptorSet`
returned, in order. -/
def bind_run (H : Utility_Hash) : RHI_Pipeline → List BindOp → RHI_Pipeline × List Nat
  | p, [] => (p, [])
  | p, op :: ops =>
    let r := bind_step H p op
    let rest := bind_run H r.1 ops
    (rest.1, (match r.2 with | some returned => [returned] | none => []) ++ rest.2)

/-- The descriptor set left bound by a series of returned handles: the last non-null one,
if any. -/
def last_bound (returned : List Nat) : Option Nat :=
  (returned.filter (fun handle => handle ≠ 0)).getLast?

/-- The descriptor set cached under the hash of the current blueprint, if any. -/
def cached_for_blueprint (H : Utility_Hash) (p : RHI_Pipeline) : Option Nat :=
  p.m_descriptor_resources.lookup (p.GetDescriptorBlueprintHash H p.m_descriptors)

/-! ## Concrete objects used to evaluate the definitions -/

namespace Sample

open RHI_Descriptor_Type RHI_Cmd_List_State

/-- A device whose reserved slot shifts are 0 for buffers, 100 for samplers and 200 for
textures. -/
def device : RHI_Device := { GetContextRhi := { shader_shift_buffer := 0, shader_shift_sampler := 100, shader_shift_texture := 200, debug := false } }

/-- Constants with eight render targets. -/
def definition : RHI_Definition :=
  { state_max_render_target_count := 8
    state_dont_clear_color := { x := -1, y := -1, z := -1, w := -1 }
    state_dont_clear_depth := -1 }

/-- A hash that keeps the sum of what it is fed. -/
def hash : Utility_Hash :=
  { hash_combine := fun seed v => seed + v + 1
    type_code := fun t =>
      match t with
      | RHI_Descriptor_Sampler => 0
      | RHI_Descriptor_Texture => 1
      | RHI_Descriptor_ConstantBuffer => 2 }

/-- A sampleable texture with identity 5. -/
def texture_a : RHI_Texture :=
  { address := 4096, GetId := 5, GetResource_View := 77, GetLayout := 3, IsSampled := true }

/-- A texture with identity 6 that is not sampleable. -/
def texture_unsampled : RHI_Texture :=
  { address := 8192, GetId := 6, GetResource_View := 78, GetLayout := 1, IsSampled := false }

/-- The black placeholder texture, identity 1. -/
def texture_black : RHI_Texture :=
  { address := 512, GetId := 1, GetResource_View := 70, GetLayout := 3, IsSampled := true }

/-- A renderer whose global resources have identities 10 to 18. -/
def renderer : Renderer :=
  { m_buffer_frame_gpu := { GetId := 10, GetResource := 110, GetSize := 64 }
    m_buffer_uber_gpu := { GetId := 11, GetResource := 111, GetSize := 64 }
    m_buffer_light_gpu := { GetId := 12, GetResource := 112, GetSize := 64 }
    m_sampler_compare_depth := { GetId := 13, GetResource := 113 }
    m_sampler_point_clamp := { GetId := 14, GetResource := 114 }
    m_sampler_bilinear_clamp := { GetId := 15, GetResource := 115 }
    m_sampler_bilinear_wrap := { GetId := 16, GetResource := 116 }
    m_sampler_trilinear_clamp := { GetId := 17, GetResource := 117 }
    m_sampler_anisotropic_wrap := { GetId := 18, GetResource := 118 }
    RHI_Buffer_VertexShader := 1
    RHI_Buffer_PixelShader := 2
    GetBlackTexture := texture_black }

/-- A pipeline state with one cleared colour target and no swapchain. -/
def pipeline_state : RHI_PipelineState :=
  { render_target_color_clear :=
      { x := 0, y := 0, z := 0, w := 1 } :: List.replicate 7 definition.state_dont_clear_color
    render_target_depth_clear := -1
    render_target_swapchain := none
    GetRenderPass := 31
    GetFrameBuffer := 32
    GetWidth := 1920
    GetHeight := 1080 }

/-- A texture descriptor at slot 200 (slot 0 of the texture range) with identity 0. -/
def descriptor : RHI_Descriptor :=
  { slot := 200, stage := 2, id := 0, size := 0, type := RHI_Descriptor_Texture,
    layout := 0, resource := 0, user_data := 0 }

/-- A compiled pipeline whose blueprint is the sample texture descriptor, with a clear dirty
flag and an empty descriptor-set cache. -/
def pipeline : RHI_Pipeline :=
  { m_rhi_device := device
    m_state := pipeline_state
    m_descriptors := [descriptor]
    m_descriptor_dirty := false
    m_descriptor_resources := []
    m_pipeline := 900
    m_pipeline_layout := 901 }

/-- The sample pipeline with its dirty flag set. -/
def pipeline_dirty : RHI_Pipeline := { pipeline with m_descriptor_dirty := true }

/-- The sample pipeline after its blueprint was resolved once: the hash of the blueprint is
cached with handle 55. -/
def pipeline_cached : RHI_Pipeline :=
  { pipeline with
    m_descriptor_resources := [(RHI_Pipeline.GetDescriptorBlueprintHash hash pipeline [], 55)] }

/-- Outcomes for `End` in which every call succeeds. -/
def end_ok : EndInput := { vkEndCommandBuffer := true, TimeBlockEnd := true, stray := false }

/-- Outcomes for `Begin` in which every call succeeds and the cache returns the sample
pipeline. -/
def begin_ok : BeginInput :=
  { vkBeginCommandBuffer := true
    GetPipeline := fun _ => some pipeline
    AcquireNextImage := true
    OnCommandListConsumed := fun p => p
    end_input := end_ok }

/-- Outcomes for `Begin` in which the pipeline cache returns no pipeline. -/
def begin_no_pipeline : BeginInput := { begin_ok with GetPipeline := fun _ => none }

/-- Outcomes for `Begin` in which the next swapchain image cannot be acquired. -/
def begin_no_image : BeginInput := { begin_ok with AcquireNextImage := false }

/-- A freshly constructed command list. -/
def fresh : RHI_CommandList := RHI_CommandList.new renderer false device

/-- A command list that is recording with the sample pipeline. -/
def recording : RHI_CommandList :=
  { fresh with m_cmd_state := RHI_Cmd_List_Recording, m_pipeline := some pipeline }

/-- A command list whose recording was ended. -/
def ended : RHI_CommandList :=
  { fresh with m_cmd_state := RHI_Cmd_List_Ended, m_pipeline := some pipeline }

/-- A full-screen viewport. -/
def viewport : RHI_Viewport :=
  { x := 0, y := 0, width := 1920, height := 1080, depth_min := 0, depth_max := 1 }

/-- A full-screen scissor rectangle. -/
def rectangle : Rectangle := { x := 0, y := 0, width := 1920, height := 1080 }

/-- A vertex buffer. -/
def vertex_buffer : RHI_VertexBuffer := { GetResource := 40 }

/-- A 16-bit index buffer. -/
def index_buffer : RHI_IndexBuffer := { GetResource := 41, Is16Bit := true }

/-- A command list in state `Idle` inside one marker scope. -/
def marked : RHI_CommandList := (RHI_CommandList.Begin_pass_name fresh "Pass_Main").2

/-- A command list in state `Idle` inside two nested marker scopes. -/
def marked_twice : RHI_CommandList := (RHI_CommandList.Begin_pass_name marked "Light").2

/-- A constant-buffer descriptor at slot 0, visible to the vertex stage (mask 1). -/
def descriptor_buffer : RHI_Descriptor :=
  { slot := 0, stage := 1, id := 0, size := 64, type := RHI_Descriptor_ConstantBuffer,
    layout := 0, resource := 0, user_data := 0 }

/-- The same constant buffer as reflected from the pixel stage (mask 2). -/
def descriptor_buffer_pixel : RHI_Descriptor := { descriptor_buffer with stage := 2 }

/-- A sampler descriptor at slot 100, visible to the pixel stage. -/
def descriptor_sampler : RHI_Descriptor :=
  { slot := 100, stage := 2, id := 0, size := 0, type := RHI_Descriptor_Sampler,
    layout := 0, resource := 0, user_data := 0 }

/-- A vertex shader that uses the constant buffer. -/
def shader_vertex : RHI_Shader := { compiling := false, GetDescriptors := [descriptor_buffer] }

/-- A pixel shader that uses the constant buffer, the texture and the sampler. -/
def shader_pixel : RHI_Shader :=
  { compiling := false
    GetDescriptors := [descriptor_buffer_pixel, descriptor, descriptor_sampler] }

/-- A vertex shader whose descriptor list names the constant buffer twice. -/
def shader_repeating : RHI_Shader :=
  { compiling := false, GetDescriptors := [descriptor_buffer, descriptor_buffer] }

/-- The pipeline state with the sample vertex and pixel shaders. -/
def pipeline_state_shaders : RHI_PipelineState :=
  { pipeline_state with shader_vertex := some shader_vertex, shader_pixel := some shader_pixel }

/-- A pipeline built from the sample shaders, before reflection. -/
def pipeline_shaders : RHI_Pipeline := { pipeline with m_state := pipeline_state_shaders }

/-- The pipeline state with the repeating vertex shader and no pixel shader. -/
def pipeline_state_repeating : RHI_PipelineState :=
  { pipeline_state with shader_vertex := some shader_repeating }

/-- A pipeline built from the repeating vertex shader, before reflection. -/
def pipeline_repeating : RHI_Pipeline := { pipeline with m_state := pipeline_state_repeating }

/-- The sample texture descriptor bound to another native handle and owner. -/
def descriptor_rebound : RHI_Descriptor := { descriptor with resource := 9, user_data := 7 }

/-- The sample pipeline with the rebound descriptor as its blueprint. -/
def pipeline_rebound : RHI_Pipeline := { pipeline with m_descriptors := [descriptor_rebound] }

/-- The black texture without a shader view; it is still sampleable. -/
def texture_black_no_view : RHI_Texture := { texture_black with GetResource_View := 0 }

/-- The recording sample command list with a renderer whose black texture has no shader
view. -/
def recording_no_view : RHI_CommandList :=
  { recording with m_renderer := { renderer with GetBlackTexture := texture_black_no_view } }

/-- A life cycle on one marker scope: the scope is opened, a recording is begun, ended
(which closes the scope) and submitted, and a second recording is begun. -/
def cycle : List Op :=
  [ Op.Begin_pass_name "Pass_Main",
    Op.Begin pipeline_state begin_ok,
    Op.End end_ok,
    Op.Submit true,
    Op.Begin pipeline_state begin_ok ]

/-- A pipeline whose native object was not created: the handle `GetPipeline()` returns is
null. -/
def pipeline_invalid : RHI_Pipeline := { pipeline with m_pipeline := 0 }

/-- Outcomes for `Begin` in which every call succeeds and the cache returns the pipeline
without a native object. -/
def begin_invalid : BeginInput := { begin_ok with GetPipeline := fun _ => some pipeline_invalid }

/-- A sampled texture with identity 0 in layout 1. -/
def texture_layout_1 : RHI_Texture :=
  { address := 3, GetId := 0, GetResource_View := 71, GetLayout := 1, IsSampled := true }

/-- The same texture (identity 0) in layout 0. -/
def texture_layout_0 : RHI_Texture := { texture_layout_1 with GetLayout := 0 }

/-- A sequence of binding calls in which the texture at slot 0 changes layout and back, its
identity staying 0, with a `GetDescriptorSet` before and after each change. -/
def layout_round_trip : List BindOp :=
  [ BindOp.GetDescriptorSet 55,
    BindOp.SetTexture 0 texture_layout_1,
    BindOp.GetDescriptorSet 56,
    BindOp.SetTexture 0 texture_layout_0,
    BindOp.GetDescriptorSet 57 ]

/-- A command with every member set by an earlier use. -/
def command : RHI_Command :=
  { type := RHI_Cmd_Type.RHI_Cmd_ClearRenderTarget
    is_array := false
    pass_name := "Pass_GBuffer"
    primitive_topology := RHI_PrimitiveTopology_Mode.PrimitiveTopology_Other 1
    input_layout := 1
    rasterizer_state := 2
    blend_state := 3
    render_target_count := 1
    render_targets := 4
    render_target_clear := 5
    render_target_clear_color := { x := 1, y := 0, z := 0, w := 1 }
    texture_start_slot := 1
    texture_count := 1
    textures := 6
    sampler_start_slot := 1
    sampler_count := 1
    samplers := 7
    constant_buffer_start_slot := 1
    constant_buffer_count := 1
    constant_buffer_scope := RHI_Buffer_Scope.Buffer_Other 1
    constant_buffers := 8
    depth_stencil_state := 9
    depth_stencil := 10
    depth_clear := 1
    depth_clear_stencil := 1
    depth_clear_flags := 1
    vertex_count := 3
    vertex_offset := 1
    index_count := 3
    index_offset := 1
    buffer_index := 11
    buffer_vertex := 12
    shader_vertex := 13
    shader_pixel := 14
    shader_compute := 15
    viewport := viewport
    scissor_rectangle := rectangle }

/-- A renderer for the passes with every shader compiled, three bloom textures, the flag of
the BRDF table clear, and a command list whose `Begin` succeeds. -/
def renderer_passes : Renderer_Passes :=
  { m_rhi_device := true
    IsCompiled := fun _ => true
    Begin := fun _ => true
    m_render_tex_bloom := [21, 22, 23]
    m_brdf_specular_lut_rendered := false
    m_depth_stencil_disabled := 1
    m_blend_disabled := 2
    m_blend_bloom := 3
    m_quad_vertex_buffer := 40
    m_quad_index_buffer := 41
    m_quad_index_count := 6
    Rectangle_GetIndexCount := 6 }

/-- The sample renderer with the bloom blend shader not compiled. -/
def renderer_blend_missing : Renderer_Passes :=
  { renderer_passes with
    IsCompiled := fun type => decide (type ≠ Renderer_Shader_Type.Shader_BloomBlend_P) }

/-- The sample renderer with the quad vertex shader not compiled. -/
def renderer_quad_missing : Renderer_Passes :=
  { renderer_passes with
    IsCompiled := fun type => decide (type ≠ Renderer_Shader_Type.Shader_Quad_V) }

end Sample

/-! ## Properties of the command-list state machine -/

namespace RHI_CommandList

open RHI_Cmd_List_State

/-- C1. In every state other than `Ended` (in particular `Recording`), `Submit` returns
false and hands back the command list as it was: no call is logged, so no queue submission
is made, and the state is unchanged. -/
theorem Submit_before_End_fails (cl : RHI_CommandList) (vkQueueSubmit : Bool)
    (h : cl.m_cmd_state ≠ RHI_Cmd_List_Ended) :
    cl.Submit vkQueueSubmit = some (false, cl) := by
  simp [Submit, h]

/-- C1 at a recording command list. -/
theorem Submit_before_End_fails_witness :
    Sample.recording.m_cmd_state ≠ RHI_Cmd_List_Ended ∧
      Sample.recording.Submit true = some (false, Sample.recording) :=
  ⟨by decide, Submit_before_End_fails Sample.recording true (by decide)⟩

/-- With a pipeline in place, `SetConstantBuffer` returns and touches the pipeline only. -/
theorem SetConstantBuffer_frame (cl : RHI_CommandList) (slot scope : Nat)
    (constant_buffer : RHI_ConstantBuffer) (h : cl.m_pipeline.isSome = true) :
    ∃ cl1, cl.SetConstantBuffer slot scope constant_buffer = some cl1 ∧ cl.pipeline_only cl1 := by
  obtain ⟨p, hp⟩ := Option.isSome_iff_exists.mp h
  unfold SetConstantBuffer pipeline_only
  by_cases hs : cl.m_cmd_state = RHI_Cmd_List_Recording
  · simp [hs, hp]
  · refine ⟨cl, by simp [hs], p, ?_⟩
    cases cl
    simp_all

/-- With a pipeline in place, `SetSampler` returns and touches the pipeline only. -/
theorem SetSampler_frame (cl : RHI_CommandList) (slot : Nat)
    (sampler : RHI_Sampler) (h : cl.m_pipeline.isSome = true) :
    ∃ cl1, cl.SetSampler slot sampler = some cl1 ∧ cl.pipeline_only cl1 := by
  obtain ⟨p, hp⟩ := Option.isSome_iff_exists.mp h
  unfold SetSampler pipeline_only
  by_cases hs : cl.m_cmd_state = RHI_Cmd_List_Recording
  · simp [hs, hp]
  · refine ⟨cl, by simp [hs], p, ?_⟩
    cases cl
    simp_all

/-- The relation `pipeline_only` composes. -/
theorem pipeline_only_trans {a b c : RHI_CommandList} (h1 : a.pipeline_only b)
    (h2 : b.pipeline_only c) : a.pipeline_only c := by
  obtain ⟨p1, rfl⟩ := h1
  obtain ⟨p2, rfl⟩ := h2
  exact ⟨p2, rfl⟩

/-- The second command list of `pipeline_only` has a pipeline. -/
theorem pipeline_only_isSome {a b : RHI_CommandList} (h : a.pipeline_only b) :
    b.m_pipeline.isSome = true := by
  obtain ⟨p1, rfl⟩ := h
  rfl

/-- With a pipeline in place, `SetGlobalSamplersAndConstantBuffers` returns and touches the
pipeline only. -/
theorem SetGlobalSamplersAndConstantBuffers_frame (cl : RHI_CommandList)
    (h : cl.m_pipeline.isSome = true) :
    ∃ cl1, cl.SetGlobalSamplersAndConstantBuffers = some cl1 ∧ cl.pipeline_only cl1 := by
  unfold SetGlobalSamplersAndConstantBuffers
  obtain ⟨c1, e1, r1⟩ := SetConstantBuffer_frame cl 0
    (Nat.lor cl.m_renderer.RHI_Buffer_VertexShader cl.m_renderer.RHI_Buffer_PixelShader)
    cl.m_renderer.m_buffer_frame_gpu h
  obtain ⟨c2, e2, r2⟩ := SetConstantBuffer_frame c1 1
    (Nat.lor cl.m_renderer.RHI_Buffer_VertexShader cl.m_renderer.RHI_Buffer_PixelShader)
    cl.m_renderer.m_buffer_uber_gpu (pipeline_only_isSome r1)
  obtain ⟨c3, e3, r3⟩ := SetConstantBuffer_frame c2 2
    cl.m_renderer.RHI_Buffer_PixelShader cl.m_renderer.m_buffer_light_gpu
    (pipeline_only_isSome r2)
  obtain ⟨c4, e4, r4⟩ := SetSampler_frame c3 0 cl.m_renderer.m_sampler_compare_depth
    (pipeline_only_isSome r3)
  obtain ⟨c5, e5, r5⟩ := SetSampler_frame c4 1 cl.m_renderer.m_sampler_point_clamp
    (pipeline_only_isSome r4)
  obtain ⟨c6, e6, r6⟩ := SetSampler_frame c5 2 cl.m_renderer.m_sampler_bilinear_clamp
    (pipeline_only_isSome r5)
  obtain ⟨c7, e7, r7⟩ := SetSampler_frame c6 3 cl.m_renderer.m_sampler_bilinear_wrap
    (pipeline_only_isSome r6)
  obtain ⟨c8, e8, r8⟩ := SetSampler_frame c7 4 cl.m_renderer.m_sampler_trilinear_clamp
    (pipeline_only_isSome r7)
  obtain ⟨c9, e9, r9⟩ := SetSampler_frame c8 5 cl.m_renderer.m_sampler_anisotropic_wrap
    (pipeline_only_isSome r8)
  refine ⟨c9, ?_, pipeline_only_trans (pipeline_only_trans (pipeline_only_trans
    (pipeline_only_trans (pipeline_only_trans (pipeline_only_trans (pipeline_only_trans
    (pipeline_only_trans r1 r2) r3) r4) r5) r6) r7) r8) r9⟩
  simp only [e1, e2, e3, e4, e5, e6, e7, e8, e9, Option.some_bind]

/-- The second block of `End` leaves the state and the pipeline it found. -/
theorem End_marker_frame (r : Bool × RHI_CommandList) (inp : EndInput) :
    (End.marker r inp).2.m_cmd_state = r.2.m_cmd_state ∧
      (End.marker r inp).2.m_pipeline = r.2.m_pipeline := by
  unfold End.marker
  split_ifs <;> exact ⟨rfl, rfl⟩

/-- The state `End` leaves: `Ended` after `Recording`, the state it found otherwise. -/
theorem End_state (cl : RHI_CommandList) (inp : EndInput) :
    (cl.End inp).2.m_cmd_state =
      if cl.m_cmd_state = RHI_Cmd_List_Recording then RHI_Cmd_List_Ended else cl.m_cmd_state := by
  unfold End
  rw [(End_marker_frame _ inp).1]
  unfold End.pass
  split_ifs <;> rfl

/-- The pipeline pointer `End` leaves is the one it found. -/
theorem End_pipeline (cl : RHI_CommandList) (inp : EndInput) :
    (cl.End inp).2.m_pipeline = cl.m_pipeline := by
  unfold End
  rw [(End_marker_frame _ inp).2]
  unfold End.pass
  split_ifs
  · cases h : cl.m_pipeline <;> simp [RHI_Pipeline.RevertTextureLayouts]
  · rfl

/-- A `Begin` entered in state `Idle` whose calls all succeed on a valid compiled pipeline
returns true in state `Recording`, with the resolved pipeline in place and the marker scopes
as they were. -/
theorem Begin_record_succeeds (D : RHI_Definition) (cl : RHI_CommandList)
    (pipeline_state : RHI_PipelineState) (inp : BeginInput) (p : RHI_Pipeline)
    (hstate : cl.m_cmd_state = RHI_Cmd_List_Idle)
    (hbegin : inp.vkBeginCommandBuffer = true)
    (hpipeline : inp.GetPipeline pipeline_state = some p)
    (himage : inp.AcquireNextImage = true)
    (hvalid : p.m_pipeline ≠ 0) :
    ∃ cl1, Begin.record D cl pipeline_state inp = some (true, cl1) ∧
      cl1.m_cmd_state = RHI_Cmd_List_Recording ∧ cl1.m_pipeline.isSome = true ∧
      cl1.m_pass_index = cl.m_pass_index ∧ cl1.m_passes_active = cl.m_passes_active := by
  unfold Begin.record
  simp only [hstate, hbegin, hpipeline, himage, ne_eq, not_true_eq_false, if_false,
    Bool.true_eq_false, hvalid, not_false_eq_true, if_true]
  obtain ⟨cl1, h1, p1, rfl⟩ := SetGlobalSamplersAndConstantBuffers_frame
    { cl with
      m_cmd_state := RHI_Cmd_List_Recording
      m_pipeline := some p
      calls := cl.calls ++ [Call.vkBeginCommandBuffer] ++ [Call.GetPipeline]
        ++ [Call.AcquireNextImage]
        ++ [Call.vkCmdBeginRenderPass p.m_state.GetRenderPass p.m_state.GetFrameBuffer
            p.m_state.GetWidth p.m_state.GetHeight (D.state_max_render_target_count + 1)
            (Begin.clear_values D p.m_state)]
        ++ [Call.vkCmdBindPipeline p.m_pipeline] } rfl
  rw [h1]
  exact ⟨_, rfl, rfl, rfl, rfl, rfl⟩

/-- Outside `Idle_Sync_Cpu_To_Gpu` the synchronisation block of `Begin` does nothing. -/
theorem Begin_sync_skip (cl : RHI_CommandList) (inp : BeginInput)
    (h : cl.m_cmd_state ≠ RHI_Cmd_List_Idle_Sync_Cpu_To_Gpu) : Begin.sync cl inp = some cl := by
  simp [Begin.sync, h]

/-- C2 fails on the code. On a freshly constructed command list (state `Idle`, no marker
scope open) a `Begin(pipeline_state)` whose calls all succeed returns true and leaves
`Recording` with `m_pass_index = 0`; the `End()` that follows reads
`m_passes_active[4294967295]`, outside the 100-entry vector, so the sequence `Begin`, `End`
has no defined result and the cycle is not completed. -/
theorem Begin_End_cycle_reads_outside_marker_vector :
    Sample.fresh.m_cmd_state = RHI_Cmd_List_Idle ∧
    (Sample.fresh.Begin Sample.definition Sample.pipeline_state Sample.begin_ok).map
      (fun r => (r.1, r.2.m_cmd_state, r.2.m_pass_index, r.2.m_passes_active.length,
        End.subscript r.2, End.in_range r.2)) =
      some (true, RHI_Cmd_List_Recording, 0, 100, 4294967295, false) ∧
    run_defined Sample.definition Sample.fresh
      [Op.Begin Sample.pipeline_state Sample.begin_ok] = true ∧
    run_defined Sample.definition Sample.fresh
      [Op.Begin Sample.pipeline_state Sample.begin_ok, Op.End Sample.end_ok] = false := by
  decide

/-- The life cycle on a command list with a marker scope open, so that the subscript `End`
reads is inside the vector. From `Idle`, when the native calls succeed, the cache resolves a
pipeline, the image is acquired and the compiled pipeline handle is non-null:
`Begin(pipeline_state)` returns true and leaves `Recording`; `End`, whose read is inside the
vector, then leaves `Ended`; `Submit` then returns true and leaves `Idle_Sync_Cpu_To_Gpu`; a
further `Begin(pipeline_state)` returns true and leaves `Recording`. The outcomes of the
calls `End` makes are arbitrary. -/
theorem Begin_End_Submit_Begin_cycle (D : RHI_Definition) (cl : RHI_CommandList)
    (pipeline_state : RHI_PipelineState) (inp inp2 : BeginInput) (e : EndInput)
    (p p2 : RHI_Pipeline)
    (hstate : cl.m_cmd_state = RHI_Cmd_List_Idle)
    (hrange : End.in_range cl = true)
    (hbegin : inp.vkBeginCommandBuffer = true)
    (hpipeline : inp.GetPipeline pipeline_state = some p)
    (himage : inp.AcquireNextImage = true)
    (hvalid : p.m_pipeline ≠ 0)
    (hbegin2 : inp2.vkBeginCommandBuffer = true)
    (hpipeline2 : inp2.GetPipeline pipeline_state = some p2)
    (himage2 : inp2.AcquireNextImage = true)
    (hvalid2 : p2.m_pipeline ≠ 0) :
    ∃ cl1 cl3 cl4,
      cl.Begin D pipeline_state inp = some (true, cl1) ∧
      cl1.m_cmd_state = RHI_Cmd_List_Recording ∧
      End.in_range cl1 = true ∧
      (cl1.End e).2.m_cmd_state = RHI_Cmd_List_Ended ∧
      (cl1.End e).2.Submit true = some (true, cl3) ∧
      cl3.m_cmd_state = RHI_Cmd_List_Idle_Sync_Cpu_To_Gpu ∧
      cl3.Begin D pipeline_state inp2 = some (true, cl4) ∧
      cl4.m_cmd_state = RHI_Cmd_List_Recording := by
  obtain ⟨cl1, h1, hs1, hp1, hidx, hact⟩ :=
    Begin_record_succeeds D cl pipeline_state inp p hstate hbegin hpipeline himage hvalid
  have hrange1 : End.in_range cl1 = true := by
    unfold End.in_range End.subscript at *
    rw [hidx, hact]
    exact hrange
  have hended : (cl1.End e).2.m_cmd_state = RHI_Cmd_List_Ended := by
    rw [End_state, hs1]; rfl
  obtain ⟨q, hq⟩ := Option.isSome_iff_exists.mp hp1
  have hq2 : (cl1.End e).2.m_pipeline = some q := by rw [End_pipeline, hq]
  have hsub : (cl1.End e).2.Submit true = some (true,
      { (cl1.End e).2 with
        calls := (cl1.End e).2.calls
          ++ [Call.vkQueueSubmit (if q.m_state.render_target_swapchain.isSome then 1 else 0)
              (q.m_state.render_target_swapchain.getD 0) true]
        m_cmd_state := RHI_Cmd_List_Idle_Sync_Cpu_To_Gpu }) := by
    simp [Submit, hended, hq2]
  obtain ⟨cl4, h4, hs4, _⟩ :=
    Begin_record_succeeds D
      { (cl1.End e).2 with
        calls := (cl1.End e).2.calls
          ++ [Call.vkQueueSubmit (if q.m_state.render_target_swapchain.isSome then 1 else 0)
              (q.m_state.render_target_swapchain.getD 0) true]
          ++ [Call.fence_wait_reset] ++ [Call.OnCommandListConsumed]
        m_pipeline := some (inp2.OnCommandListConsumed q)
        m_cmd_state := RHI_Cmd_List_Idle }
      pipeline_state inp2 p2 rfl hbegin2 hpipeline2 himage2 hvalid2
  refine ⟨cl1, _, cl4, ?_, hs1, hrange1, hended, hsub, rfl, ?_, hs4⟩
  · unfold Begin
    rw [Begin_sync_skip cl inp (by rw [hstate]; decide)]
    exact h1
  · unfold Begin Begin.sync
    simp only [hq2, if_true, Option.some_bind, Flush]
    exact h4

/-- The life cycle at a command list inside one marker scope, with the sample pipeline. -/
theorem Begin_End_Submit_Begin_cycle_witness :
    ∃ cl1 cl3 cl4,
      Sample.marked.Begin Sample.definition Sample.pipeline_state Sample.begin_ok
        = some (true, cl1) ∧
      cl1.m_cmd_state = RHI_Cmd_List_Recording ∧
      End.in_range cl1 = true ∧
      (cl1.End Sample.end_ok).2.m_cmd_state = RHI_Cmd_List_Ended ∧
      (cl1.End Sample.end_ok).2.Submit true = some (true, cl3) ∧
      cl3.m_cmd_state = RHI_Cmd_List_Idle_Sync_Cpu_To_Gpu ∧
      cl3.Begin Sample.definition Sample.pipeline_state Sample.begin_ok = some (true, cl4) ∧
      cl4.m_cmd_state = RHI_Cmd_List_Recording :=
  Begin_End_Submit_Begin_cycle Sample.definition Sample.marked Sample.pipeline_state
    Sample.begin_ok Sample.begin_ok Sample.end_ok Sample.pipeline Sample.pipeline
    rfl (by decide) rfl rfl rfl (by decide) rfl rfl rfl (by decide)

/-- C4. In state `Recording` or `Ended`, `Begin(pipeline_state)` returns false and hands back
the command list as it was: the log gains no call (no `vkBeginCommandBuffer`, no
`GetPipeline`), and the state and the pipeline pointer are unchanged. -/
theorem Begin_while_in_use_fails (D : RHI_Definition) (cl : RHI_CommandList)
    (pipeline_state : RHI_PipelineState) (inp : BeginInput)
    (h : cl.m_cmd_state = RHI_Cmd_List_Recording ∨ cl.m_cmd_state = RHI_Cmd_List_Ended) :
    cl.Begin D pipeline_state inp = some (false, cl) := by
  rcases h with h | h <;> simp [Begin, Begin.sync, Begin.record, h]

/-- C4 at a recording command list. -/
theorem Begin_while_in_use_fails_witness :
    (Sample.recording.m_cmd_state = RHI_Cmd_List_Recording
        ∨ Sample.recording.m_cmd_state = RHI_Cmd_List_Ended) ∧
      Sample.recording.Begin Sample.definition Sample.pipeline_state Sample.begin_ok
        = some (false, Sample.recording) :=
  ⟨Or.inl rfl, Begin_while_in_use_fails Sample.definition Sample.recording
    Sample.pipeline_state Sample.begin_ok (Or.inl rfl)⟩

/-- C5 fails on the code. On an `Idle` command list inside one marker scope (so that the
`End()` called by `Begin` reads inside the marker vector), a `Begin` whose pipeline state
cannot acquire the next image returns false and leaves `Ended`, not `Idle`; so does a
`Begin` for which the cache yields no pipeline. -/
theorem Begin_failure_state_counterexample :
    Sample.marked.m_cmd_state = RHI_Cmd_List_Idle ∧
    Sample.begin_no_image.AcquireNextImage = false ∧
    (Sample.marked.Begin Sample.definition Sample.pipeline_state Sample.begin_no_image).map
        (fun r => (r.1, r.2.m_cmd_state)) = some (false, RHI_Cmd_List_Ended) ∧
    Sample.begin_no_pipeline.GetPipeline Sample.pipeline_state = none ∧
    (Sample.marked.Begin Sample.definition Sample.pipeline_state Sample.begin_no_pipeline).map
        (fun r => (r.1, r.2.m_cmd_state)) = some (false, RHI_Cmd_List_Ended) ∧
    End.in_range Sample.marked = true := by
  refine ⟨rfl, rfl, ?_, rfl, ?_, ?_⟩ <;> decide

/-- C6. Outside `Recording`, each of `SetTexture`, `SetSampler`, `SetConstantBuffer`,
`SetBufferVertex`, `SetBufferIndex`, `SetViewport`, `SetScissorRectangle`, `Draw` and
`DrawIndexed` hands back the command list as it was: no call is logged and the state, the
pipeline blueprint, its dirty flag and its descriptor-set cache are unchanged. -/
theorem recording_only_operations_are_noops (H : Utility_Hash) (cl : RHI_CommandList)
    (slot scope : Nat) (texture : Option RHI_Texture) (sampler : RHI_Sampler)
    (constant_buffer : RHI_ConstantBuffer) (buffer_vertex : RHI_VertexBuffer)
    (buffer_index : RHI_IndexBuffer) (viewport : RHI_Viewport) (scissor_rectangle : Rectangle)
    (vertex_count index_count index_offset vertex_offset descriptor_set : Nat)
    (h : cl.m_cmd_state ≠ RHI_Cmd_List_Recording) :
    cl.SetTexture slot texture = some cl ∧
    cl.SetSampler slot sampler = some cl ∧
    cl.SetConstantBuffer slot scope constant_buffer = some cl ∧
    cl.SetBufferVertex buffer_vertex = cl ∧
    cl.SetBufferIndex buffer_index = cl ∧
    cl.SetViewport viewport = cl ∧
    cl.SetScissorRectangle scissor_rectangle = cl ∧
    cl.Draw H vertex_count descriptor_set = some cl ∧
    cl.DrawIndexed H index_count index_offset vertex_offset descriptor_set = some cl := by
  simp [SetTexture, SetSampler, SetConstantBuffer, SetBufferVertex, SetBufferIndex, SetViewport,
    SetScissorRectangle, Draw, DrawIndexed, h]

/-- C6 at a command list whose recording was ended. -/
theorem recording_only_operations_are_noops_witness :
    Sample.ended.m_cmd_state ≠ RHI_Cmd_List_Recording ∧
    Sample.ended.SetTexture 0 (some Sample.texture_a) = some Sample.ended ∧
    Sample.ended.SetSampler 0 Sample.renderer.m_sampler_point_clamp = some Sample.ended ∧
    Sample.ended.SetConstantBuffer 0 3 Sample.renderer.m_buffer_frame_gpu = some Sample.ended ∧
    Sample.ended.SetBufferVertex Sample.vertex_buffer = Sample.ended ∧
    Sample.ended.SetBufferIndex Sample.index_buffer = Sample.ended ∧
    Sample.ended.SetViewport Sample.viewport = Sample.ended ∧
    Sample.ended.SetScissorRectangle Sample.rectangle = Sample.ended ∧
    Sample.ended.Draw Sample.hash 3 55 = some Sample.ended ∧
    Sample.ended.DrawIndexed Sample.hash 6 0 0 55 = some Sample.ended :=
  ⟨by decide, recording_only_operations_are_noops Sample.hash Sample.ended 0 3
    (some Sample.texture_a) Sample.renderer.m_sampler_point_clamp
    Sample.renderer.m_buffer_frame_gpu Sample.vertex_buffer Sample.index_buffer
    Sample.viewport Sample.rectangle 3 6 0 0 55 (by decide)⟩

end RHI_CommandList

/-! ## Accesses to the marker vector -/

namespace RHI_CommandList

open RHI_Cmd_List_State

/-- When the subscript `End` reads is inside the marker vector, the value supplied for a
read outside it plays no part. -/
theorem End_in_range_ignores_stray (cl : RHI_CommandList) (inp : EndInput) (stray : Bool)
    (h : End.in_range cl = true) :
    cl.End { inp with stray := stray } = cl.End inp := by
  have hlt : End.subscript cl < cl.m_passes_active.length := by
    simpa [End.in_range] using h
  have hpass : End.pass cl { inp with stray := stray } = End.pass cl inp := rfl
  have hsub : End.subscript (End.pass cl inp).2 = End.subscript cl := by
    unfold End.pass
    split_ifs <;> rfl
  have hact : (End.pass cl inp).2.m_passes_active = cl.m_passes_active := by
    unfold End.pass
    split_ifs <;> rfl
  unfold End
  rw [hpass]
  unfold End.marker
  dsimp only
  rw [hsub, hact, List.getD_eq_getElem _ _ hlt, List.getD_eq_getElem _ _ hlt]

/-- When `Begin(pipeline_state)` does not reach a call of `End()`, the outcomes supplied for
`End` play no part in it. -/
theorem Begin_without_End_ignores_end_input (D : RHI_Definition) (cl : RHI_CommandList)
    (pipeline_state : RHI_PipelineState) (inp : BeginInput) (e : EndInput)
    (h : Begin.calls_End cl pipeline_state inp = false) :
    cl.Begin D pipeline_state { inp with end_input := e } = cl.Begin D pipeline_state inp := by
  unfold Begin.calls_End at h
  unfold Begin Begin.sync
  by_cases hs : cl.m_cmd_state = RHI_Cmd_List_Idle_Sync_Cpu_To_Gpu
  · cases hp : cl.m_pipeline with
    | none => simp [hs, hp]
    | some p =>
      simp only [hs, hp, if_true, Option.some_bind]
      unfold Begin.record
      simp only [ne_eq, not_true_eq_false, if_false]
      cases hb : inp.vkBeginCommandBuffer with
      | false => simp
      | true =>
        cases hg : inp.GetPipeline pipeline_state with
        | none => simp [hs, hb, hg] at h
        | some q =>
          cases hi : inp.AcquireNextImage with
          | false => simp [hs, hb, hg, hi] at h
          | true => simp
  · simp only [hs, if_false, Option.some_bind]
    unfold Begin.record
    by_cases hi' : cl.m_cmd_state = RHI_Cmd_List_Idle
    · simp only [hi', ne_eq, not_true_eq_false, if_false]
      cases hb : inp.vkBeginCommandBuffer with
      | false => simp
      | true =>
        cases hg : inp.GetPipeline pipeline_state with
        | none => simp [hi', hb, hg] at h
        | some q =>
          cases hi : inp.AcquireNextImage with
          | false => simp [hi', hb, hg, hi] at h
          | true => simp
    · simp [hi']

/-- When the subscript `End` would read is inside the marker vector, the value supplied for
a read outside it plays no part in `Begin(pipeline_state)`. -/
theorem Begin_in_range_ignores_stray (D : RHI_Definition) (cl : RHI_CommandList)
    (pipeline_state : RHI_PipelineState) (inp : BeginInput) (stray : Bool)
    (h : End.in_range cl = true) :
    cl.Begin D pipeline_state { inp with end_input := { inp.end_input with stray := stray } }
      = cl.Begin D pipeline_state inp := by
  have key : ∀ cl0 : RHI_CommandList, End.in_range cl0 = true →
      Begin.record D cl0 pipeline_state
          { inp with end_input := { inp.end_input with stray := stray } }
        = Begin.record D cl0 pipeline_state inp := by
    intro cl0 h0
    unfold Begin.record
    by_cases hi : cl0.m_cmd_state = RHI_Cmd_List_Idle
    · simp only [hi, ne_eq, not_true_eq_false, if_false]
      cases hb : inp.vkBeginCommandBuffer with
      | false => simp
      | true =>
        cases hg : inp.GetPipeline pipeline_state with
        | none =>
          simp only [Bool.true_eq_false, if_false]
          rw [End_in_range_ignores_stray
            { cl0 with
              m_cmd_state := RHI_Cmd_List_Recording
              m_pipeline := none
              calls := cl0.calls ++ [Call.vkBeginCommandBuffer] ++ [Call.GetPipeline] }
            inp.end_input stray h0]
        | some q =>
          cases hi2 : inp.AcquireNextImage with
          | false =>
            simp only [Bool.true_eq_false, if_false, if_true]
            rw [End_in_range_ignores_stray
              { cl0 with
                m_cmd_state := RHI_Cmd_List_Recording
                m_pipeline := some q
                calls := cl0.calls ++ [Call.vkBeginCommandBuffer] ++ [Call.GetPipeline]
                  ++ [Call.AcquireNextImage] }
              inp.end_input stray h0]
          | true => simp
    · simp [hi]
  unfold Begin Begin.sync
  by_cases hs : cl.m_cmd_state = RHI_Cmd_List_Idle_Sync_Cpu_To_Gpu
  · cases hp : cl.m_pipeline with
    | none => simp [hs, hp]
    | some p =>
      simp only [hs, hp, if_true, Option.some_bind]
      exact key _ h
  · simp only [hs, if_false, Option.some_bind]
    exact key _ h

end RHI_CommandList

/-! ## The fence along sequences of calls -/

open RHI_Cmd_List_State

/-- The fence after two logs in a row. -/
theorem fence_armed_append (l1 l2 : List Call) (armed : Bool) :
    fence_armed armed (l1 ++ l2) = fence_armed (fence_armed armed l1) l2 := by
  induction l1 generalizing armed with
  | nil => rfl
  | cons c rest ih => cases c <;> simp [fence_armed, ih]

/-- A log made of two logs respects the fence when both parts do. -/
theorem fence_respected_append (l1 l2 : List Call) (armed : Bool) :
    fence_respected armed (l1 ++ l2) =
      (fence_respected armed l1 && fence_respected (fence_armed armed l1) l2) := by
  induction l1 generalizing armed with
  | nil => simp [fence_respected, fence_armed]
  | cons c rest ih => cases c <;> simp [fence_respected, fence_armed, ih, Bool.and_assoc]

/-- The calls `End` logs neither arm nor disarm the fence and do not begin the command
buffer. -/
theorem End_fence (cl : RHI_CommandList) (inp : EndInput) (armed : Bool) :
    fence_armed armed (cl.End inp).2.calls = fence_armed armed cl.calls ∧
      fence_respected armed (cl.End inp).2.calls = fence_respected armed cl.calls := by
  unfold RHI_CommandList.End RHI_CommandList.End.marker RHI_CommandList.End.pass
  split_ifs <;>
    simp [fence_armed_append, fence_respected_append, fence_armed, fence_respected]

/-- The invariant holds of a constructed command list. -/
theorem fence_invariant_new (renderer : Renderer) (profiler : Bool) (rhi_device : RHI_Device) :
    fence_invariant (RHI_CommandList.new renderer profiler rhi_device) := by
  simp [fence_invariant, RHI_CommandList.new, fence_respected, fence_armed]

/-- The method `End` keeps the invariant. -/
theorem fence_invariant_End (cl : RHI_CommandList) (inp : EndInput) (h : fence_invariant cl) :
    fence_invariant (cl.End inp).2 := by
  obtain ⟨h1, h2⟩ := h
  refine ⟨by rw [(End_fence cl inp false).2]; exact h1, fun ha => ?_⟩
  rw [(End_fence cl inp false).1] at ha
  rw [RHI_CommandList.End_state, h2 ha]
  rfl

/-- The overload `Begin(pass_name)` keeps the invariant. -/
theorem fence_invariant_Begin_pass_name (cl : RHI_CommandList) (pass_name : String)
    (h : fence_invariant cl) : fence_invariant (cl.Begin_pass_name pass_name).2 := by
  obtain ⟨h1, h2⟩ := h
  have key : ∀ armed,
      fence_armed armed (cl.Begin_pass_name pass_name).2.calls = fence_armed armed cl.calls ∧
      fence_respected armed (cl.Begin_pass_name pass_name).2.calls
        = fence_respected armed cl.calls := by
    intro armed
    unfold RHI_CommandList.Begin_pass_name
    dsimp only
    split_ifs <;>
      simp [fence_armed_append, fence_respected_append, fence_armed, fence_respected]
  refine ⟨by rw [(key false).2]; exact h1, fun ha => ?_⟩
  rw [(key false).1] at ha
  exact h2 ha

/-- The method `Flush` keeps the invariant. -/
theorem fence_invariant_Flush (cl : RHI_CommandList) (h : fence_invariant cl) :
    fence_invariant cl.Flush := by
  obtain ⟨h1, _⟩ := h
  simp [fence_invariant, RHI_CommandList.Flush, fence_armed_append, fence_respected_append,
    fence_armed, fence_respected, h1]

/-- The method `Submit` keeps the invariant. -/
theorem fence_invariant_Submit (cl cl1 : RHI_CommandList) (vkQueueSubmit r : Bool)
    (h : fence_invariant cl) (hs : cl.Submit vkQueueSubmit = some (r, cl1)) :
    fence_invariant cl1 := by
  obtain ⟨h1, h2⟩ := h
  unfold RHI_CommandList.Submit at hs
  by_cases hst : cl.m_cmd_state = RHI_Cmd_List_Ended
  · have hna : fence_armed false cl.calls = false := by
      cases ha : fence_armed false cl.calls
      · rfl
      · rw [h2 ha] at hst; cases hst
    cases hp : cl.m_pipeline with
    | none => simp [hst, hp] at hs
    | some p =>
      cases vkQueueSubmit <;> simp [hst, hp] at hs <;> obtain ⟨-, rfl⟩ := hs <;>
        simp [fence_invariant, fence_armed_append, fence_respected_append, fence_armed,
          fence_respected, h1, hna]
  · simp [hst] at hs
    obtain ⟨-, rfl⟩ := hs
    exact ⟨h1, h2⟩

/-- The part of `Begin` after the synchronisation block, entered with the fence disarmed,
leaves the fence disarmed and a log that respects it. -/
theorem Begin_record_fence (D : RHI_Definition) (cl cl1 : RHI_CommandList)
    (pipeline_state : RHI_PipelineState) (inp : BeginInput) (r : Bool)
    (h1 : fence_respected false cl.calls = true) (h2 : fence_armed false cl.calls = false)
    (hb : RHI_CommandList.Begin.record D cl pipeline_state inp = some (r, cl1)) :
    fence_respected false cl1.calls = true ∧ fence_armed false cl1.calls = false := by
  unfold RHI_CommandList.Begin.record at hb
  by_cases hst : cl.m_cmd_state = RHI_Cmd_List_Idle
  swap
  · simp [hst] at hb
    obtain ⟨-, rfl⟩ := hb
    exact ⟨h1, h2⟩
  by_cases hbegin : inp.vkBeginCommandBuffer = true
  swap
  · simp [hst, hbegin] at hb
    obtain ⟨-, rfl⟩ := hb
    simp [fence_armed_append, fence_respected_append, fence_armed, fence_respected, h1, h2]
  cases hg : inp.GetPipeline pipeline_state with
  | none =>
    simp [hst, hbegin, hg] at hb
    obtain ⟨-, rfl⟩ := hb
    rw [(End_fence _ _ false).1, (End_fence _ _ false).2]
    simp [fence_armed_append, fence_respected_append, fence_armed, fence_respected, h1, h2]
  | some p =>
    by_cases himage : inp.AcquireNextImage = true
    swap
    · simp [hst, hbegin, hg, himage] at hb
      obtain ⟨-, rfl⟩ := hb
      rw [(End_fence _ _ false).1, (End_fence _ _ false).2]
      simp [fence_armed_append, fence_respected_append, fence_armed, fence_respected, h1, h2]
    by_cases hvalid : p.m_pipeline = 0
    · simp [hst, hbegin, hg, himage, hvalid] at hb
      obtain ⟨-, rfl⟩ := hb
      simp [fence_armed_append, fence_respected_append, fence_armed, fence_respected, h1, h2]
    · simp only [hst, hbegin, hg, himage, hvalid, ne_eq, not_true_eq_false, if_false,
        Bool.true_eq_false, not_false_eq_true, if_true] at hb
      obtain ⟨cl5, e5, p5, rfl⟩ :=
        RHI_CommandList.SetGlobalSamplersAndConstantBuffers_frame
          { cl with
            m_cmd_state := RHI_Cmd_List_Recording
            m_pipeline := some p
            calls := cl.calls ++ [Call.vkBeginCommandBuffer] ++ [Call.GetPipeline]
              ++ [Call.AcquireNextImage]
              ++ [Call.vkCmdBeginRenderPass p.m_state.GetRenderPass p.m_state.GetFrameBuffer
                  p.m_state.GetWidth p.m_state.GetHeight (D.state_max_render_target_count + 1)
                  (RHI_CommandList.Begin.clear_values D p.m_state)]
              ++ [Call.vkCmdBindPipeline p.m_pipeline] } rfl
      rw [e5] at hb
      simp only [Option.map_some', Option.some.injEq, Prod.mk.injEq] at hb
      obtain ⟨-, rfl⟩ := hb
      simp [fence_armed_append, fence_respected_append, fence_armed, fence_respected, h1, h2]

/-- The method `Begin(pipeline_state)` keeps the invariant. -/
theorem fence_invariant_Begin (D : RHI_Definition) (cl cl1 : RHI_CommandList)
    (pipeline_state : RHI_PipelineState) (inp : BeginInput) (r : Bool)
    (h : fence_invariant cl) (hb : cl.Begin D pipeline_state inp = some (r, cl1)) :
    fence_invariant cl1 := by
  obtain ⟨h1, h2⟩ := h
  unfold RHI_CommandList.Begin RHI_CommandList.Begin.sync at hb
  have key : fence_respected false cl1.calls = true ∧ fence_armed false cl1.calls = false := by
    by_cases hst : cl.m_cmd_state = RHI_Cmd_List_Idle_Sync_Cpu_To_Gpu
    · cases hp : cl.m_pipeline with
      | none => simp [hst, hp] at hb
      | some p =>
        simp only [hst, hp, if_true, Option.some_bind] at hb
        refine Begin_record_fence D _ cl1 pipeline_state inp r ?_ ?_ hb <;>
          simp [RHI_CommandList.Flush, fence_armed_append, fence_respected_append, fence_armed,
            fence_respected, h1]
    · simp only [hst, if_false, Option.some_bind] at hb
      have hna : fence_armed false cl.calls = false := by
        cases ha : fence_armed false cl.calls
        · rfl
        · exact absurd (h2 ha) hst
      exact Begin_record_fence D cl cl1 pipeline_state inp r h1 hna hb
  exact ⟨key.1, fun ha => by rw [key.2] at ha; cases ha⟩

/-- Every client call keeps the invariant. -/
theorem fence_invariant_step (D : RHI_Definition) (cl cl1 : RHI_CommandList) (op : Op)
    (h : fence_invariant cl) (hs : step D cl op = some cl1) : fence_invariant cl1 := by
  cases op with
  | Begin_pass_name pass_name =>
    simp only [step] at hs
    split at hs
    · simp only [Option.some.injEq] at hs
      subst hs
      exact fence_invariant_Begin_pass_name cl pass_name h
    · cases hs
  | Begin pipeline_state inp =>
    simp only [step] at hs
    split at hs
    · cases hs
    · simp only [Option.map_eq_some', Prod.exists, exists_eq_right] at hs
      obtain ⟨r, hb⟩ := hs
      exact fence_invariant_Begin D cl cl1 pipeline_state inp r h hb
  | End inp =>
    simp only [step] at hs
    split at hs
    · simp only [Option.some.injEq] at hs
      subst hs
      exact fence_invariant_End cl inp h
    · cases hs
  | Submit vkQueueSubmit =>
    simp only [step, Option.map_eq_some', Prod.exists, exists_eq_right] at hs
    obtain ⟨r, hb⟩ := hs
    exact fence_invariant_Submit cl cl1 vkQueueSubmit r h hb
  | Flush =>
    simp only [step, Option.some.injEq] at hs
    subst hs
    exact fence_invariant_Flush cl h

/-- Every sequence of client calls keeps the invariant. -/
theorem fence_invariant_run (D : RHI_Definition) (ops : List Op) (cl : RHI_CommandList)
    (h : fence_invariant cl) : fence_invariant (run D cl ops) := by
  induction ops generalizing cl with
  | nil => exact h
  | cons op rest ih =>
    unfold run
    cases hs : step D cl op with
    | none => exact h
    | some cl1 => exact ih cl1 (fence_invariant_step D cl cl1 op h hs)

/-- C3. Along every sequence of `Begin(pass_name)`, `Begin(pipeline_state)`, `End`, `Submit`
and `Flush` calls made on a constructed command list, followed as far as the behaviour of
the calls is defined (no read through a null pipeline, no subscript outside the marker
vector), the log never contains a `vkBeginCommandBuffer` issued while the fence armed by
the latest successful `vkQueueSubmit` has not been waited on; and whenever the fence is
armed the command list is in state `Idle_Sync_Cpu_To_Gpu`, the one state in which `Begin`
waits on the fence before it begins the command buffer. -/
theorem command_buffer_not_begun_while_fence_armed (D : RHI_Definition) (renderer : Renderer)
    (profiler : Bool) (rhi_device : RHI_Device) (ops : List Op) :
    fence_respected false (run D (RHI_CommandList.new renderer profiler rhi_device) ops).calls
        = true ∧
      (!fence_armed false (run D (RHI_CommandList.new renderer profiler rhi_device) ops).calls
        || decide ((run D (RHI_CommandList.new renderer profiler rhi_device) ops).m_cmd_state
            = RHI_Cmd_List_Idle_Sync_Cpu_To_Gpu)) = true := by
  obtain ⟨h1, h2⟩ := fence_invariant_run D ops _ (fence_invariant_new renderer profiler rhi_device)
  refine ⟨h1, ?_⟩
  cases ha : fence_armed false (run D (RHI_CommandList.new renderer profiler rhi_device) ops).calls
  · rfl
  · simp [h2 ha]

/-- C3 at the sample life cycle on one marker scope: every call of it has a defined result,
after the first four calls the fence is armed and the state is `Idle_Sync_Cpu_To_Gpu`, the
fifth call is a `Begin` that begins the command buffer again, after the fence wait, and the
whole log respects the fence. -/
theorem command_buffer_not_begun_while_fence_armed_witness :
    run_defined Sample.definition (RHI_CommandList.new Sample.renderer false Sample.device)
      Sample.cycle = true ∧
    fence_armed false (run Sample.definition
      (RHI_CommandList.new Sample.renderer false Sample.device) (Sample.cycle.take 4)).calls
      = true ∧
    (run Sample.definition (RHI_CommandList.new Sample.renderer false Sample.device)
      Sample.cycle).calls.count Call.vkBeginCommandBuffer = 2 ∧
    (run Sample.definition (RHI_CommandList.new Sample.renderer false Sample.device)
      Sample.cycle).m_cmd_state = RHI_Cmd_List_Recording ∧
    (fence_respected false (run Sample.definition
        (RHI_CommandList.new Sample.renderer false Sample.device) Sample.cycle).calls = true ∧
      (!fence_armed false (run Sample.definition
          (RHI_CommandList.new Sample.renderer false Sample.device) Sample.cycle).calls
        || decide ((run Sample.definition
            (RHI_CommandList.new Sample.renderer false Sample.device) Sample.cycle).m_cmd_state
              = RHI_Cmd_List_Idle_Sync_Cpu_To_Gpu)) = true) :=
  ⟨by decide, by decide, by decide, by decide,
    command_buffer_not_begun_while_fence_armed Sample.definition Sample.renderer false
      Sample.device Sample.cycle⟩

/-- The checker `fence_respected` rejects a log that begins the command buffer right after a
successful submission. -/
theorem fence_respected_rejects_rebegin :
    fence_respected false [Call.vkQueueSubmit 0 0 true, Call.vkBeginCommandBuffer] = false := by
  decide

/-! ## Properties of the pipeline -/

namespace RHI_Pipeline

open RHI_Descriptor_Type

/-- The flag `SetConstantBuffer`'s loop leaves when the blueprint has a constant-buffer
descriptor at the slot. -/
theorem SetConstantBuffer_loop_dirty (slot : Nat) (constant_buffer : RHI_ConstantBuffer)
    (descriptors : List RHI_Descriptor) (dirty : Bool) (d : RHI_Descriptor)
    (h : first_of_kind RHI_Descriptor_ConstantBuffer slot descriptors = some d) :
    (SetConstantBuffer.loop slot constant_buffer descriptors dirty).2 =
      if d.id = constant_buffer.GetId then dirty else true := by
  induction descriptors with
  | nil => simp [first_of_kind] at h
  | cons descriptor rest ih =>
    unfold SetConstantBuffer.loop
    by_cases hm : descriptor.type = RHI_Descriptor_ConstantBuffer ∧ descriptor.slot = slot
    · have hd : descriptor = d := by simpa [first_of_kind, List.find?, hm] using h
      subst hd
      by_cases hid : descriptor.id = constant_buffer.GetId <;> simp [hm, hid]
    · have hr : first_of_kind RHI_Descriptor_ConstantBuffer slot rest = some d := by
        simpa [first_of_kind, List.find?, hm] using h
      simp only [hm, if_false]
      exact ih hr

/-- The flag `SetSampler`'s loop leaves when the blueprint has a sampler descriptor at the
slot. -/
theorem SetSampler_loop_dirty (slot : Nat) (sampler : RHI_Sampler)
    (descriptors : List RHI_Descriptor) (dirty : Bool) (d : RHI_Descriptor)
    (h : first_of_kind RHI_Descriptor_Sampler slot descriptors = some d) :
    (SetSampler.loop slot sampler descriptors dirty).2 =
      if d.id = sampler.GetId then dirty else true := by
  induction descriptors with
  | nil => simp [first_of_kind] at h
  | cons descriptor rest ih =>
    unfold SetSampler.loop
    by_cases hm : descriptor.type = RHI_Descriptor_Sampler ∧ descriptor.slot = slot
    · have hd : descriptor = d := by simpa [first_of_kind, List.find?, hm] using h
      subst hd
      by_cases hid : descriptor.id = sampler.GetId <;> simp [hm, hid]
    · have hr : first_of_kind RHI_Descriptor_Sampler slot rest = some d := by
        simpa [first_of_kind, List.find?, hm] using h
      simp only [hm, if_false]
      exact ih hr

/-- The flag `SetTexture`'s loop leaves when the blueprint has a texture descriptor at the
slot and the texture is sampleable. -/
theorem SetTexture_loop_dirty (slot : Nat) (texture : RHI_Texture)
    (descriptors : List RHI_Descriptor) (dirty : Bool) (d : RHI_Descriptor)
    (h : first_of_kind RHI_Descriptor_Texture slot descriptors = some d)
    (hs : texture.IsSampled = true) :
    (SetTexture.loop slot texture descriptors dirty).2 =
      if d.id = texture.GetId then dirty else true := by
  induction descriptors with
  | nil => simp [first_of_kind] at h
  | cons descriptor rest ih =>
    unfold SetTexture.loop
    by_cases hm : descriptor.type = RHI_Descriptor_Texture ∧ descriptor.slot = slot
    · have hd : descriptor = d := by simpa [first_of_kind, List.find?, hm] using h
      subst hd
      by_cases hid : descriptor.id = texture.GetId <;> simp [hm, hid, hs]
    · have hr : first_of_kind RHI_Descriptor_Texture slot rest = some d := by
        simpa [first_of_kind, List.find?, hm] using h
      simp only [hm, if_false]
      exact ih hr

/-- Running `SetConstantBuffer`'s loop again with the same buffer leaves the flag alone. -/
theorem SetConstantBuffer_loop_again (slot : Nat) (constant_buffer : RHI_ConstantBuffer)
    (descriptors : List RHI_Descriptor) (dirty dirty1 : Bool) :
    (SetConstantBuffer.loop slot constant_buffer
        (SetConstantBuffer.loop slot constant_buffer descriptors dirty).1 dirty1).2 = dirty1 := by
  induction descriptors with
  | nil => simp [SetConstantBuffer.loop]
  | cons descriptor rest ih =>
    by_cases hm : descriptor.type = RHI_Descriptor_ConstantBuffer ∧ descriptor.slot = slot
    · simp [SetConstantBuffer.loop, hm]
    · simp only [SetConstantBuffer.loop, hm, if_false]
      exact ih

/-- Running `SetSampler`'s loop again with the same sampler leaves the flag alone. -/
theorem SetSampler_loop_again (slot : Nat) (sampler : RHI_Sampler)
    (descriptors : List RHI_Descriptor) (dirty dirty1 : Bool) :
    (SetSampler.loop slot sampler
        (SetSampler.loop slot sampler descriptors dirty).1 dirty1).2 = dirty1 := by
  induction descriptors with
  | nil => simp [SetSampler.loop]
  | cons descriptor rest ih =>
    by_cases hm : descriptor.type = RHI_Descriptor_Sampler ∧ descriptor.slot = slot
    · simp [SetSampler.loop, hm]
    · simp only [SetSampler.loop, hm, if_false]
      exact ih

/-- Running `SetTexture`'s loop again with the same texture leaves the flag alone. -/
theorem SetTexture_loop_again (slot : Nat) (texture : RHI_Texture)
    (descriptors : List RHI_Descriptor) (dirty dirty1 : Bool) :
    (SetTexture.loop slot texture
        (SetTexture.loop slot texture descriptors dirty).1 dirty1).2 = dirty1 := by
  induction descriptors with
  | nil => simp [SetTexture.loop]
  | cons descriptor rest ih =>
    by_cases hm : descriptor.type = RHI_Descriptor_Texture ∧ descriptor.slot = slot
    · cases hs : texture.IsSampled <;> simp [SetTexture.loop, hm, hs]
    · simp only [SetTexture.loop, hm, if_false]
      exact ih

/-- C7 as stated fails: the sample blueprint holds a texture descriptor with identity 0 at
the target slot, the flag is clear, and `SetTexture` with a texture of identity 6 that is not
sampleable leaves the flag clear. -/
theorem SetTexture_unsampled_counterexample :
    (first_of_kind RHI_Descriptor_Texture
        ((0 + Sample.pipeline.m_rhi_device.GetContextRhi.shader_shift_texture) % UINT32)
        Sample.pipeline.m_descriptors).map (fun d => d.id) = some 0 ∧
    Sample.texture_unsampled.GetId = 6 ∧
    Sample.pipeline.m_descriptor_dirty = false ∧
    (Sample.pipeline.SetTexture 0 Sample.texture_unsampled).m_descriptor_dirty = false := by
  decide

/-- C7, amended. When the blueprint holds a descriptor of the matching kind at the shifted
slot, `SetSampler`, `SetConstantBuffer` and `SetTexture` with a sampleable texture leave the
dirty flag as it was if the resource's id equals the id of the first such descriptor, and
set it if the id differs. Binding the same resource to the same slot a second time in a row
leaves the flag as the first call left it, whatever the resource and the blueprint. -/
theorem binding_dirty_flag (p : RHI_Pipeline) (slot : Nat) (texture : RHI_Texture)
    (sampler : RHI_Sampler) (constant_buffer : RHI_ConstantBuffer) :
    (∀ d, first_of_kind RHI_Descriptor_Texture
          ((slot + p.m_rhi_device.GetContextRhi.shader_shift_texture) % UINT32)
          p.m_descriptors = some d →
        texture.IsSampled = true →
        (p.SetTexture slot texture).m_descriptor_dirty =
          if d.id = texture.GetId then p.m_descriptor_dirty else true) ∧
    (∀ d, first_of_kind RHI_Descriptor_Sampler
          ((slot + p.m_rhi_device.GetContextRhi.shader_shift_sampler) % UINT32)
          p.m_descriptors = some d →
        (p.SetSampler slot sampler).m_descriptor_dirty =
          if d.id = sampler.GetId then p.m_descriptor_dirty else true) ∧
    (∀ d, first_of_kind RHI_Descriptor_ConstantBuffer
          ((slot + p.m_rhi_device.GetContextRhi.shader_shift_buffer) % UINT32)
          p.m_descriptors = some d →
        (p.SetConstantBuffer slot constant_buffer).m_descriptor_dirty =
          if d.id = constant_buffer.GetId then p.m_descriptor_dirty else true) ∧
    ((p.SetTexture slot texture).SetTexture slot texture).m_descriptor_dirty =
      (p.SetTexture slot texture).m_descriptor_dirty ∧
    ((p.SetSampler slot sampler).SetSampler slot sampler).m_descriptor_dirty =
      (p.SetSampler slot sampler).m_descriptor_dirty ∧
    ((p.SetConstantBuffer slot constant_buffer).SetConstantBuffer slot
        constant_buffer).m_descriptor_dirty =
      (p.SetConstantBuffer slot constant_buffer).m_descriptor_dirty := by
  refine ⟨fun d h hs => ?_, fun d h => ?_, fun d h => ?_, ?_, ?_, ?_⟩
  · exact SetTexture_loop_dirty _ texture _ _ d h hs
  · exact SetSampler_loop_dirty _ sampler _ _ d h
  · exact SetConstantBuffer_loop_dirty _ constant_buffer _ _ d h
  · exact SetTexture_loop_again _ texture _ _ _
  · exact SetSampler_loop_again _ sampler _ _ _
  · exact SetConstantBuffer_loop_again _ constant_buffer _ _ _

/-- C7, amended, at the sample pipeline: binding the sampleable texture of identity 5 over
the descriptor of identity 0 sets the flag. -/
theorem binding_dirty_flag_witness :
    (Sample.pipeline.SetTexture 0 Sample.texture_a).m_descriptor_dirty = true :=
  (binding_dirty_flag Sample.pipeline 0 Sample.texture_a
    Sample.renderer.m_sampler_point_clamp Sample.renderer.m_buffer_frame_gpu).1
    Sample.descriptor (by decide) rfl

/-- Looking up a key right after assigning it finds the assigned value. -/
theorem lookup_map_assign (m : List (Nat × Nat)) (key value : Nat) :
    (map_assign m key value).lookup key = some value := by
  induction m with
  | nil => simp [map_assign, List.lookup]
  | cons kv rest ih =>
    obtain ⟨k, v⟩ := kv
    unfold map_assign
    by_cases hk : k = key
    · simp [hk, List.lookup]
    · have hne : (key == k) = false := by simpa using fun h => hk h.symm
      simp [hk, List.lookup, hne, ih]

/-- The hash depends on the blueprint only. -/
theorem GetDescriptorBlueprintHash_congr (H : Utility_Hash) (p q : RHI_Pipeline)
    (a b : List RHI_Descriptor) (h : p.m_descriptors = q.m_descriptors) :
    GetDescriptorBlueprintHash H p a = GetDescriptorBlueprintHash H q b := by
  simp [GetDescriptorBlueprintHash, h]

/-- What `GetDescriptorSet` does when the hash of the blueprint is not cached: the created
handle is returned and cached under the hash, the flag ends clear (by the modelled
creation), and nothing else changes. -/
theorem GetDescriptorSet_unknown (H : Utility_Hash) (p : RHI_Pipeline) (descriptor_set : Nat)
    (h : p.m_descriptor_resources.lookup (GetDescriptorBlueprintHash H p p.m_descriptors) = none) :
    (p.GetDescriptorSet H descriptor_set).1 = descriptor_set ∧
    (p.GetDescriptorSet H descriptor_set).2.m_descriptor_dirty = false ∧
    (p.GetDescriptorSet H descriptor_set).2.m_descriptors = p.m_descriptors ∧
    (p.GetDescriptorSet H descriptor_set).2.m_pipeline_layout = p.m_pipeline_layout ∧
    (p.GetDescriptorSet H descriptor_set).2.m_descriptor_resources =
      map_assign p.m_descriptor_resources (GetDescriptorBlueprintHash H p p.m_descriptors)
        descriptor_set := by
  simp [GetDescriptorSet, CreateDescriptorSet, h]

/-- What `GetDescriptorSet` does when the hash of the blueprint is cached: the cached handle
is returned if the flag is set, null otherwise; the flag ends clear and nothing else
changes. -/
theorem GetDescriptorSet_known (H : Utility_Hash) (p : RHI_Pipeline)
    (descriptor_set cached : Nat)
    (h : p.m_descriptor_resources.lookup (GetDescriptorBlueprintHash H p p.m_descriptors)
      = some cached) :
    (p.GetDescriptorSet H descriptor_set).1 = (if p.m_descriptor_dirty then cached else 0) ∧
    (p.GetDescriptorSet H descriptor_set).2.m_descriptor_dirty = false ∧
    (p.GetDescriptorSet H descriptor_set).2.m_descriptors = p.m_descriptors ∧
    (p.GetDescriptorSet H descriptor_set).2.m_descriptor_resources = p.m_descriptor_resources := by
  cases hd : p.m_descriptor_dirty <;> simp [GetDescriptorSet, h, hd]

/-- After a `GetDescriptorSet` on an unseen blueprint, the hash of the blueprint is cached
with the created handle. -/
theorem GetDescriptorSet_unknown_caches (H : Utility_Hash) (p : RHI_Pipeline)
    (descriptor_set : Nat)
    (h : p.m_descriptor_resources.lookup (GetDescriptorBlueprintHash H p p.m_descriptors) = none) :
    (p.GetDescriptorSet H descriptor_set).2.m_descriptor_resources.lookup
      (GetDescriptorBlueprintHash H (p.GetDescriptorSet H descriptor_set).2
        (p.GetDescriptorSet H descriptor_set).2.m_descriptors) = some descriptor_set := by
  obtain ⟨-, -, hdesc, -, hres⟩ := GetDescriptorSet_unknown H p descriptor_set h
  rw [GetDescriptorBlueprintHash_congr H _ p _ p.m_descriptors hdesc, hres]
  exact lookup_map_assign _ _ _

/-- C8, with descriptor-set creation as modelled. For every pipeline whose current blueprint
hash is not cached, when the creation yields a non-null handle: the first `GetDescriptorSet`
returns that handle, and an immediately repeated `GetDescriptorSet` returns the null
sentinel, whatever the dirty flag was before; so on a recording command list holding the
pipeline, a `Draw` followed directly by another `Draw` logs one descriptor-set bind and the
first draw, then the second draw with no bind. -/
theorem GetDescriptorSet_first_then_repeated (H : Utility_Hash) (p : RHI_Pipeline)
    (descriptor_set descriptor_set2 : Nat)
    (hnew : p.m_descriptor_resources.lookup
      (GetDescriptorBlueprintHash H p p.m_descriptors) = none)
    (hset : descriptor_set ≠ 0) :
    (p.GetDescriptorSet H descriptor_set).1 = descriptor_set ∧
    (p.GetDescriptorSet H descriptor_set).1 ≠ 0 ∧
    ((p.GetDescriptorSet H descriptor_set).2.GetDescriptorSet H descriptor_set2).1 = 0 ∧
    ∀ (cl : RHI_CommandList) (n n2 : Nat),
      cl.m_cmd_state = RHI_Cmd_List_State.RHI_Cmd_List_Recording → cl.m_pipeline = some p →
      ((cl.Draw H n descriptor_set).bind (fun cl1 => cl1.Draw H n2 descriptor_set2)).map
          (fun cl2 => cl2.calls) =
        some (cl.calls ++
          [Call.vkCmdBindDescriptorSets p.m_pipeline_layout 0 1 descriptor_set 0,
            Call.vkCmdDraw n 1 0 0, Call.vkCmdDraw n2 1 0 0]) := by
  obtain ⟨h1, hdirty, -, hlayout, -⟩ := GetDescriptorSet_unknown H p descriptor_set hnew
  have hc1 := GetDescriptorSet_unknown_caches H p descriptor_set hnew
  obtain ⟨h2, -, -, -⟩ :=
    GetDescriptorSet_known H (p.GetDescriptorSet H descriptor_set).2 descriptor_set2
      descriptor_set hc1
  have h2' : ((p.GetDescriptorSet H descriptor_set).2.GetDescriptorSet H descriptor_set2).1
      = 0 := by
    rw [h2, hdirty]
    rfl
  refine ⟨h1, by rw [h1]; exact hset, h2', ?_⟩
  intro cl n n2 hstate hp
  simp [RHI_CommandList.Draw, RHI_CommandList.bind_descriptor_set, hstate, hp, h1, h2', hset,
    hlayout]

/-- C8 at the sample pipeline with its dirty flag set, and at the recording sample command
list. -/
theorem GetDescriptorSet_first_then_repeated_witness :
    Sample.pipeline_dirty.m_descriptor_dirty = true ∧
    (Sample.pipeline_dirty.GetDescriptorSet Sample.hash 55).1 = 55 ∧
    ((Sample.pipeline_dirty.GetDescriptorSet Sample.hash 55).2.GetDescriptorSet
      Sample.hash 56).1 = 0 ∧
    ((Sample.recording.Draw Sample.hash 3 55).bind
        (fun cl1 => cl1.Draw Sample.hash 3 56)).map (fun cl2 => cl2.calls) =
      some (Sample.recording.calls ++
        [Call.vkCmdBindDescriptorSets 901 0 1 55 0, Call.vkCmdDraw 3 1 0 0,
          Call.vkCmdDraw 3 1 0 0]) :=
  ⟨rfl,
    (GetDescriptorSet_first_then_repeated Sample.hash Sample.pipeline_dirty 55 56 (by decide)
      (by decide)).1,
    (GetDescriptorSet_first_then_repeated Sample.hash Sample.pipeline_dirty 55 56 (by decide)
      (by decide)).2.2.1,
    (GetDescriptorSet_first_then_repeated Sample.hash Sample.pipeline 55 56 (by decide)
      (by decide)).2.2.2 Sample.recording 3 3 rfl rfl⟩

/-- C9. When the hash of the current blueprint is a key of the descriptor-set cache: with the
dirty flag clear, `GetDescriptorSet` returns null and the pipeline is unchanged; with the
dirty flag set, it returns the handle cached under that hash and the pipeline afterwards is
the one before with the flag cleared, so the cache and the blueprint are unchanged. -/
theorem GetDescriptorSet_cached_hash (H : Utility_Hash) (p : RHI_Pipeline)
    (descriptor_set cached : Nat)
    (h : p.m_descriptor_resources.lookup (GetDescriptorBlueprintHash H p p.m_descriptors)
      = some cached) :
    (p.m_descriptor_dirty = false → p.GetDescriptorSet H descriptor_set = (0, p)) ∧
    (p.m_descriptor_dirty = true →
      p.GetDescriptorSet H descriptor_set = (cached, { p with m_descriptor_dirty := false }) ∧
      (p.GetDescriptorSet H descriptor_set).2.m_descriptor_dirty = false ∧
      (p.GetDescriptorSet H descriptor_set).2.m_descriptor_resources = p.m_descriptor_resources ∧
      (p.GetDescriptorSet H descriptor_set).2.m_descriptors = p.m_descriptors) := by
  constructor
  · intro hd
    simp [GetDescriptorSet, h, hd]
  · intro hd
    simp [GetDescriptorSet, h, hd]

/-- C9 at the sample pipeline whose blueprint hash is cached with handle 55, once with the
flag clear and once with the flag set. -/
theorem GetDescriptorSet_cached_hash_witness :
    Sample.pipeline_cached.GetDescriptorSet Sample.hash 77 = (0, Sample.pipeline_cached) ∧
    ({ Sample.pipeline_cached with m_descriptor_dirty := true } : RHI_Pipeline).GetDescriptorSet
      Sample.hash 77 = (55, Sample.pipeline_cached) :=
  ⟨(GetDescriptorSet_cached_hash Sample.hash Sample.pipeline_cached 77 55 (by decide)).1 rfl,
    ((GetDescriptorSet_cached_hash Sample.hash
      { Sample.pipeline_cached with m_descriptor_dirty := true } 77 55 (by decide)).2 rfl).1⟩

end RHI_Pipeline

namespace RHI_CommandList

open RHI_Cmd_List_State RHI_Descriptor_Type

/-- C10, with descriptor-set creation as modelled. On a recording command list, after
`SetTexture` has bound a sampleable texture whose identity differs from that of the
addressed descriptor (which sets the dirty flag), a `DrawIndexed` that finds the hash of the
blueprint not cached and creates a non-null descriptor set logs exactly the bind of that
set followed by the indexed draw, caches the set under the hash of the blueprint, and
returns with the dirty flag clear. -/
theorem DrawIndexed_after_SetTexture (H : Utility_Hash) (cl : RHI_CommandList)
    (p : RHI_Pipeline) (slot : Nat) (texture : RHI_Texture) (d : RHI_Descriptor)
    (index_count index_offset vertex_offset descriptor_set : Nat)
    (hstate : cl.m_cmd_state = RHI_Cmd_List_Recording)
    (hp : cl.m_pipeline = some p)
    (hview : texture.GetResource_View ≠ 0)
    (hsampled : texture.IsSampled = true)
    (hd : RHI_Pipeline.first_of_kind RHI_Descriptor_Texture
      ((slot + p.m_rhi_device.GetContextRhi.shader_shift_texture) % UINT32) p.m_descriptors
      = some d)
    (hid : d.id ≠ texture.GetId)
    (hnew : (p.SetTexture slot texture).m_descriptor_resources.lookup
      (RHI_Pipeline.GetDescriptorBlueprintHash H (p.SetTexture slot texture)
        (p.SetTexture slot texture).m_descriptors) = none)
    (hset : descriptor_set ≠ 0) :
    ∃ cl1 cl2 p2,
      cl.SetTexture slot (some texture) = some cl1 ∧
      cl1.m_pipeline = some (p.SetTexture slot texture) ∧
      (p.SetTexture slot texture).m_descriptor_dirty = true ∧
      cl1.DrawIndexed H index_count index_offset vertex_offset descriptor_set = some cl2 ∧
      cl2.calls = cl.calls ++
        [Call.vkCmdBindDescriptorSets p.m_pipeline_layout 0 1 descriptor_set 0,
          Call.vkCmdDrawIndexed index_count 1 index_offset (int32_of_uint32 vertex_offset) 0] ∧
      cl2.m_pipeline = some p2 ∧
      p2.m_descriptor_dirty = false ∧
      p2.m_descriptor_resources.lookup
        (RHI_Pipeline.GetDescriptorBlueprintHash H p2 p2.m_descriptors) = some descriptor_set := by
  have hdirty : (p.SetTexture slot texture).m_descriptor_dirty = true := by
    have := RHI_Pipeline.SetTexture_loop_dirty _ texture _ p.m_descriptor_dirty d hd hsampled
    simpa [RHI_Pipeline.SetTexture, hid] using this
  obtain ⟨h1, h2, -, h4, -⟩ :=
    RHI_Pipeline.GetDescriptorSet_unknown H (p.SetTexture slot texture) descriptor_set hnew
  have h5 := RHI_Pipeline.GetDescriptorSet_unknown_caches H (p.SetTexture slot texture)
    descriptor_set hnew
  refine ⟨{ cl with m_pipeline := some (p.SetTexture slot texture) },
    { cl with
      m_pipeline := some ((p.SetTexture slot texture).GetDescriptorSet H descriptor_set).2
      calls := cl.calls
        ++ bind_descriptor_set ((p.SetTexture slot texture).GetDescriptorSet H descriptor_set).2
            ((p.SetTexture slot texture).GetDescriptorSet H descriptor_set).1
        ++ [Call.vkCmdDrawIndexed index_count 1 index_offset (int32_of_uint32 vertex_offset)
              0] },
    ((p.SetTexture slot texture).GetDescriptorSet H descriptor_set).2, ?_, rfl, hdirty, ?_, ?_,
    rfl, h2, h5⟩
  · simp [SetTexture, hstate, hp, hview]
  · simp [DrawIndexed, hstate]
  · have hl : (p.SetTexture slot texture).m_pipeline_layout = p.m_pipeline_layout := rfl
    simp [bind_descriptor_set, h1, h4, hl, hset]

/-- C10 at the recording sample command list. -/
theorem DrawIndexed_after_SetTexture_witness :
    ∃ cl1 cl2 p2,
      Sample.recording.SetTexture 0 (some Sample.texture_a) = some cl1 ∧
      cl1.m_pipeline = some (Sample.pipeline.SetTexture 0 Sample.texture_a) ∧
      (Sample.pipeline.SetTexture 0 Sample.texture_a).m_descriptor_dirty = true ∧
      cl1.DrawIndexed Sample.hash 6 0 0 55 = some cl2 ∧
      cl2.calls = Sample.recording.calls ++
        [Call.vkCmdBindDescriptorSets Sample.pipeline.m_pipeline_layout 0 1 55 0,
          Call.vkCmdDrawIndexed 6 1 0 0 0] ∧
      cl2.m_pipeline = some p2 ∧
      p2.m_descriptor_dirty = false ∧
      p2.m_descriptor_resources.lookup
        (RHI_Pipeline.GetDescriptorBlueprintHash Sample.hash p2 p2.m_descriptors) = some 55 :=
  DrawIndexed_after_SetTexture Sample.hash Sample.recording Sample.pipeline 0 Sample.texture_a
    Sample.descriptor 6 0 0 55 rfl rfl (by decide) rfl (by decide) (by decide) (by decide)
    (by decide)

end RHI_CommandList

/-! ## Texture binding: the placeholder and the sampleability gate -/

namespace RHI_Pipeline

open RHI_Descriptor_Type

/-- After `SetTexture`'s loop has applied a sampleable texture, the descriptor addressed is
still the first of its kind at the slot, and it carries the texture's id, view, layout and
address; its other fields are as before. -/
theorem SetTexture_loop_first (slot : Nat) (texture : RHI_Texture)
    (descriptors : List RHI_Descriptor) (dirty : Bool) (d : RHI_Descriptor)
    (h : first_of_kind RHI_Descriptor_Texture slot descriptors = some d)
    (hs : texture.IsSampled = true) :
    first_of_kind RHI_Descriptor_Texture slot (SetTexture.loop slot texture descriptors dirty).1 =
      some { d with
        id := texture.GetId
        resource := texture.GetResource_View
        layout := texture.GetLayout
        user_data := texture.address } := by
  induction descriptors with
  | nil => simp [first_of_kind] at h
  | cons descriptor rest ih =>
    unfold SetTexture.loop
    by_cases hm : descriptor.type = RHI_Descriptor_Texture ∧ descriptor.slot = slot
    · have hd : descriptor = d := by simpa [first_of_kind, List.find?, hm] using h
      subst hd
      simp [hm, hs, first_of_kind, List.find?]
    · have hr : first_of_kind RHI_Descriptor_Texture slot rest = some d := by
        simpa [first_of_kind, List.find?, hm] using h
      simp only [hm, if_false]
      have := ih hr
      simpa [first_of_kind, List.find?, hm] using this

/-- With a texture that is not sampleable, `SetTexture`'s loop hands back the blueprint and
the flag it was given. -/
theorem SetTexture_loop_unsampled (slot : Nat) (texture : RHI_Texture)
    (descriptors : List RHI_Descriptor) (dirty : Bool) (hs : texture.IsSampled = false) :
    SetTexture.loop slot texture descriptors dirty = (descriptors, dirty) := by
  induction descriptors with
  | nil => rfl
  | cons descriptor rest ih =>
    unfold SetTexture.loop
    by_cases hm : descriptor.type = RHI_Descriptor_Texture ∧ descriptor.slot = slot
    · simp [hm, hs]
    · simp only [hm, if_false, ih]

/-- C12. For every pipeline, slot and texture whose `IsSampled()` is false,
`RHI_Pipeline::SetTexture` applies nothing: the pipeline afterwards is the pipeline before,
so every descriptor of the blueprint (id, resource, layout, user data and the rest) and the
dirty flag are unchanged. -/
theorem SetTexture_unsampled_applies_nothing (p : RHI_Pipeline) (slot : Nat)
    (texture : RHI_Texture) (hs : texture.IsSampled = false) :
    p.SetTexture slot texture = p ∧
      (p.SetTexture slot texture).m_descriptors = p.m_descriptors ∧
      (p.SetTexture slot texture).m_descriptor_dirty = p.m_descriptor_dirty := by
  have h : p.SetTexture slot texture = p := by
    unfold SetTexture
    rw [SetTexture_loop_unsampled _ texture _ _ hs]
  rw [h]
  exact ⟨rfl, rfl, rfl⟩

/-- C12 at the sample pipeline and the texture that is not sampleable. -/
theorem SetTexture_unsampled_applies_nothing_witness :
    Sample.pipeline.SetTexture 0 Sample.texture_unsampled = Sample.pipeline ∧
      (Sample.pipeline.SetTexture 0 Sample.texture_unsampled).m_descriptors
        = Sample.pipeline.m_descriptors ∧
      (Sample.pipeline.SetTexture 0 Sample.texture_unsampled).m_descriptor_dirty
        = Sample.pipeline.m_descriptor_dirty :=
  SetTexture_unsampled_applies_nothing Sample.pipeline 0 Sample.texture_unsampled rfl

end RHI_Pipeline

namespace RHI_CommandList

open RHI_Cmd_List_State RHI_Descriptor_Type

/-- C11 as stated fails: `SetTexture` substitutes the black placeholder without testing its
shader view, so with a placeholder that is sampleable but has no view,
`SetTexture(0, nullptr)` on a recording command list whose blueprint has a texture
descriptor at the slot leaves that descriptor with the placeholder's id 1 and a null
resource. -/
theorem SetTexture_null_binds_null_view_counterexample :
    Sample.recording_no_view.m_cmd_state = RHI_Cmd_List_Recording ∧
    Sample.recording_no_view.m_pipeline = some Sample.pipeline ∧
    Sample.recording_no_view.m_renderer.GetBlackTexture.IsSampled = true ∧
    Sample.recording_no_view.m_renderer.GetBlackTexture.GetResource_View = 0 ∧
    RHI_Pipeline.first_of_kind RHI_Descriptor_Texture
      ((0 + Sample.pipeline.m_rhi_device.GetContextRhi.shader_shift_texture) % UINT32)
      Sample.pipeline.m_descriptors = some Sample.descriptor ∧
    (Sample.recording_no_view.SetTexture 0 none).map
      (fun cl1 => cl1.m_pipeline.map
        (fun p1 => p1.m_descriptors.map (fun d1 => (d1.id, d1.resource)))) =
      some (some [(1, 0)]) := by
  decide

/-- C11, amended. On a recording command list whose pipeline blueprint has a texture
descriptor at slot `s` plus the texture shift, and whose black placeholder texture is
sampleable and has a non-null shader view, `SetTexture(s, nullptr)` returns and leaves that
descriptor, still the first texture descriptor at the slot, with the placeholder's id as
identity and the placeholder's shader view as resource (also its layout and address), so
with a non-null resource. -/
theorem SetTexture_null_binds_black (cl : RHI_CommandList) (p : RHI_Pipeline) (slot : Nat)
    (d : RHI_Descriptor)
    (hstate : cl.m_cmd_state = RHI_Cmd_List_Recording)
    (hp : cl.m_pipeline = some p)
    (hblack : cl.m_renderer.GetBlackTexture.IsSampled = true)
    (hview : cl.m_renderer.GetBlackTexture.GetResource_View ≠ 0)
    (hd : RHI_Pipeline.first_of_kind RHI_Descriptor_Texture
      ((slot + p.m_rhi_device.GetContextRhi.shader_shift_texture) % UINT32) p.m_descriptors
      = some d) :
    ∃ cl1 p1 d1,
      cl.SetTexture slot none = some cl1 ∧
      cl1.m_pipeline = some p1 ∧
      RHI_Pipeline.first_of_kind RHI_Descriptor_Texture
        ((slot + p.m_rhi_device.GetContextRhi.shader_shift_texture) % UINT32) p1.m_descriptors
        = some d1 ∧
      d1.id = cl.m_renderer.GetBlackTexture.GetId ∧
      d1.resource = cl.m_renderer.GetBlackTexture.GetResource_View ∧
      d1.layout = cl.m_renderer.GetBlackTexture.GetLayout ∧
      d1.user_data = cl.m_renderer.GetBlackTexture.address ∧
      d1.slot = d.slot ∧ d1.type = d.type ∧ d1.stage = d.stage ∧ d1.size = d.size ∧
      d1.resource ≠ 0 := by
  refine ⟨{ cl with m_pipeline := some (p.SetTexture slot cl.m_renderer.GetBlackTexture) },
    p.SetTexture slot cl.m_renderer.GetBlackTexture, _, ?_, rfl,
    RHI_Pipeline.SetTexture_loop_first _ cl.m_renderer.GetBlackTexture _ p.m_descriptor_dirty d
      hd hblack,
    rfl, rfl, rfl, rfl, rfl, rfl, rfl, rfl, hview⟩
  simp [SetTexture, hstate, hp]

/-- C11, amended, at the recording sample command list: slot 0 of the texture range ends up
bound to the black texture (id 1, view 70). -/
theorem SetTexture_null_binds_black_witness :
    ∃ cl1 p1 d1,
      Sample.recording.SetTexture 0 none = some cl1 ∧
      cl1.m_pipeline = some p1 ∧
      RHI_Pipeline.first_of_kind RHI_Descriptor_Texture
        ((0 + Sample.pipeline.m_rhi_device.GetContextRhi.shader_shift_texture) % UINT32)
        p1.m_descriptors = some d1 ∧
      d1.id = Sample.recording.m_renderer.GetBlackTexture.GetId ∧
      d1.resource = Sample.recording.m_renderer.GetBlackTexture.GetResource_View ∧
      d1.layout = Sample.recording.m_renderer.GetBlackTexture.GetLayout ∧
      d1.user_data = Sample.recording.m_renderer.GetBlackTexture.address ∧
      d1.slot = Sample.descriptor.slot ∧ d1.type = Sample.descriptor.type ∧
      d1.stage = Sample.descriptor.stage ∧ d1.size = Sample.descriptor.size ∧
      d1.resource ≠ 0 :=
  SetTexture_null_binds_black Sample.recording Sample.pipeline 0 Sample.descriptor rfl rfl rfl
    (by decide) (by decide)

/-! ## Submit from `Ended`, and the marker scopes -/

/-- C18. In state `Ended` with a resolved pipeline, `Submit` logs one `vkQueueSubmit`; when
the submission succeeds it returns true and leaves `Idle_Sync_Cpu_To_Gpu`, and when the
submission fails it returns false and the state remains `Ended`. Nothing but the log and the
state changes. -/
theorem Submit_follows_queue_submission (cl : RHI_CommandList) (p : RHI_Pipeline)
    (vkQueueSubmit : Bool)
    (hstate : cl.m_cmd_state = RHI_Cmd_List_Ended)
    (hp : cl.m_pipeline = some p) :
    cl.Submit vkQueueSubmit = some (vkQueueSubmit,
      { cl with
        calls := cl.calls ++ [Call.vkQueueSubmit
          (if p.m_state.render_target_swapchain.isSome then 1 else 0)
          (p.m_state.render_target_swapchain.getD 0) vkQueueSubmit]
        m_cmd_state :=
          if vkQueueSubmit then RHI_Cmd_List_Idle_Sync_Cpu_To_Gpu else RHI_Cmd_List_Ended }) := by
  cases vkQueueSubmit <;> simp [Submit, hstate, hp]

/-- C18 at the ended sample command list, for a submission that succeeds and one that
fails. -/
theorem Submit_follows_queue_submission_witness :
    (Sample.ended.Submit true).map (fun r => (r.1, r.2.m_cmd_state))
        = some (true, RHI_Cmd_List_Idle_Sync_Cpu_To_Gpu) ∧
      (Sample.ended.Submit false).map (fun r => (r.1, r.2.m_cmd_state))
        = some (false, RHI_Cmd_List_Ended) :=
  ⟨by rw [Submit_follows_queue_submission Sample.ended Sample.pipeline true rfl rfl]; rfl,
    by rw [Submit_follows_queue_submission Sample.ended Sample.pipeline false rfl rfl]; rfl⟩

/-- C19 as stated fails: on the recording sample command list `Begin(pass_name)` returns
true and pushes a marker scope (the depth goes from 0 to 1 and the flag at index 0 is set);
the command list is not left unchanged. -/
theorem Begin_pass_name_counterexample :
    Sample.recording.m_cmd_state = RHI_Cmd_List_Recording ∧
    (Sample.recording.Begin_pass_name "Pass_Lines").1 = true ∧
    Sample.recording.m_pass_index = 0 ∧
    (Sample.recording.Begin_pass_name "Pass_Lines").2.m_pass_index = 1 ∧
    Sample.recording.m_passes_active[0]? = some false ∧
    (Sample.recording.Begin_pass_name "Pass_Lines").2.m_passes_active[0]? = some true := by
  decide

/-- C19, amended. In every state, `Recording` included, on a command list whose marker
vector has its 100 entries and whose marker depth is below 100, `Begin(pass_name)` returns
true, leaves the command-list state and the pipeline pointer as they were, and pushes one
marker scope: the flag at the old `m_pass_index`, which is inside the vector, reads true
afterwards, every other flag and the length of the vector are as before, and `m_pass_index`
is one more than before. -/
theorem Begin_pass_name_always_pushes (cl : RHI_CommandList) (pass_name : String)
    (hlen : cl.m_passes_active.length = 100) (hdepth : cl.m_pass_index < 100) :
    (cl.Begin_pass_name pass_name).1 = true ∧
    (cl.Begin_pass_name pass_name).2.m_cmd_state = cl.m_cmd_state ∧
    (cl.Begin_pass_name pass_name).2.m_pipeline = cl.m_pipeline ∧
    (cl.Begin_pass_name pass_name).2.m_pass_index = cl.m_pass_index + 1 ∧
    (cl.Begin_pass_name pass_name).2.m_passes_active[cl.m_pass_index]? = some true ∧
    (cl.Begin_pass_name pass_name).2.m_passes_active.length = 100 ∧
    ∀ j, j ≠ cl.m_pass_index →
      (cl.Begin_pass_name pass_name).2.m_passes_active[j]? = cl.m_passes_active[j]? := by
  refine ⟨rfl, rfl, rfl, ?_, ?_, ?_, ?_⟩
  · show (cl.m_pass_index + 1) % UINT32 = cl.m_pass_index + 1
    unfold UINT32
    omega
  · show (cl.m_passes_active.set cl.m_pass_index true)[cl.m_pass_index]? = some true
    exact List.getElem?_set_self (by omega)
  · show (cl.m_passes_active.set cl.m_pass_index true).length = 100
    rw [List.length_set]
    exact hlen
  · intro j hj
    show (cl.m_passes_active.set cl.m_pass_index true)[j]? = cl.m_passes_active[j]?
    exact List.getElem?_set_ne (Ne.symm hj)

/-- C19, amended, at the recording sample command list. -/
theorem Begin_pass_name_always_pushes_witness :
    Sample.recording.m_cmd_state = RHI_Cmd_List_Recording ∧
    Sample.recording.m_passes_active.length = 100 ∧
    Sample.recording.m_pass_index < 100 ∧
    (Sample.recording.Begin_pass_name "Pass_Lines").1 = true ∧
    (Sample.recording.Begin_pass_name "Pass_Lines").2.m_cmd_state
      = Sample.recording.m_cmd_state ∧
    (Sample.recording.Begin_pass_name "Pass_Lines").2.m_pass_index
      = Sample.recording.m_pass_index + 1 ∧
    (Sample.recording.Begin_pass_name "Pass_Lines").2.m_passes_active[
      Sample.recording.m_pass_index]? = some true :=
  ⟨rfl, by decide, by decide,
    (Begin_pass_name_always_pushes Sample.recording "Pass_Lines" (by decide) (by decide)).1,
    (Begin_pass_name_always_pushes Sample.recording "Pass_Lines" (by decide)
      (by decide)).2.1,
    (Begin_pass_name_always_pushes Sample.recording "Pass_Lines" (by decide)
      (by decide)).2.2.2.1,
    (Begin_pass_name_always_pushes Sample.recording "Pass_Lines" (by decide)
      (by decide)).2.2.2.2.1⟩

/-- C20 fails on the code. On a freshly constructed command list (state `Idle`, marker depth
0) `End()` has no defined result: the subscript it reads is 4294967295, outside the
100-entry vector. The same holds of a second `End()` on an `Idle` command list inside one
marker scope, after the first `End()` has popped that scope. -/
theorem End_in_Idle_without_marker_reads_outside :
    Sample.fresh.m_cmd_state = RHI_Cmd_List_Idle ∧
    Sample.fresh.m_pass_index = 0 ∧
    End.subscript Sample.fresh = 4294967295 ∧
    End.in_range Sample.fresh = false ∧
    run_defined Sample.definition Sample.fresh [Op.End Sample.end_ok] = false ∧
    Sample.marked.m_cmd_state = RHI_Cmd_List_Idle ∧
    run_defined Sample.definition Sample.marked [Op.End Sample.end_ok] = true ∧
    (Sample.marked.End Sample.end_ok).2.m_pass_index = 0 ∧
    run_defined Sample.definition Sample.marked
      [Op.End Sample.end_ok, Op.End Sample.end_ok] = false := by
  decide

/-- The method `End` outside `Recording` (in particular in `Idle`) on a command list for
which the subscript it reads is inside the marker vector: `End` leaves the command-list
state unchanged and logs neither `vkCmdEndRenderPass` nor `vkEndCommandBuffer`; and if the
top marker scope is active (the depth is at least one and the flag below it is set), `End`
pops exactly that scope: the depth decreases by one, the popped flag is cleared, and every
other flag is as before. -/
theorem End_outside_Recording (cl : RHI_CommandList) (inp : EndInput)
    (hstate : cl.m_cmd_state ≠ RHI_Cmd_List_Recording)
    (_hrange : End.in_range cl = true) :
    (cl.End inp).2.m_cmd_state = cl.m_cmd_state ∧
    (∃ l, (cl.End inp).2.calls = cl.calls ++ l ∧
      Call.vkCmdEndRenderPass ∉ l ∧ Call.vkEndCommandBuffer ∉ l) ∧
    (1 ≤ cl.m_pass_index → cl.m_pass_index < UINT32 →
      cl.m_passes_active[cl.m_pass_index - 1]? = some true →
      (cl.End inp).2.m_pass_index = cl.m_pass_index - 1 ∧
      (cl.End inp).2.m_passes_active[cl.m_pass_index - 1]? = some false ∧
      (cl.End inp).2.m_passes_active.length = cl.m_passes_active.length ∧
      ∀ j, j ≠ cl.m_pass_index - 1 →
        (cl.End inp).2.m_passes_active[j]? = cl.m_passes_active[j]?) := by
  have hpass : End.pass cl inp = (true, cl) := by simp [End.pass, hstate]
  refine ⟨by rw [End_state]; simp [hstate], ?_, ?_⟩
  · unfold End
    rw [hpass]
    unfold End.marker
    split_ifs <;> simp
  · intro h1 h2 htop
    have hsub : End.subscript cl = cl.m_pass_index - 1 := by
      unfold End.subscript UINT32 at *
      omega
    have hlt : cl.m_pass_index - 1 < cl.m_passes_active.length := by
      by_contra hge
      rw [List.getElem?_eq_none (by omega)] at htop
      cases htop
    have hget : cl.m_passes_active.getD (cl.m_pass_index - 1) inp.stray = true := by
      rw [List.getD_eq_getElem?_getD, htop]
      rfl
    unfold End
    rw [hpass]
    unfold End.marker
    dsimp only
    rw [hsub, if_pos hget]
    refine ⟨rfl, List.getElem?_set_self hlt, by simp, fun j hj => ?_⟩
    exact List.getElem?_set_ne (Ne.symm hj)

/-- The method `End` at an `Idle` command list inside two nested marker scopes: it pops the
inner scope and leaves the outer one. -/
theorem End_outside_Recording_witness :
    Sample.marked_twice.m_cmd_state ≠ RHI_Cmd_List_Recording ∧
    (Sample.marked_twice.End Sample.end_ok).2.m_cmd_state = Sample.marked_twice.m_cmd_state ∧
    (Sample.marked_twice.End Sample.end_ok).2.m_pass_index = 1 ∧
    (Sample.marked_twice.End Sample.end_ok).2.m_passes_active[1]? = some false ∧
    (Sample.marked_twice.End Sample.end_ok).2.m_passes_active[0]?
      = Sample.marked_twice.m_passes_active[0]? :=
  ⟨by decide,
    (End_outside_Recording Sample.marked_twice Sample.end_ok (by decide) (by decide)).1,
    ((End_outside_Recording Sample.marked_twice Sample.end_ok (by decide) (by decide)).2.2
      (by decide) (by decide) (by decide)).1,
    ((End_outside_Recording Sample.marked_twice Sample.end_ok (by decide) (by decide)).2.2
      (by decide) (by decide) (by decide)).2.1,
    ((End_outside_Recording Sample.marked_twice Sample.end_ok (by decide) (by decide)).2.2
      (by decide) (by decide) (by decide)).2.2.2 0 (by decide)⟩

end RHI_CommandList

/-! ## Shader reflection -/

namespace RHI_Pipeline

open RHI_Descriptor_Type

/-- The test of the inner loop of `ReflectShaders` compares the (slot, kind) pairs. -/
theorem same_resource_iff (descriptor descriptor_reflected : RHI_Descriptor) :
    (descriptor.type = descriptor_reflected.type ∧ descriptor.slot = descriptor_reflected.slot) ↔
      slot_kind descriptor = slot_kind descriptor_reflected := by
  simp only [slot_kind, Prod.mk.injEq]
  exact ⟨fun h => ⟨h.2, h.1⟩, fun h => ⟨h.2, h.1⟩⟩

/-- The inner loop keeps the (slot, kind) pairs of the blueprint, in order. -/
theorem update_slot_kind (e : RHI_Descriptor) (descriptors : List RHI_Descriptor) :
    (ReflectShaders.update e descriptors).1.map slot_kind = descriptors.map slot_kind := by
  induction descriptors with
  | nil => rfl
  | cons d rest ih =>
    unfold ReflectShaders.update
    by_cases hm : d.type = e.type ∧ d.slot = e.slot
    · simp [hm, slot_kind]
    · simp only [hm, if_false, List.map_cons, ih]

/-- The inner loop reports an update exactly when the blueprint holds the (slot, kind) pair
of the reflected descriptor. -/
theorem update_flag (e : RHI_Descriptor) (descriptors : List RHI_Descriptor) :
    (ReflectShaders.update e descriptors).2 = true ↔ slot_kind e ∈ descriptors.map slot_kind := by
  induction descriptors with
  | nil => simp [ReflectShaders.update]
  | cons d rest ih =>
    unfold ReflectShaders.update
    by_cases hm : d.type = e.type ∧ d.slot = e.slot
    · have := (same_resource_iff d e).mp hm
      simp [hm, this]
    · have hne : ¬ slot_kind e = slot_kind d := fun h => hm ((same_resource_iff d e).mpr h.symm)
      simp only [hm, if_false, List.map_cons, List.mem_cons, hne, false_or]
      exact ih

/-- Merging one reflected descriptor keeps the (slot, kind) pairs of the blueprint distinct. -/
theorem merge_nodup (descriptors : List RHI_Descriptor) (e : RHI_Descriptor)
    (h : (descriptors.map slot_kind).Nodup) :
    ((ReflectShaders.merge descriptors e).map slot_kind).Nodup := by
  unfold ReflectShaders.merge
  by_cases hf : (ReflectShaders.update e descriptors).2 = true
  · simp only [hf, Bool.true_eq_false, if_false, update_slot_kind]
    exact h
  · have hnot : slot_kind e ∉ descriptors.map slot_kind := fun hin =>
      hf ((update_flag e descriptors).mpr hin)
    have hf2 : (ReflectShaders.update e descriptors).2 = false := by
      cases hb : (ReflectShaders.update e descriptors).2
      · rfl
      · exact absurd hb hf
    simp only [hf2, if_true, List.map_append, update_slot_kind, List.map_cons, List.map_nil]
    rw [List.nodup_append]
    refine ⟨h, List.nodup_singleton _, ?_⟩
    intro x hx hx2
    rw [List.mem_singleton] at hx2
    exact hnot (hx2 ▸ hx)

/-- Merging a list of reflected descriptors keeps the (slot, kind) pairs distinct. -/
theorem foldl_merge_nodup (reflected descriptors : List RHI_Descriptor)
    (h : (descriptors.map slot_kind).Nodup) :
    ((reflected.foldl ReflectShaders.merge descriptors).map slot_kind).Nodup := by
  induction reflected generalizing descriptors with
  | nil => exact h
  | cons e rest ih => exact ih _ (merge_nodup descriptors e h)

/-- With a vertex shader and no shader left compiling, `ReflectShaders` returns: the
blueprint is the vertex shader's list with the pixel shader's descriptors merged in one by
one, and nothing else of the pipeline changes. -/
theorem ReflectShaders_returns (p : RHI_Pipeline) (shader_vertex : RHI_Shader)
    (hv : p.m_state.shader_vertex = some shader_vertex)
    (hvc : shader_vertex.compiling = false)
    (hpc : is_compiling p.m_state.shader_pixel = false) :
    p.ReflectShaders = some { p with
      m_descriptors := (descriptors_of p.m_state.shader_pixel).foldl ReflectShaders.merge
        shader_vertex.GetDescriptors } := by
  unfold ReflectShaders
  cases hs : p.m_state.shader_pixel with
  | none => simp [hv, hvc, descriptors_of]
  | some shader_pixel =>
    have : shader_pixel.compiling = false := by simpa [is_compiling, hs] using hpc
    simp [hv, hvc, this, descriptors_of]

/-- C13 as stated fails: the vertex shader's list is copied as it is, so a list that names
the constant buffer at slot 0 twice leaves two descriptors with the same (slot, kind) in the
blueprint. -/
theorem ReflectShaders_repeating_counterexample :
    (Sample.pipeline_repeating.ReflectShaders).map (fun q => q.m_descriptors.map slot_kind)
        = some [(0, RHI_Descriptor_ConstantBuffer), (0, RHI_Descriptor_ConstantBuffer)] ∧
      (Sample.pipeline_repeating.ReflectShaders).map
        (fun q => decide (q.m_descriptors.map slot_kind).Nodup) = some false := by
  decide

/-- C13, amended. When no two descriptors of the vertex shader's list share the same
(slot, kind), then for every optional pixel-shader list (no shader being left compiling)
`ReflectShaders` returns and no two descriptors of the blueprint share the same
(slot, kind). -/
theorem ReflectShaders_slot_kind_unique (p : RHI_Pipeline) (shader_vertex : RHI_Shader)
    (hv : p.m_state.shader_vertex = some shader_vertex)
    (hvc : shader_vertex.compiling = false)
    (hpc : is_compiling p.m_state.shader_pixel = false)
    (hunique : (shader_vertex.GetDescriptors.map slot_kind).Nodup) :
    ∃ q, p.ReflectShaders = some q ∧ (q.m_descriptors.map slot_kind).Nodup :=
  ⟨_, ReflectShaders_returns p shader_vertex hv hvc hpc,
    foldl_merge_nodup _ _ hunique⟩

/-- C13, amended, at the pipeline built from the sample vertex and pixel shaders. -/
theorem ReflectShaders_slot_kind_unique_witness :
    ∃ q, Sample.pipeline_shaders.ReflectShaders = some q ∧
      (q.m_descriptors.map slot_kind).Nodup :=
  ReflectShaders_slot_kind_unique Sample.pipeline_shaders Sample.shader_vertex rfl rfl rfl
    (by decide)

/-- The inner loop of `ReflectShaders` does what the merge rule says of an existing entry:
the first entry with matching (kind, slot), if any, has the stage OR-ed in, and the flag
tells whether there is one. -/
theorem update_eq_modify (e : RHI_Descriptor) (descriptors : List RHI_Descriptor) :
    ReflectShaders.update e descriptors =
      (descriptors.modify (fun d => { d with stage := d.stage ||| e.stage })
          (descriptors.findIdx (fun d => decide (d.type = e.type ∧ d.slot = e.slot))),
        descriptors.any (fun d => decide (d.type = e.type ∧ d.slot = e.slot))) := by
  induction descriptors with
  | nil => simp [ReflectShaders.update]
  | cons d rest ih =>
    unfold ReflectShaders.update
    by_cases hm : d.type = e.type ∧ d.slot = e.slot
    · have hb : decide (d.type = e.type ∧ d.slot = e.slot) = true := decide_eq_true hm
      rw [if_pos hm, List.findIdx_cons, List.any_cons, hb]
      rfl
    · have hb : decide (d.type = e.type ∧ d.slot = e.slot) = false := decide_eq_false hm
      rw [if_neg hm, List.findIdx_cons, List.any_cons, hb, ih]
      rfl

/-- The loop body of `ReflectShaders` is the merge rule. -/
theorem merge_eq_merge_rule (descriptors : List RHI_Descriptor) (e : RHI_Descriptor) :
    ReflectShaders.merge descriptors e = merge_rule descriptors e := by
  unfold ReflectShaders.merge merge_rule
  rw [update_eq_modify]
  cases h : descriptors.any (fun d => decide (d.type = e.type ∧ d.slot = e.slot))
  · have hidx : descriptors.findIdx (fun d => decide (d.type = e.type ∧ d.slot = e.slot))
        = descriptors.length := by
      rw [List.findIdx_eq_length]
      intro x hx
      have := List.any_eq_false.mp h x hx
      simpa using this
    rw [hidx, List.modify_eq_self (le_refl _)]
    rfl
  · rfl

/-- Merging a list of descriptors with the loop body or with the merge rule gives the same
blueprint. -/
theorem foldl_merge_eq_merge_rule (reflected descriptors : List RHI_Descriptor) :
    reflected.foldl ReflectShaders.merge descriptors = reflected.foldl merge_rule descriptors := by
  induction reflected generalizing descriptors with
  | nil => rfl
  | cons e rest ih =>
    simp only [List.foldl_cons, merge_eq_merge_rule]
    exact ih _

/-- The inner loop leaves every entry in place, with at most a wider stage mask. -/
theorem update_getElem (e : RHI_Descriptor) (descriptors : List RHI_Descriptor) (i : Nat)
    (b : RHI_Descriptor) (h : descriptors[i]? = some b) :
    ∃ m, (ReflectShaders.update e descriptors).1[i]? = some { b with stage := b.stage ||| m } := by
  induction descriptors generalizing i with
  | nil => simp at h
  | cons d rest ih =>
    unfold ReflectShaders.update
    by_cases hm : d.type = e.type ∧ d.slot = e.slot
    · rw [if_pos hm]
      cases i with
      | zero =>
        simp only [List.getElem?_cons_zero, Option.some.injEq] at h
        subst h
        exact ⟨e.stage, by simp⟩
      | succ j =>
        simp only [List.getElem?_cons_succ] at h
        exact ⟨0, by simp [h]⟩
    · rw [if_neg hm]
      cases i with
      | zero =>
        simp only [List.getElem?_cons_zero, Option.some.injEq] at h
        subst h
        exact ⟨0, by simp⟩
      | succ j =>
        simp only [List.getElem?_cons_succ] at h
        obtain ⟨m, hm2⟩ := ih j h
        exact ⟨m, by simpa using hm2⟩

/-- The inner loop keeps the length of the blueprint. -/
theorem update_length (e : RHI_Descriptor) (descriptors : List RHI_Descriptor) :
    (ReflectShaders.update e descriptors).1.length = descriptors.length := by
  have := congrArg List.length (update_slot_kind e descriptors)
  simpa using this

/-- The loop body leaves every entry in place, with at most a wider stage mask. -/
theorem merge_getElem (descriptors : List RHI_Descriptor) (e : RHI_Descriptor) (i : Nat)
    (b : RHI_Descriptor) (h : descriptors[i]? = some b) :
    ∃ m, (ReflectShaders.merge descriptors e)[i]? = some { b with stage := b.stage ||| m } := by
  obtain ⟨m, hm⟩ := update_getElem e descriptors i b h
  have hi : i < (ReflectShaders.update e descriptors).1.length := by
    rw [update_length]
    by_contra hge
    rw [List.getElem?_eq_none (by omega)] at h
    cases h
  refine ⟨m, ?_⟩
  unfold ReflectShaders.merge
  dsimp only
  split_ifs
  · rw [List.getElem?_append_left hi]
    exact hm
  · exact hm

/-- Merging a list of descriptors leaves every entry of the blueprint in place, with at most
a wider stage mask. -/
theorem foldl_merge_getElem (reflected descriptors : List RHI_Descriptor) (i : Nat)
    (b : RHI_Descriptor) (h : descriptors[i]? = some b) :
    ∃ m, (reflected.foldl ReflectShaders.merge descriptors)[i]?
      = some { b with stage := b.stage ||| m } := by
  induction reflected generalizing descriptors b with
  | nil => exact ⟨0, by simpa using h⟩
  | cons e rest ih =>
    obtain ⟨m1, h1⟩ := merge_getElem descriptors e i b h
    obtain ⟨m2, h2⟩ := ih (ReflectShaders.merge descriptors e) _ h1
    exact ⟨m1 ||| m2, by rw [List.foldl_cons, h2]; simp [Nat.lor_assoc]⟩

/-- C14. For a vertex-shader list `V` and a pixel-shader list `P` (no shader being left
compiling), `ReflectShaders` returns with the blueprint obtained from `V` by applying the
merge rule to the descriptors of `P` in `P`'s order: a descriptor whose (kind, slot) matches
an entry adds nothing and ORs its stage into the first such entry, a descriptor with no
match is appended. The first `|V|` entries are `V`'s descriptors in `V`'s order, each with
its fields untouched except for a stage mask that may have been widened; without a pixel
shader the blueprint is `V` itself. -/
theorem ReflectShaders_merge (p : RHI_Pipeline) (shader_vertex : RHI_Shader)
    (hv : p.m_state.shader_vertex = some shader_vertex)
    (hvc : shader_vertex.compiling = false)
    (hpc : is_compiling p.m_state.shader_pixel = false) :
    ∃ q, p.ReflectShaders = some q ∧
      q.m_descriptors =
        (descriptors_of p.m_state.shader_pixel).foldl merge_rule shader_vertex.GetDescriptors ∧
      shader_vertex.GetDescriptors.length ≤ q.m_descriptors.length ∧
      (∀ (i : Nat) (v : RHI_Descriptor), shader_vertex.GetDescriptors[i]? = some v →
        ∃ m, q.m_descriptors[i]? = some { v with stage := v.stage ||| m }) ∧
      (p.m_state.shader_pixel = none → q.m_descriptors = shader_vertex.GetDescriptors) := by
  refine ⟨_, ReflectShaders_returns p shader_vertex hv hvc hpc,
    foldl_merge_eq_merge_rule _ _, ?_, ?_, ?_⟩
  · dsimp only
    by_contra hlt
    push_neg at hlt
    have hpos : 0 < shader_vertex.GetDescriptors.length := by omega
    obtain ⟨m, hm⟩ := foldl_merge_getElem (descriptors_of p.m_state.shader_pixel)
      shader_vertex.GetDescriptors (shader_vertex.GetDescriptors.length - 1)
      (shader_vertex.GetDescriptors[shader_vertex.GetDescriptors.length - 1])
      (List.getElem?_eq_getElem (by omega))
    rw [List.getElem?_eq_none (by omega)] at hm
    cases hm
  · intro i v hi
    exact foldl_merge_getElem _ _ i v hi
  · intro hnone
    simp [hnone, descriptors_of]

/-- C14 at the pipeline built from the sample shaders: the constant buffer of the vertex
shader stays first with stage mask 1 ||| 2, and the texture and the sampler of the pixel
shader are appended in the pixel shader's order. -/
theorem ReflectShaders_merge_witness :
    ∃ q, Sample.pipeline_shaders.ReflectShaders = some q ∧
      q.m_descriptors =
        (descriptors_of Sample.pipeline_shaders.m_state.shader_pixel).foldl merge_rule
          Sample.shader_vertex.GetDescriptors ∧
      Sample.shader_vertex.GetDescriptors.length ≤ q.m_descriptors.length ∧
      (∀ (i : Nat) (v : RHI_Descriptor), Sample.shader_vertex.GetDescriptors[i]? = some v →
        ∃ m, q.m_descriptors[i]? = some { v with stage := v.stage ||| m }) ∧
      (Sample.pipeline_shaders.m_state.shader_pixel = none →
        q.m_descriptors = Sample.shader_vertex.GetDescriptors) :=
  ReflectShaders_merge Sample.pipeline_shaders Sample.shader_vertex rfl rfl rfl

/-- The blueprint reflected from the sample shaders, entry by entry. -/
theorem ReflectShaders_sample_blueprint :
    (Sample.pipeline_shaders.ReflectShaders).map (fun q => q.m_descriptors) =
      some [{ Sample.descriptor_buffer with stage := 3 }, Sample.descriptor,
        Sample.descriptor_sampler] := by
  decide

/-! ## The blueprint hash and the descriptor-set cache -/

/-- One round of `GetDescriptorBlueprintHash`: the six `hash_combine` calls made for one
descriptor. -/
theorem GetDescriptorBlueprintHash_unfold (H : Utility_Hash) (p : RHI_Pipeline)
    (a : List RHI_Descriptor) :
    GetDescriptorBlueprintHash H p a =
      p.m_descriptors.foldl
        (fun hash descriptor =>
          H.hash_combine (H.hash_combine (H.hash_combine (H.hash_combine (H.hash_combine
            (H.hash_combine hash descriptor.slot) descriptor.stage) descriptor.id)
            descriptor.size) (H.type_code descriptor.type)) descriptor.layout)
        0 := rfl

/-- Two lists of descriptors with the same hashed tuples fold to the same hash from the same
seed. -/
theorem foldl_hash_congr (H : Utility_Hash) (l1 l2 : List RHI_Descriptor) (seed : Nat)
    (h : l1.map hash_tuple = l2.map hash_tuple) :
    l1.foldl
        (fun hash descriptor =>
          H.hash_combine (H.hash_combine (H.hash_combine (H.hash_combine (H.hash_combine
            (H.hash_combine hash descriptor.slot) descriptor.stage) descriptor.id)
            descriptor.size) (H.type_code descriptor.type)) descriptor.layout)
        seed =
      l2.foldl
        (fun hash descriptor =>
          H.hash_combine (H.hash_combine (H.hash_combine (H.hash_combine (H.hash_combine
            (H.hash_combine hash descriptor.slot) descriptor.stage) descriptor.id)
            descriptor.size) (H.type_code descriptor.type)) descriptor.layout)
        seed := by
  induction l1 generalizing l2 seed with
  | nil =>
    cases l2 with
    | nil => rfl
    | cons b rest => simp at h
  | cons a rest ih =>
    cases l2 with
    | nil => simp at h
    | cons b rest2 =>
      simp only [List.map_cons, List.cons.injEq, hash_tuple, Prod.mk.injEq] at h
      obtain ⟨⟨h1, h2, h3, h4, h5, h6⟩, hrest⟩ := h
      simp only [List.foldl_cons, h1, h2, h3, h4, h5, h6]
      exact ih rest2 _ hrest

/-- C15. `GetDescriptorBlueprintHash` is a function of the ordered sequence of
(slot, stage, id, size, kind, layout) tuples of the pipeline's blueprint and of nothing else:
two pipelines whose blueprints have equal tuple sequences hash equally, whatever their
resource handles, user data, other members and the argument passed; in particular hashing
the same pipeline twice yields the same value. -/
theorem GetDescriptorBlueprintHash_deterministic (H : Utility_Hash) (p q : RHI_Pipeline)
    (a b : List RHI_Descriptor)
    (h : p.m_descriptors.map hash_tuple = q.m_descriptors.map hash_tuple) :
    GetDescriptorBlueprintHash H p a = GetDescriptorBlueprintHash H q b ∧
      GetDescriptorBlueprintHash H p a = GetDescriptorBlueprintHash H p b := by
  refine ⟨?_, rfl⟩
  rw [GetDescriptorBlueprintHash_unfold, GetDescriptorBlueprintHash_unfold]
  exact foldl_hash_congr H _ _ 0 h

/-- C15 at the sample pipeline and the pipeline whose descriptor has another native handle
and owner. -/
theorem GetDescriptorBlueprintHash_deterministic_witness :
    GetDescriptorBlueprintHash Sample.hash Sample.pipeline Sample.pipeline.m_descriptors
        = GetDescriptorBlueprintHash Sample.hash Sample.pipeline_rebound
          Sample.pipeline_rebound.m_descriptors ∧
      GetDescriptorBlueprintHash Sample.hash Sample.pipeline Sample.pipeline.m_descriptors
        = GetDescriptorBlueprintHash Sample.hash Sample.pipeline
          Sample.pipeline_rebound.m_descriptors :=
  GetDescriptorBlueprintHash_deterministic Sample.hash Sample.pipeline Sample.pipeline_rebound
    Sample.pipeline.m_descriptors Sample.pipeline_rebound.m_descriptors (by decide)

/-- Assigning a key leaves what is stored under every other key. -/
theorem lookup_map_assign_ne (m : List (Nat × Nat)) (key value k : Nat) (hk : k ≠ key) :
    (map_assign m key value).lookup k = m.lookup k := by
  induction m with
  | nil =>
    have hne : (k == key) = false := by simpa using hk
    simp [map_assign, List.lookup, hne]
  | cons kv rest ih =>
    obtain ⟨k1, v1⟩ := kv
    unfold map_assign
    by_cases h1 : k1 = key
    · subst h1
      have hne : (k == k1) = false := by simpa using hk
      simp [List.lookup, hne]
    · by_cases h2 : k = k1
      · simp [h1, List.lookup, h2]
      · have hne : (k == k1) = false := by simpa using h2
        simp [h1, List.lookup, hne, ih]

/-- The method `GetDescriptorSet` keeps every entry of the descriptor-set cache. -/
theorem GetDescriptorSet_keeps_cache (H : Utility_Hash) (p : RHI_Pipeline)
    (descriptor_set key handle : Nat)
    (h : p.m_descriptor_resources.lookup key = some handle) :
    (p.GetDescriptorSet H descriptor_set).2.m_descriptor_resources.lookup key = some handle := by
  cases hl : p.m_descriptor_resources.lookup (GetDescriptorBlueprintHash H p p.m_descriptors) with
  | none =>
    obtain ⟨-, -, -, -, hres⟩ := GetDescriptorSet_unknown H p descriptor_set hl
    have hk : key ≠ GetDescriptorBlueprintHash H p p.m_descriptors := by
      intro heq
      rw [heq, hl] at h
      cases h
    rw [hres, lookup_map_assign_ne _ _ _ _ hk]
    exact h
  | some cached =>
    obtain ⟨-, -, -, hres⟩ := GetDescriptorSet_known H p descriptor_set cached hl
    rw [hres]
    exact h

/-- The method `ReflectShaders` touches the blueprint only. -/
theorem ReflectShaders_frame (p q : RHI_Pipeline) (h : p.ReflectShaders = some q) :
    q.m_descriptor_resources = p.m_descriptor_resources ∧
      q.m_descriptor_dirty = p.m_descriptor_dirty := by
  unfold ReflectShaders at h
  cases hv : p.m_state.shader_vertex with
  | none =>
    simp only [hv, Option.some.injEq] at h
    subst h
    exact ⟨rfl, rfl⟩
  | some shader_vertex =>
    cases hvc : shader_vertex.compiling
    · cases hs : p.m_state.shader_pixel with
      | none =>
        simp only [hv, hvc, hs, Bool.false_eq_true, if_false, Option.some.injEq] at h
        subst h
        exact ⟨rfl, rfl⟩
      | some shader_pixel =>
        cases hpc : shader_pixel.compiling
        · simp only [hv, hvc, hs, hpc, Bool.false_eq_true, if_false, Option.some.injEq] at h
          subst h
          exact ⟨rfl, rfl⟩
        · simp [hv, hvc, hs, hpc] at h
    · simp [hv, hvc] at h

/-- C17. Every (hash, handle) entry of the descriptor-set cache present before a call to
`SetTexture`, `SetSampler`, `SetConstantBuffer`, `GetDescriptorSet` or `ReflectShaders` is
present, with the same handle, after the call. The three setters and `ReflectShaders` leave
the cache as it is; `GetDescriptorSet` adds at most an entry under a hash that was absent. -/
theorem descriptor_set_cache_only_grows (H : Utility_Hash) (p : RHI_Pipeline) (slot : Nat)
    (texture : RHI_Texture) (sampler : RHI_Sampler) (constant_buffer : RHI_ConstantBuffer)
    (descriptor_set key handle : Nat)
    (h : p.m_descriptor_resources.lookup key = some handle) :
    (p.SetTexture slot texture).m_descriptor_resources.lookup key = some handle ∧
    (p.SetSampler slot sampler).m_descriptor_resources.lookup key = some handle ∧
    (p.SetConstantBuffer slot constant_buffer).m_descriptor_resources.lookup key = some handle ∧
    (p.GetDescriptorSet H descriptor_set).2.m_descriptor_resources.lookup key = some handle ∧
    (∀ q, p.ReflectShaders = some q → q.m_descriptor_resources.lookup key = some handle) := by
  refine ⟨h, h, h, GetDescriptorSet_keeps_cache H p descriptor_set key handle h, fun q hq => ?_⟩
  rw [(ReflectShaders_frame p q hq).1]
  exact h

/-- C17 at the sample pipeline with a cached descriptor set: after a new texture is bound a
second set is created, and the first entry is still there. -/
theorem descriptor_set_cache_only_grows_witness :
    ((Sample.pipeline_cached.SetTexture 0 Sample.texture_a).GetDescriptorSet Sample.hash
        56).2.m_descriptor_resources.lookup
      (GetDescriptorBlueprintHash Sample.hash Sample.pipeline []) = some 55 :=
  (descriptor_set_cache_only_grows Sample.hash
    (Sample.pipeline_cached.SetTexture 0 Sample.texture_a) 0 Sample.texture_a
    Sample.renderer.m_sampler_point_clamp Sample.renderer.m_buffer_frame_gpu 56
    (GetDescriptorBlueprintHash Sample.hash Sample.pipeline []) 55 (by decide)).2.2.2.1

/-- Folding the rounds of the hash over the same descriptors from two different seeds gives
two different hashes, when `hash_combine` is injective in its seed. -/
theorem foldl_hash_seed_injective (H : Utility_Hash)
    (hseed : ∀ v s1 s2, H.hash_combine s1 v = H.hash_combine s2 v → s1 = s2)
    (l : List RHI_Descriptor) (s1 s2 : Nat) (hne : s1 ≠ s2) :
    l.foldl
        (fun hash descriptor =>
          H.hash_combine (H.hash_combine (H.hash_combine (H.hash_combine (H.hash_combine
            (H.hash_combine hash descriptor.slot) descriptor.stage) descriptor.id)
            descriptor.size) (H.type_code descriptor.type)) descriptor.layout)
        s1 ≠
      l.foldl
        (fun hash descriptor =>
          H.hash_combine (H.hash_combine (H.hash_combine (H.hash_combine (H.hash_combine
            (H.hash_combine hash descriptor.slot) descriptor.stage) descriptor.id)
            descriptor.size) (H.type_code descriptor.type)) descriptor.layout)
        s2 := by
  induction l generalizing s1 s2 with
  | nil => exact hne
  | cons d rest ih =>
    simp only [List.foldl_cons]
    apply ih
    intro h
    exact hne (hseed _ _ _ (hseed _ _ _ (hseed _ _ _ (hseed _ _ _ (hseed _ _ _
      (hseed _ _ _ h))))))

/-- If `hash_combine` is injective in its seed for every value and in its value for every
seed, then replacing the id of one descriptor of a blueprint by a different id changes the
blueprint hash. Whether the helper of `Utilities/Hash.h` is injective in this way is not
settled by the embedded files. -/
theorem GetDescriptorBlueprintHash_id_of_injective (H : Utility_Hash)
    (hseed : ∀ v s1 s2, H.hash_combine s1 v = H.hash_combine s2 v → s1 = s2)
    (hvalue : ∀ s v1 v2, H.hash_combine s v1 = H.hash_combine s v2 → v1 = v2)
    (p q : RHI_Pipeline) (a b before after : List RHI_Descriptor) (d : RHI_Descriptor) (id1 : Nat)
    (hp : p.m_descriptors = before ++ d :: after)
    (hq : q.m_descriptors = before ++ { d with id := id1 } :: after)
    (hid : id1 ≠ d.id) :
    GetDescriptorBlueprintHash H p a ≠ GetDescriptorBlueprintHash H q b := by
  rw [GetDescriptorBlueprintHash_unfold, GetDescriptorBlueprintHash_unfold, hp, hq]
  simp only [List.foldl_append, List.foldl_cons]
  apply foldl_hash_seed_injective H hseed
  intro h
  have h3 := hseed _ _ _ (hseed _ _ _ (hseed _ _ _ h))
  exact hid (hvalue _ _ _ h3).symm

end RHI_Pipeline

/-! ## Draw calls, bounds and failure paths of the command list -/

namespace RHI_CommandList

open RHI_Cmd_List_State

/-- A `Begin` entered in state `Idle` that leaves the command list in state `Recording`
leaves it with the resolved pipeline in place: `Recording` is not entered otherwise. -/
theorem Begin_record_Recording_has_pipeline (D : RHI_Definition) (cl : RHI_CommandList)
    (pipeline_state : RHI_PipelineState) (inp : BeginInput) (r : Bool × RHI_CommandList)
    (hstate : cl.m_cmd_state = RHI_Cmd_List_Idle)
    (hr : Begin.record D cl pipeline_state inp = some r)
    (hrec : r.2.m_cmd_state = RHI_Cmd_List_Recording) :
    r.2.m_pipeline.isSome = true := by
  unfold Begin.record at hr
  simp only [hstate, ne_eq, not_true_eq_false, if_false] at hr
  cases hbegin : inp.vkBeginCommandBuffer with
  | false =>
    simp only [hbegin, if_true, Option.some.injEq] at hr
    subst hr
    simp [hstate] at hrec
  | true =>
    simp only [hbegin, Bool.true_eq_false, if_false] at hr
    cases hpipeline : inp.GetPipeline pipeline_state with
    | none =>
      simp only [hpipeline, Option.some.injEq] at hr
      subst hr
      rw [End_state] at hrec
      simp at hrec
    | some p =>
      simp only [hpipeline] at hr
      cases himage : inp.AcquireNextImage with
      | false =>
        simp only [himage, if_true, Option.some.injEq] at hr
        subst hr
        rw [End_state] at hrec
        simp at hrec
      | true =>
        simp only [himage, Bool.true_eq_false, if_false] at hr
        by_cases hvalid : p.m_pipeline ≠ 0
        · rw [if_pos hvalid] at hr
          obtain ⟨cl1, h1, hframe⟩ := SetGlobalSamplersAndConstantBuffers_frame
            { cl with
              m_cmd_state := RHI_Cmd_List_Recording
              m_pipeline := some p
              calls := cl.calls ++ [Call.vkBeginCommandBuffer] ++ [Call.GetPipeline]
                ++ [Call.AcquireNextImage]
                ++ [Call.vkCmdBeginRenderPass p.m_state.GetRenderPass p.m_state.GetFrameBuffer
                    p.m_state.GetWidth p.m_state.GetHeight (D.state_max_render_target_count + 1)
                    (Begin.clear_values D p.m_state)]
                ++ [Call.vkCmdBindPipeline p.m_pipeline] } rfl
          rw [h1] at hr
          simp only [Option.map_some', Option.some.injEq] at hr
          subst hr
          exact pipeline_only_isSome hframe
        · rw [if_neg hvalid] at hr
          simp only [Option.some.injEq] at hr
          subst hr
          rfl

/-- The calls made before a draw are at most one, and only a descriptor-set bind. -/
theorem bind_descriptor_set_shape (p : RHI_Pipeline) (descriptor : Nat) :
    (bind_descriptor_set p descriptor).length ≤ 1 ∧
    ∀ b ∈ bind_descriptor_set p descriptor,
      ∃ layout set, b = Call.vkCmdBindDescriptorSets layout 0 1 set 0 := by
  unfold bind_descriptor_set
  split
  · refine ⟨by simp, ?_⟩
    intro b hb
    simp only [List.mem_singleton] at hb
    exact ⟨_, _, hb⟩
  · refine ⟨by simp, ?_⟩
    intro b hb
    simp at hb

/-- C21 as stated fails: the `uint32_t` argument `vertex_offset` is handed to the `int32_t`
parameter of `vkCmdDrawIndexed`, so on the recording sample command list
`DrawIndexed(6, 0, 4294967295)` emits an indexed draw with vertex offset -1. -/
theorem DrawIndexed_vertex_offset_counterexample :
    Sample.recording.m_cmd_state = RHI_Cmd_List_Recording ∧
    (Sample.recording.DrawIndexed Sample.hash 6 0 4294967295 55).map (fun cl1 => cl1.calls) =
      some (Sample.recording.calls ++
        [Call.vkCmdBindDescriptorSets 901 0 1 55 0, Call.vkCmdDrawIndexed 6 1 0 (-1) 0]) := by
  decide

/-- C21, amended. On a command list in state `Recording` (which holds the pipeline `Begin`
resolved), `Draw(n)` appends to the log at most one descriptor-set bind followed by exactly
one `vkCmdDraw` with vertex count `n`, instance count 1, first vertex 0 and first instance
0; `DrawIndexed(c, io, vo)` appends at most one descriptor-set bind followed by exactly one
`vkCmdDrawIndexed` with index count `c`, instance count 1, first index `io`, first instance
0 and, as vertex offset, `vo` converted to `int32_t`: `vo` itself below 2147483648, and
`vo - 4294967296` from there up. -/
theorem Draw_and_DrawIndexed_emit_one_draw (H : Utility_Hash) (cl : RHI_CommandList)
    (p : RHI_Pipeline) (n c io vo descriptor_set : Nat)
    (hstate : cl.m_cmd_state = RHI_Cmd_List_Recording) (hp : cl.m_pipeline = some p)
    (hvo : vo < UINT32) :
    (∃ binds : List Call, binds.length ≤ 1 ∧
      (∀ b ∈ binds, ∃ layout set, b = Call.vkCmdBindDescriptorSets layout 0 1 set 0) ∧
      (cl.Draw H n descriptor_set).map (fun cl1 => cl1.calls) =
        some (cl.calls ++ binds ++ [Call.vkCmdDraw n 1 0 0])) ∧
    (∃ binds : List Call, binds.length ≤ 1 ∧
      (∀ b ∈ binds, ∃ layout set, b = Call.vkCmdBindDescriptorSets layout 0 1 set 0) ∧
      (cl.DrawIndexed H c io vo descriptor_set).map (fun cl1 => cl1.calls) =
        some (cl.calls ++ binds ++
          [Call.vkCmdDrawIndexed c 1 io
            (if vo < 2147483648 then (vo : Int) else (vo : Int) - 4294967296) 0])) := by
  have hconv : int32_of_uint32 vo
      = (if vo < 2147483648 then (vo : Int) else (vo : Int) - 4294967296) := by
    unfold int32_of_uint32
    rw [Nat.mod_eq_of_lt hvo]
    rfl
  refine ⟨⟨bind_descriptor_set (p.GetDescriptorSet H descriptor_set).2
      (p.GetDescriptorSet H descriptor_set).1, (bind_descriptor_set_shape _ _).1,
      (bind_descriptor_set_shape _ _).2, ?_⟩,
    ⟨bind_descriptor_set (p.GetDescriptorSet H descriptor_set).2
      (p.GetDescriptorSet H descriptor_set).1, (bind_descriptor_set_shape _ _).1,
      (bind_descriptor_set_shape _ _).2, ?_⟩⟩
  · simp [Draw, hstate, hp]
  · simp [DrawIndexed, hstate, hp, hconv]

/-- C21, amended, at the recording sample command list, with a vertex offset that arrives
unchanged. -/
theorem Draw_and_DrawIndexed_emit_one_draw_witness :
    Sample.recording.m_cmd_state = RHI_Cmd_List_Recording ∧
    Sample.recording.m_pipeline = some Sample.pipeline ∧
    ((∃ binds : List Call, binds.length ≤ 1 ∧
      (∀ b ∈ binds, ∃ layout set, b = Call.vkCmdBindDescriptorSets layout 0 1 set 0) ∧
      (Sample.recording.Draw Sample.hash 3 55).map (fun cl1 => cl1.calls) =
        some (Sample.recording.calls ++ binds ++ [Call.vkCmdDraw 3 1 0 0])) ∧
    (∃ binds : List Call, binds.length ≤ 1 ∧
      (∀ b ∈ binds, ∃ layout set, b = Call.vkCmdBindDescriptorSets layout 0 1 set 0) ∧
      (Sample.recording.DrawIndexed Sample.hash 6 2 1 55).map (fun cl1 => cl1.calls) =
        some (Sample.recording.calls ++ binds ++ [Call.vkCmdDrawIndexed 6 1 2 1 0]))) :=
  ⟨rfl, rfl, Draw_and_DrawIndexed_emit_one_draw Sample.hash Sample.recording Sample.pipeline
    3 6 2 1 55 rfl rfl (by decide)⟩

/-- C24 fails on the code. A freshly constructed command list has 100 marker flags and
marker index 0; the subscript `End` reads, `m_pass_index - 1` in `uint32_t` arithmetic, is
then 4294967295, outside the vector; `End` does read it, since with the word found there
set the call pops a marker and leaves the index at 4294967295. The same subscript is read
by the `End()` that `Begin(pipeline_state)` calls when the cache yields no pipeline. -/
theorem End_subscript_out_of_range_on_fresh_list :
    Sample.fresh.m_pass_index = 0 ∧
    Sample.fresh.m_passes_active.length = 100 ∧
    End.subscript Sample.fresh = 4294967295 ∧
    ¬ (End.subscript Sample.fresh < Sample.fresh.m_passes_active.length) ∧
    (Sample.fresh.End { Sample.end_ok with stray := true }).2.m_pass_index = 4294967295 ∧
    (Sample.fresh.End { Sample.end_ok with stray := false }).2.m_pass_index = 0 ∧
    (Sample.fresh.Begin Sample.definition Sample.pipeline_state
        { Sample.begin_no_pipeline with end_input := { Sample.end_ok with stray := true } }).map
      (fun r => (r.1, r.2.m_pass_index)) = some (false, 4294967295) := by
  decide

/-- C25 fails on the code. On a freshly constructed command list, a `Begin` for which the
pipeline cache yields no pipeline returns false and leaves the state `Ended` with a null
pipeline pointer, whatever word `End` finds under its subscript; the `Submit` that follows
is in state `Ended` and reads the pipeline state through that null pointer, so it has no
result. -/
theorem Submit_after_failed_Begin_reads_null_pipeline (stray : Bool) :
    (Sample.fresh.Begin Sample.definition Sample.pipeline_state
        { Sample.begin_no_pipeline with end_input := { Sample.end_ok with stray := stray } }).map
      (fun r => (r.1, r.2.m_cmd_state, r.2.m_pipeline.isSome, (r.2.Submit true).isSome)) =
      some (false, RHI_Cmd_List_Ended, false, false) := by
  cases stray <;> decide

/-- C26 fails on the code. On an `Idle` command list inside one marker scope, a `Begin`
whose resolved pipeline has a null native handle returns false after the render pass was
begun, and leaves the command list in state `Recording`; no `vkCmdEndRenderPass` is
logged. -/
theorem Begin_invalid_pipeline_leaves_Recording :
    Sample.marked.m_cmd_state = RHI_Cmd_List_Idle ∧
    Sample.pipeline_invalid.m_pipeline = 0 ∧
    (Sample.marked.Begin Sample.definition Sample.pipeline_state Sample.begin_invalid).map
      (fun r => (r.1, r.2.m_cmd_state, decide (Call.vkCmdEndRenderPass ∈ r.2.calls),
        decide (Call.vkCmdBeginRenderPass 31 32 1920 1080 9
          (Begin.clear_values Sample.definition Sample.pipeline_state) ∈ r.2.calls))) =
      some (false, RHI_Cmd_List_Recording, false, true) := by
  decide

/-- The number of clear values `Begin` writes is the number of colour targets, among the
first `state_max_render_target_count`, whose clear colour is not the sentinel, plus one when
the depth clear value is not its sentinel; it is at most `state_max_render_target_count + 1`. -/
theorem Begin_clear_values_length (D : RHI_Definition) (state : RHI_PipelineState) :
    (Begin.clear_values D state).length =
      ((state.render_target_color_clear.take D.state_max_render_target_count).filter
        (fun color => color ≠ D.state_dont_clear_color)).length
      + (if state.render_target_depth_clear ≠ D.state_dont_clear_depth then 1 else 0) ∧
    (Begin.clear_values D state).length ≤ D.state_max_render_target_count + 1 := by
  have h1 : (Begin.clear_values D state).length =
      ((state.render_target_color_clear.take D.state_max_render_target_count).filter
        (fun color => color ≠ D.state_dont_clear_color)).length
      + (if state.render_target_depth_clear ≠ D.state_dont_clear_depth then 1 else 0) := by
    unfold Begin.clear_values
    split <;> simp
  refine ⟨h1, ?_⟩
  rw [h1]
  have h2 := List.length_filter_le (fun color => decide (color ≠ D.state_dont_clear_color))
    (state.render_target_color_clear.take D.state_max_render_target_count)
  have h3 : (state.render_target_color_clear.take D.state_max_render_target_count).length
      ≤ D.state_max_render_target_count := by
    rw [List.length_take]
    exact Nat.min_le_left _ _
  split <;> omega

/-- C29 as stated fails: with the sample pipeline state (one colour target to clear, the
others and depth at their sentinels), a successful `Begin` writes one clear value and hands
`vkCmdBeginRenderPass` the count 9, the size of the array
(`state_max_render_target_count + 1` with the maximum 8). -/
theorem Begin_clear_value_count_is_array_size :
    Sample.definition.state_max_render_target_count = 8 ∧
    (Begin.clear_values Sample.definition Sample.pipeline_state).length = 1 ∧
    (Sample.marked.Begin Sample.definition Sample.pipeline_state Sample.begin_ok).map
      (fun r => (r.1, decide (Call.vkCmdBeginRenderPass 31 32 1920 1080 9
        (Begin.clear_values Sample.definition Sample.pipeline_state) ∈ r.2.calls))) =
      some (true, true) := by
  decide

/-- C29, amended. A `Begin` entered in state `Idle` that gets as far as the render pass
(the command buffer begins, a pipeline is resolved, the image is acquired) hands
`vkCmdBeginRenderPass` the clear values it wrote together with the count
`state_max_render_target_count + 1`, the size of the array, whatever number was written;
the number written is the number of colour targets, among the first
`state_max_render_target_count`, whose clear colour is not the sentinel, plus one when the
depth clear value is not its sentinel, and never exceeds the count handed over. -/
theorem Begin_hands_over_array_size (D : RHI_Definition) (cl : RHI_CommandList)
    (pipeline_state : RHI_PipelineState) (inp : BeginInput) (p : RHI_Pipeline)
    (hstate : cl.m_cmd_state = RHI_Cmd_List_Idle)
    (hbegin : inp.vkBeginCommandBuffer = true)
    (hpipeline : inp.GetPipeline pipeline_state = some p)
    (himage : inp.AcquireNextImage = true) :
    (∃ r, cl.Begin D pipeline_state inp = some r ∧
      r.2.calls = cl.calls ++ [Call.vkBeginCommandBuffer, Call.GetPipeline,
          Call.AcquireNextImage,
          Call.vkCmdBeginRenderPass p.m_state.GetRenderPass p.m_state.GetFrameBuffer
            p.m_state.GetWidth p.m_state.GetHeight (D.state_max_render_target_count + 1)
            (Begin.clear_values D p.m_state)]
        ++ (if p.m_pipeline ≠ 0 then [Call.vkCmdBindPipeline p.m_pipeline] else [])) ∧
    (Begin.clear_values D p.m_state).length =
      ((p.m_state.render_target_color_clear.take D.state_max_render_target_count).filter
        (fun color => color ≠ D.state_dont_clear_color)).length
      + (if p.m_state.render_target_depth_clear ≠ D.state_dont_clear_depth then 1 else 0) ∧
    (Begin.clear_values D p.m_state).length ≤ D.state_max_render_target_count + 1 := by
  refine ⟨?_, (Begin_clear_values_length D p.m_state).1, (Begin_clear_values_length D p.m_state).2⟩
  unfold Begin
  rw [Begin_sync_skip cl inp (by rw [hstate]; decide)]
  unfold Begin.record
  simp only [hstate, hbegin, hpipeline, himage, ne_eq, not_true_eq_false, if_false,
    Bool.true_eq_false, Option.some_bind]
  by_cases hvalid : p.m_pipeline = 0
  · simp [hvalid]
  · obtain ⟨cl1, h1, p1, rfl⟩ := SetGlobalSamplersAndConstantBuffers_frame
      { cl with
        m_cmd_state := RHI_Cmd_List_Recording
        m_pipeline := some p
        calls := cl.calls ++ [Call.vkBeginCommandBuffer] ++ [Call.GetPipeline]
          ++ [Call.AcquireNextImage]
          ++ [Call.vkCmdBeginRenderPass p.m_state.GetRenderPass p.m_state.GetFrameBuffer
              p.m_state.GetWidth p.m_state.GetHeight (D.state_max_render_target_count + 1)
              (Begin.clear_values D p.m_state)]
          ++ [Call.vkCmdBindPipeline p.m_pipeline] } rfl
    simp only [hvalid, not_false_eq_true, if_true]
    rw [h1]
    simp

/-- C29, amended, at an `Idle` command list inside one marker scope with the sample
pipeline state: the count handed over is 9 for one value written. -/
theorem Begin_hands_over_array_size_witness :
    (∃ r, Sample.marked.Begin Sample.definition Sample.pipeline_state Sample.begin_ok = some r ∧
      r.2.calls = Sample.marked.calls ++ [Call.vkBeginCommandBuffer, Call.GetPipeline,
          Call.AcquireNextImage,
          Call.vkCmdBeginRenderPass Sample.pipeline.m_state.GetRenderPass
            Sample.pipeline.m_state.GetFrameBuffer Sample.pipeline.m_state.GetWidth
            Sample.pipeline.m_state.GetHeight (Sample.definition.state_max_render_target_count + 1)
            (Begin.clear_values Sample.definition Sample.pipeline.m_state)]
        ++ (if Sample.pipeline.m_pipeline ≠ 0
            then [Call.vkCmdBindPipeline Sample.pipeline.m_pipeline] else [])) ∧
    (Begin.clear_values Sample.definition Sample.pipeline.m_state).length = 1 ∧
    Sample.definition.state_max_render_target_count + 1 = 9 :=
  ⟨(Begin_hands_over_array_size Sample.definition Sample.marked Sample.pipeline_state
      Sample.begin_ok Sample.pipeline rfl rfl rfl rfl).1, by decide, by decide⟩

end RHI_CommandList

/-! ## Frame of the binding setters -/

namespace RHI_Pipeline

open RHI_Descriptor_Type

/-- The loop of `SetConstantBuffer` keeps the slot and kind of every descriptor, in order. -/
theorem SetConstantBuffer_loop_slot_kind (slot : Nat) (constant_buffer : RHI_ConstantBuffer) :
    ∀ (ds : List RHI_Descriptor) (dirty : Bool),
      (SetConstantBuffer.loop slot constant_buffer ds dirty).1.map slot_kind = ds.map slot_kind := by
  intro ds
  induction ds with
  | nil => intro dirty; rfl
  | cons d rest ih =>
    intro dirty
    simp only [SetConstantBuffer.loop]
    by_cases hm : d.type = RHI_Descriptor_ConstantBuffer ∧ d.slot = slot
    · rw [if_pos hm]
      simp only [List.map_cons, slot_kind]
    · rw [if_neg hm]
      simp only [List.map_cons, ih dirty]

/-- The loop of `SetConstantBuffer` leaves every descriptor but the first match as it was. -/
theorem SetConstantBuffer_loop_getElem (slot : Nat) (constant_buffer : RHI_ConstantBuffer) :
    ∀ (ds : List RHI_Descriptor) (dirty : Bool) (j : Nat),
      j ≠ ds.findIdx (fun d => decide (d.type = RHI_Descriptor_ConstantBuffer ∧ d.slot = slot)) →
      (SetConstantBuffer.loop slot constant_buffer ds dirty).1[j]? = ds[j]? := by
  intro ds
  induction ds with
  | nil => intro dirty j _; rfl
  | cons d rest ih =>
    intro dirty j hj
    simp only [SetConstantBuffer.loop]
    by_cases hm : d.type = RHI_Descriptor_ConstantBuffer ∧ d.slot = slot
    · rw [if_pos hm]
      rw [List.findIdx_cons, show decide (d.type = RHI_Descriptor_ConstantBuffer ∧ d.slot = slot) = true
        from decide_eq_true hm] at hj
      cases j with
      | zero => exact absurd rfl hj
      | succ k => simp only [List.getElem?_cons_succ]
    · rw [if_neg hm]
      rw [List.findIdx_cons, show decide (d.type = RHI_Descriptor_ConstantBuffer ∧ d.slot = slot) = false
        from decide_eq_false hm] at hj
      cases j with
      | zero => simp
      | succ k =>
        simp only [List.getElem?_cons_succ]
        exact ih dirty k (fun h => hj (by simp [h]))

/-- Without a match the loop of `SetConstantBuffer` changes neither the blueprint nor the flag. -/
theorem SetConstantBuffer_loop_none (slot : Nat) (constant_buffer : RHI_ConstantBuffer) :
    ∀ (ds : List RHI_Descriptor) (dirty : Bool),
      first_of_kind RHI_Descriptor_ConstantBuffer slot ds = none →
      SetConstantBuffer.loop slot constant_buffer ds dirty = (ds, dirty) := by
  intro ds
  induction ds with
  | nil => intro dirty _; rfl
  | cons d rest ih =>
    intro dirty hnone
    unfold first_of_kind at hnone
    rw [List.find?_cons] at hnone
    by_cases hm : d.type = RHI_Descriptor_ConstantBuffer ∧ d.slot = slot
    · rw [show decide (d.type = RHI_Descriptor_ConstantBuffer ∧ d.slot = slot) = true from decide_eq_true hm] at hnone
      exact absurd hnone (by simp)
    · rw [show decide (d.type = RHI_Descriptor_ConstantBuffer ∧ d.slot = slot) = false
        from decide_eq_false hm] at hnone
      simp only [SetConstantBuffer.loop]
      rw [if_neg hm, ih dirty hnone]

/-- The loop of `SetSampler` keeps the slot and kind of every descriptor, in order. -/
theorem SetSampler_loop_slot_kind (slot : Nat) (sampler : RHI_Sampler) :
    ∀ (ds : List RHI_Descriptor) (dirty : Bool),
      (SetSampler.loop slot sampler ds dirty).1.map slot_kind = ds.map slot_kind := by
  intro ds
  induction ds with
  | nil => intro dirty; rfl
  | cons d rest ih =>
    intro dirty
    simp only [SetSampler.loop]
    by_cases hm : d.type = RHI_Descriptor_Sampler ∧ d.slot = slot
    · rw [if_pos hm]
      simp only [List.map_cons, slot_kind]
    · rw [if_neg hm]
      simp only [List.map_cons, ih dirty]

/-- The loop of `SetSampler` leaves every descriptor but the first match as it was. -/
theorem SetSampler_loop_getElem (slot : Nat) (sampler : RHI_Sampler) :
    ∀ (ds : List RHI_Descriptor) (dirty : Bool) (j : Nat),
      j ≠ ds.findIdx (fun d => decide (d.type = RHI_Descriptor_Sampler ∧ d.slot = slot)) →
      (SetSampler.loop slot sampler ds dirty).1[j]? = ds[j]? := by
  intro ds
  induction ds with
  | nil => intro dirty j _; rfl
  | cons d rest ih =>
    intro dirty j hj
    simp only [SetSampler.loop]
    by_cases hm : d.type = RHI_Descriptor_Sampler ∧ d.slot = slot
    · rw [if_pos hm]
      rw [List.findIdx_cons, show decide (d.type = RHI_Descriptor_Sampler ∧ d.slot = slot) = true
        from decide_eq_true hm] at hj
      cases j with
      | zero => exact absurd rfl hj
      | succ k => simp only [List.getElem?_cons_succ]
    · rw [if_neg hm]
      rw [List.findIdx_cons, show decide (d.type = RHI_Descriptor_Sampler ∧ d.slot = slot) = false
        from decide_eq_false hm] at hj
      cases j with
      | zero => simp
      | succ k =>
        simp only [List.getElem?_cons_succ]
        exact ih dirty k (fun h => hj (by simp [h]))

/-- Without a match the loop of `SetSampler` changes neither the blueprint nor the flag. -/
theorem SetSampler_loop_none (slot : Nat) (sampler : RHI_Sampler) :
    ∀ (ds : List RHI_Descriptor) (dirty : Bool),
      first_of_kind RHI_Descriptor_Sampler slot ds = none →
      SetSampler.loop slot sampler ds dirty = (ds, dirty) := by
  intro ds
  induction ds with
  | nil => intro dirty _; rfl
  | cons d rest ih =>
    intro dirty hnone
    unfold first_of_kind at hnone
    rw [List.find?_cons] at hnone
    by_cases hm : d.type = RHI_Descriptor_Sampler ∧ d.slot = slot
    · rw [show decide (d.type = RHI_Descriptor_Sampler ∧ d.slot = slot) = true from decide_eq_true hm] at hnone
      exact absurd hnone (by simp)
    · rw [show decide (d.type = RHI_Descriptor_Sampler ∧ d.slot = slot) = false
        from decide_eq_false hm] at hnone
      simp only [SetSampler.loop]
      rw [if_neg hm, ih dirty hnone]

/-- The loop of `SetTexture` keeps the slot and kind of every descriptor, in order. -/
theorem SetTexture_loop_slot_kind (slot : Nat) (texture : RHI_Texture) :
    ∀ (ds : List RHI_Descriptor) (dirty : Bool),
      (SetTexture.loop slot texture ds dirty).1.map slot_kind = ds.map slot_kind := by
  intro ds
  induction ds with
  | nil => intro dirty; rfl
  | cons d rest ih =>
    intro dirty
    simp only [SetTexture.loop]
    by_cases hm : d.type = RHI_Descriptor_Texture ∧ d.slot = slot
    · rw [if_pos hm]
      by_cases hs : (!texture.IsSampled) = true
      · rw [if_pos hs]
      · rw [if_neg hs]
        simp only [List.map_cons, slot_kind]
    · rw [if_neg hm]
      simp only [List.map_cons, ih dirty]

/-- The loop of `SetTexture` leaves every descriptor but the first match as it was. -/
theorem SetTexture_loop_getElem (slot : Nat) (texture : RHI_Texture) :
    ∀ (ds : List RHI_Descriptor) (dirty : Bool) (j : Nat),
      j ≠ ds.findIdx (fun d => decide (d.type = RHI_Descriptor_Texture ∧ d.slot = slot)) →
      (SetTexture.loop slot texture ds dirty).1[j]? = ds[j]? := by
  intro ds
  induction ds with
  | nil => intro dirty j _; rfl
  | cons d rest ih =>
    intro dirty j hj
    simp only [SetTexture.loop]
    by_cases hm : d.type = RHI_Descriptor_Texture ∧ d.slot = slot
    · rw [if_pos hm]
      by_cases hs : (!texture.IsSampled) = true
      · rw [if_pos hs]
      · rw [if_neg hs]
        rw [List.findIdx_cons, show decide (d.type = RHI_Descriptor_Texture ∧ d.slot = slot) = true
          from decide_eq_true hm] at hj
        cases j with
        | zero => exact absurd rfl hj
        | succ k => simp only [List.getElem?_cons_succ]
    · rw [if_neg hm]
      rw [List.findIdx_cons, show decide (d.type = RHI_Descriptor_Texture ∧ d.slot = slot) = false
        from decide_eq_false hm] at hj
      cases j with
      | zero => simp
      | succ k =>
        simp only [List.getElem?_cons_succ]
        exact ih dirty k (fun h => hj (by simp [h]))

/-- Without a match the loop of `SetTexture` changes neither the blueprint nor the flag. -/
theorem SetTexture_loop_none (slot : Nat) (texture : RHI_Texture) :
    ∀ (ds : List RHI_Descriptor) (dirty : Bool),
      first_of_kind RHI_Descriptor_Texture slot ds = none →
      SetTexture.loop slot texture ds dirty = (ds, dirty) := by
  intro ds
  induction ds with
  | nil => intro dirty _; rfl
  | cons d rest ih =>
    intro dirty hnone
    unfold first_of_kind at hnone
    rw [List.find?_cons] at hnone
    by_cases hm : d.type = RHI_Descriptor_Texture ∧ d.slot = slot
    · rw [show decide (d.type = RHI_Descriptor_Texture ∧ d.slot = slot) = true from decide_eq_true hm] at hnone
      exact absurd hnone (by simp)
    · rw [show decide (d.type = RHI_Descriptor_Texture ∧ d.slot = slot) = false
        from decide_eq_false hm] at hnone
      simp only [SetTexture.loop]
      rw [if_neg hm, ih dirty hnone]

/-- C28. For every pipeline, slot and resource, each of `SetTexture`, `SetSampler` and
`SetConstantBuffer` leaves the length of the blueprint and the slot and kind at every
position as they were, leaves every descriptor unchanged except possibly the one at the
first position whose kind matches and whose slot is the given slot plus the shift of the
kind, and, when no descriptor matches, returns the pipeline unchanged (blueprint and dirty
flag included). -/
theorem setters_modify_first_match_only (p : RHI_Pipeline) (slot : Nat) (texture : RHI_Texture)
    (sampler : RHI_Sampler) (constant_buffer : RHI_ConstantBuffer) :
    ((p.SetTexture slot texture).m_descriptors.length = p.m_descriptors.length ∧
      (p.SetTexture slot texture).m_descriptors.map slot_kind = p.m_descriptors.map slot_kind ∧
      (∀ j : Nat,
        j ≠ p.m_descriptors.findIdx (fun d => decide (d.type = RHI_Descriptor_Texture ∧
          d.slot = (slot + p.m_rhi_device.GetContextRhi.shader_shift_texture) % UINT32)) →
        (p.SetTexture slot texture).m_descriptors[j]? = p.m_descriptors[j]?) ∧
      (first_of_kind RHI_Descriptor_Texture
          ((slot + p.m_rhi_device.GetContextRhi.shader_shift_texture) % UINT32) p.m_descriptors = none →
        p.SetTexture slot texture = p)) ∧
    ((p.SetSampler slot sampler).m_descriptors.length = p.m_descriptors.length ∧
      (p.SetSampler slot sampler).m_descriptors.map slot_kind = p.m_descriptors.map slot_kind ∧
      (∀ j : Nat,
        j ≠ p.m_descriptors.findIdx (fun d => decide (d.type = RHI_Descriptor_Sampler ∧
          d.slot = (slot + p.m_rhi_device.GetContextRhi.shader_shift_sampler) % UINT32)) →
        (p.SetSampler slot sampler).m_descriptors[j]? = p.m_descriptors[j]?) ∧
      (first_of_kind RHI_Descriptor_Sampler
          ((slot + p.m_rhi_device.GetContextRhi.shader_shift_sampler) % UINT32) p.m_descriptors = none →
        p.SetSampler slot sampler = p)) ∧
    ((p.SetConstantBuffer slot constant_buffer).m_descriptors.length = p.m_descriptors.length ∧
      (p.SetConstantBuffer slot constant_buffer).m_descriptors.map slot_kind = p.m_descriptors.map slot_kind ∧
      (∀ j : Nat,
        j ≠ p.m_descriptors.findIdx (fun d => decide (d.type = RHI_Descriptor_ConstantBuffer ∧
          d.slot = (slot + p.m_rhi_device.GetContextRhi.shader_shift_buffer) % UINT32)) →
        (p.SetConstantBuffer slot constant_buffer).m_descriptors[j]? = p.m_descriptors[j]?) ∧
      (first_of_kind RHI_Descriptor_ConstantBuffer
          ((slot + p.m_rhi_device.GetContextRhi.shader_shift_buffer) % UINT32) p.m_descriptors = none →
        p.SetConstantBuffer slot constant_buffer = p)) := by
  refine ⟨?_, ?_, ?_⟩
  · refine ⟨?_, SetTexture_loop_slot_kind _ _ _ _, SetTexture_loop_getElem _ _ _ _, ?_⟩
    · have h := congrArg List.length (SetTexture_loop_slot_kind
        ((slot + p.m_rhi_device.GetContextRhi.shader_shift_texture) % UINT32) texture
        p.m_descriptors p.m_descriptor_dirty)
      simpa only [List.length_map] using h
    · intro hnone
      unfold SetTexture
      simp only [SetTexture_loop_none _ _ _ _ hnone]
  · refine ⟨?_, SetSampler_loop_slot_kind _ _ _ _, SetSampler_loop_getElem _ _ _ _, ?_⟩
    · have h := congrArg List.length (SetSampler_loop_slot_kind
        ((slot + p.m_rhi_device.GetContextRhi.shader_shift_sampler) % UINT32) sampler
        p.m_descriptors p.m_descriptor_dirty)
      simpa only [List.length_map] using h
    · intro hnone
      unfold SetSampler
      simp only [SetSampler_loop_none _ _ _ _ hnone]
  · refine ⟨?_, SetConstantBuffer_loop_slot_kind _ _ _ _, SetConstantBuffer_loop_getElem _ _ _ _, ?_⟩
    · have h := congrArg List.length (SetConstantBuffer_loop_slot_kind
        ((slot + p.m_rhi_device.GetContextRhi.shader_shift_buffer) % UINT32) constant_buffer
        p.m_descriptors p.m_descriptor_dirty)
      simpa only [List.length_map] using h
    · intro hnone
      unfold SetConstantBuffer
      simp only [SetConstantBuffer_loop_none _ _ _ _ hnone]

/-- C27 fails on the code, with descriptor-set creation as modelled and for every hash
that tells the sample blueprint with layout 1 from the one with layout 0. From the sample
pipeline (texture descriptor with identity 0 and layout 0, clear flag, empty cache):
`GetDescriptorSet` creates set 55 for the blueprint; `SetTexture` with the same identity
and layout 1 changes the blueprint but not the flag; `GetDescriptorSet` creates set 56;
`SetTexture` with the same identity and layout 0 restores the first blueprint, again
without the flag; the last `GetDescriptorSet` returns null although the set returned last,
56, is not the one cached for the current blueprint, 55. -/
theorem GetDescriptorSet_null_with_stale_set (H : Utility_Hash)
    (hne : GetDescriptorBlueprintHash H (Sample.pipeline.SetTexture 0 Sample.texture_layout_1) [] ≠
      GetDescriptorBlueprintHash H Sample.pipeline []) :
    (bind_run H Sample.pipeline (Sample.layout_round_trip.take 3)).1.m_descriptors.map
      (fun d => (d.id, d.layout)) = [(0, 1)] ∧
    (bind_run H Sample.pipeline Sample.layout_round_trip).1.m_descriptors.map
      (fun d => (d.id, d.layout)) = [(0, 0)] ∧
    (bind_run H Sample.pipeline Sample.layout_round_trip).2 = [55, 56, 0] ∧
    last_bound (bind_run H Sample.pipeline Sample.layout_round_trip).2 = some 56 ∧
    cached_for_blueprint H (bind_run H Sample.pipeline Sample.layout_round_trip).1 = some 55 := by
  have e0 : GetDescriptorBlueprintHash H Sample.pipeline [] =
      H.hash_combine (H.hash_combine (H.hash_combine (H.hash_combine (H.hash_combine
        (H.hash_combine 0 200) 2) 0) 0) (H.type_code RHI_Descriptor_Texture)) 0 := rfl
  have e1 :
      GetDescriptorBlueprintHash H (Sample.pipeline.SetTexture 0 Sample.texture_layout_1) [] =
      H.hash_combine (H.hash_combine (H.hash_combine (H.hash_combine (H.hash_combine
        (H.hash_combine 0 200) 2) 0) 0) (H.type_code RHI_Descriptor_Texture)) 1 := rfl
  rw [e0, e1] at hne
  have hb1 := beq_false_of_ne hne
  have hb2 := beq_false_of_ne (Ne.symm hne)
  simp [bind_run, bind_step, Sample.layout_round_trip, GetDescriptorSet, CreateDescriptorSet,
    GetDescriptorBlueprintHash, Sample.pipeline, SetTexture, SetTexture.loop, Sample.descriptor,
    Sample.texture_layout_1, Sample.texture_layout_0, Sample.device, UINT32, map_assign,
    List.lookup, last_bound, cached_for_blueprint, hb1, hb2, hne, Ne.symm hne]

/-- C27 at the sample hash, which tells the two blueprints apart. -/
theorem GetDescriptorSet_null_with_stale_set_witness :
    (GetDescriptorBlueprintHash Sample.hash
        (Sample.pipeline.SetTexture 0 Sample.texture_layout_1) [] ≠
      GetDescriptorBlueprintHash Sample.hash Sample.pipeline []) ∧
    ((bind_run Sample.hash Sample.pipeline
        (Sample.layout_round_trip.take 3)).1.m_descriptors.map
      (fun d => (d.id, d.layout)) = [(0, 1)] ∧
    (bind_run Sample.hash Sample.pipeline Sample.layout_round_trip).1.m_descriptors.map
      (fun d => (d.id, d.layout)) = [(0, 0)] ∧
    (bind_run Sample.hash Sample.pipeline Sample.layout_round_trip).2 = [55, 56, 0] ∧
    last_bound (bind_run Sample.hash Sample.pipeline Sample.layout_round_trip).2 = some 56 ∧
    cached_for_blueprint Sample.hash
      (bind_run Sample.hash Sample.pipeline Sample.layout_round_trip).1 = some 55) :=
  ⟨by decide, GetDescriptorSet_null_with_stale_set Sample.hash (by decide)⟩

end RHI_Pipeline

/-! ## Recorded commands -/

namespace RHI_Command

/-- What `Clear` does to any command: every member it assigns gets its default, and the
four members it does not assign (`render_target_clear`, `render_target_clear_color`,
`viewport`, `scissor_rectangle`) keep their contents. -/
theorem Clear_eq (c : RHI_Command) :
    c.Clear =
      { RHI_Command.new c.render_target_clear_color c.viewport c.scissor_rectangle with
        render_target_clear := c.render_target_clear } := by
  rfl

/-- C22 fails on the code. The sample command holds the handle 5 in `render_target_clear`;
after `Clear` the member still holds 5, while a default-constructed command holds the null
handle there, whatever the default colour, viewport and rectangle are; the clear colour,
the viewport and the scissor rectangle of the sample command are kept as well. -/
theorem Clear_keeps_render_target_clear (color : Vector4) (viewport : RHI_Viewport)
    (rectangle : Rectangle) :
    Sample.command.render_target_clear = 5 ∧
    Sample.command.Clear.render_target_clear = 5 ∧
    (RHI_Command.new color viewport rectangle).render_target_clear = 0 ∧
    Sample.command.Clear ≠ RHI_Command.new color viewport rectangle ∧
    Sample.command.Clear.render_target_clear_color = Sample.command.render_target_clear_color ∧
    Sample.command.Clear.viewport = Sample.command.viewport ∧
    Sample.command.Clear.scissor_rectangle = Sample.command.scissor_rectangle := by
  refine ⟨rfl, rfl, rfl, ?_, rfl, rfl, rfl⟩
  intro h
  have h5 : (5 : Nat) = 0 := congrArg RHI_Command.render_target_clear h
  exact absurd h5 (by decide)

end RHI_Command

/-! ## Render passes -/

namespace Renderer_Passes

open Renderer_Shader_Type

/-- The three shaders the guard of `Pass_Bloom` tests: when one of them is not compiled,
the pass makes no call on the command list. -/
theorem Pass_Bloom_skipped_when_tested_shader_missing (R : Renderer_Passes)
    (tex_in tex_out : Nat)
    (h : R.IsCompiled Shader_BloomDownsample_P = false ∨
      R.IsCompiled Shader_BloomDownsampleLuminance_P = false ∨
      R.IsCompiled Shader_Upsample_P = false) :
    Pass_Bloom R tex_in tex_out = [] := by
  unfold Pass_Bloom
  rcases h with h | h | h <;> simp [h]

/-- C23 fails on the code. With the bloom blend shader not compiled and the other three
compiled, `Pass_Bloom` is not skipped: its first call on the command list is
`Begin("Pass_Bloom")`, and it goes on to set the blend shader that is not compiled as the
pixel shader and to draw with it. -/
theorem Pass_Bloom_runs_without_blend_shader :
    Sample.renderer_blend_missing.IsCompiled Shader_BloomBlend_P = false ∧
    Sample.renderer_blend_missing.IsCompiled Shader_BloomDownsampleLuminance_P = true ∧
    Sample.renderer_blend_missing.IsCompiled Shader_BloomDownsample_P = true ∧
    Sample.renderer_blend_missing.IsCompiled Shader_Upsample_P = true ∧
    (Pass_Bloom Sample.renderer_blend_missing 7 8).head? =
      some (PassCall.Begin "Pass_Bloom" false) ∧
    (Pass_Bloom Sample.renderer_blend_missing 7 8).length = 64 ∧
    (Pass_Bloom Sample.renderer_blend_missing 7 8).drop 59 =
      [ PassCall.SetShaderPixel Shader_BloomBlend_P,
        PassCall.DrawIndexed 6 0 0,
        PassCall.End,
        PassCall.End,
        PassCall.Submit ] := by
  decide

/-- Whenever `Pass_Main` gets past its two guards, the flag is set afterwards, whatever
`Pass_BrdfSpecularLut` did. -/
theorem Pass_Main_sets_flag (R : Renderer_Passes) (later : List PassCall)
    (hdevice : R.m_rhi_device = true) (hbegin : R.Begin "Pass_Main" = true) :
    (Pass_Main R later).1.m_brdf_specular_lut_rendered = true := by
  unfold Pass_Main Pass_Main.lut
  simp only [hdevice, hbegin, Bool.not_true, if_true]
  cases hflag : R.m_brdf_specular_lut_rendered <;> simp [hflag]

/-- C30 fails on the code. With the quad vertex shader not compiled and the flag clear,
`Pass_BrdfSpecularLut` returns at its guard without a call on the command list, so no LUT
draw is recorded, and `Pass_Main` sets `m_brdf_specular_lut_rendered` all the same; a
second `Pass_Main`, with every shader compiled by then, does not call
`Pass_BrdfSpecularLut` any more. -/
theorem Pass_Main_sets_flag_without_LUT_draw (later : List PassCall) :
    Sample.renderer_quad_missing.IsCompiled Shader_Quad_V = false ∧
    Sample.renderer_quad_missing.m_brdf_specular_lut_rendered = false ∧
    Pass_BrdfSpecularLut Sample.renderer_quad_missing = [] ∧
    (Pass_Main Sample.renderer_quad_missing later).2 =
      [PassCall.Begin "Pass_Main" true, PassCall.Begin "UpdateFrameBuffer" true, PassCall.End]
        ++ later ++ [PassCall.End] ∧
    (Pass_Main Sample.renderer_quad_missing later).1.m_brdf_specular_lut_rendered = true ∧
    (Pass_Main
        { (Pass_Main Sample.renderer_quad_missing later).1 with IsCompiled := fun _ => true }
        later).2 =
      [PassCall.Begin "Pass_Main" true, PassCall.Begin "UpdateFrameBuffer" true, PassCall.End]
        ++ later ++ [PassCall.End] := by
  refine ⟨rfl, rfl, rfl, ?_, rfl, ?_⟩
  · simp [Pass_Main, Pass_Main.lut, Pass_BrdfSpecularLut, Sample.renderer_quad_missing,
      Sample.renderer_passes]
  · simp [Pass_Main, Pass_Main.lut, Pass_BrdfSpecularLut, Sample.renderer_quad_missing,
      Sample.renderer_passes]

end Renderer_Passes

end Spartan
